import Mathlib

/-!
Shallow embedding of the `unreal_internal_scripts` repository (four Python
editor-automation scripts: `internal_input_setup.py`,
`internal_spaceship_creator.py`, `internal_weapon_system.py`,
`internal_complete_setup.py`).

The scripts drive a host editor API.  The embedding models a run as a
computation in a monad `M` over a `World` (the editor-visible state: content
directories, assets, input mappings, blueprint components, properties,
member variables, level actors).  Every host-API call consults an `Oracle`
that decides, per call name and per occurrence, whether the call succeeds
(`ok`), returns a null object (`nil`), or raises an exception (`raise`).
Each run also produces a trace of events (log lines, host calls, function
entries) about which the claims are stated.
-/

namespace Dogfight

/-- Outcome of one host-API call, chosen by the host oracle. -/
inductive Outcome where
  | ok
  | nil
  | raise
deriving DecidableEq, Repr

/-- A property value assigned via `set_editor_property`.  Float literals of
the scripts are represented as rationals (no arithmetic is ever performed
on them). -/
inductive PVal where
  | num (q : Rat)
  | flag (b : Bool)
  | vec (x y z : Rat)
  | rot (pitch yaw roll : Rat)
  | asset (path : String)
  | enumVal (s : String)
  | objRef (o : Option String)
deriving DecidableEq, Repr

/-- An action mapping of the input settings (`unreal.InputActionKeyMapping`). -/
structure ActionMapping where
  actionName : String
  key : String
deriving DecidableEq, Repr

/-- An axis mapping of the input settings (`unreal.InputAxisKeyMapping`). -/
structure AxisMapping where
  axisName : String
  key : String
  scale : Rat
deriving DecidableEq, Repr

/-- A component attached to a blueprint: owning blueprint asset path,
component name, component class, and parent component handle. -/
structure Component where
  owner : String
  name : String
  cls : String
  parent : Option String
deriving DecidableEq, Repr

/-- The editor-visible state the scripts manipulate. -/
structure World where
  dirs : List String
  assets : List String
  actionMappings : List ActionMapping
  axisMappings : List AxisMapping
  comps : List Component
  props : List (String × String × PVal)
  vars : List (String × String × String × PVal)
  actors : List String
deriving DecidableEq, Repr

/-- Trace events of a run. -/
inductive Ev where
  | log (msg : String)
  | call (api : String) (arg : String) (out : Outcome)
  | enter (fn : String) (arg : String)
deriving DecidableEq, Repr

/-- The host oracle: for an API name and the occurrence index of the call
with that name, the outcome of the call. -/
def Oracle : Type := String → Nat → Outcome

/-- Machine state: the world plus per-API-name occurrence counters. -/
structure St where
  w : World
  cnt : String → Nat

/-- Result of running a computation: a normal value or a propagating
exception, the final state, and the emitted trace. -/
structure Res (α : Type) where
  r : Except String α
  s : St
  tr : List Ev

/-- The script monad: state, exceptions and a trace, with host behaviour
supplied by the oracle. -/
def M (α : Type) : Type := Oracle → St → Res α

def M.pure (a : α) : M α := fun _ s => ⟨.ok a, s, []⟩

def M.bind (f : M α) (g : α → M β) : M β := fun oc s =>
  match f oc s with
  | ⟨.error e, s1, tr1⟩ => ⟨.error e, s1, tr1⟩
  | ⟨.ok a, s1, tr1⟩ =>
    match g a oc s1 with
    | ⟨r2, s2, tr2⟩ => ⟨r2, s2, tr1 ++ tr2⟩

instance : Monad M where
  pure := M.pure
  bind := M.bind

/-- A Python `try`/`except` block: effects performed before the exception
persist, the handler receives the exception message. -/
def tryM (body : M α) (handler : String → M α) : M α := fun oc s =>
  match body oc s with
  | ⟨.ok a, s1, tr1⟩ => ⟨.ok a, s1, tr1⟩
  | ⟨.error e, s1, tr1⟩ =>
    match handler e oc s1 with
    | ⟨r2, s2, tr2⟩ => ⟨r2, s2, tr1 ++ tr2⟩

/-- Raise a Python exception. -/
def raiseM (msg : String) : M α := fun _ s => ⟨.error msg, s, []⟩

/-- The scripts' `log` helper (`unreal.log` with a tag prefix). -/
def logM (tag msg : String) : M Unit := fun _ s => ⟨.ok (), s, [.log (tag ++ msg)]⟩

/-- Entry marker of a Python function. -/
def emitEnter (fn arg : String) : M Unit := fun _ s => ⟨.ok (), s, [.enter fn arg]⟩

/-- Bump the occurrence counter of one API name. -/
def bump (c : String → Nat) (name : String) : String → Nat :=
  fun n => if n = name then c n + 1 else c n

/-- One host-API call.  On `ok` the call computes its result and effect from
the world via `spec`; on `raise` a Python exception propagates and the world
is untouched; on `nil` the call returns `onNil` if given (null result,
no effect), else behaves like `ok` (for calls with no null result). -/
def hostCall (name arg : String) (spec : World → α × World) (onNil : Option α) : M α :=
  fun oc s =>
    match oc name (s.cnt name) with
    | .raise => ⟨.error (name ++ " raised"), ⟨s.w, bump s.cnt name⟩, [.call name arg .raise]⟩
    | .nil =>
      match onNil with
      | some a => ⟨.ok a, ⟨s.w, bump s.cnt name⟩, [.call name arg .nil]⟩
      | none => ⟨.ok (spec s.w).1, ⟨(spec s.w).2, bump s.cnt name⟩, [.call name arg .nil]⟩
    | .ok => ⟨.ok (spec s.w).1, ⟨(spec s.w).2, bump s.cnt name⟩, [.call name arg .ok]⟩

/-- A host call returning a plain value (no null result). -/
def callR (name arg : String) (spec : World → α × World) : M α := hostCall name arg spec none

/-- A host call returning an object, which the host may return as `None`. -/
def callN (name arg : String) (spec : World → Option β × World) : M (Option β) :=
  hostCall name arg spec (some none)

/-- A host call performed for its effect. -/
def callU (name arg : String) (eff : World → World) : M Unit :=
  hostCall name arg (fun w => ((), eff w)) none

/-- A method call on a possibly-`None` Python object: on `None` an
`AttributeError` is raised. -/
def withObj (o : Option String) (k : String → M α) : M α :=
  match o with
  | none => raiseM "AttributeError: NoneType object"
  | some h => k h

/-- A Python `for` loop over a list. -/
def eachM : List α → (α → M Unit) → M Unit
  | [], _ => M.pure ()
  | a :: l, body => M.bind (body a) (fun _ => eachM l body)

theorem bind_eq (f : M α) (g : α → M β) : f >>= g = M.bind f g := rfl

theorem pure_eq (a : α) : (Pure.pure a : M α) = M.pure a := rfl

theorem bind_ok {f : M α} {g : α → M β} {oc : Oracle} {s : St} {a : α}
    (h : (f oc s).r = .ok a) :
    M.bind f g oc s =
      ⟨(g a oc (f oc s).s).r, (g a oc (f oc s).s).s, (f oc s).tr ++ (g a oc (f oc s).s).tr⟩ := by
  unfold M.bind
  rcases hf : f oc s with ⟨r1, s1, tr1⟩
  rw [hf] at h
  simp at h
  subst h
  rcases hg : g a oc s1 with ⟨r2, s2, tr2⟩
  simp [hf, hg]

theorem bind_err {f : M α} {g : α → M β} {oc : Oracle} {s : St} {e : String}
    (h : (f oc s).r = .error e) :
    M.bind f g oc s = ⟨.error e, (f oc s).s, (f oc s).tr⟩ := by
  unfold M.bind
  rcases hf : f oc s with ⟨r1, s1, tr1⟩
  rw [hf] at h
  simp at h
  subst h
  simp [hf]

theorem tryM_ok {body : M α} {handler : String → M α} {oc : Oracle} {s : St} {a : α}
    (h : (body oc s).r = .ok a) :
    tryM body handler oc s = ⟨.ok a, (body oc s).s, (body oc s).tr⟩ := by
  unfold tryM
  rcases hb : body oc s with ⟨r1, s1, tr1⟩
  rw [hb] at h
  simp at h
  subst h
  simp [hb]

theorem tryM_err {body : M α} {handler : String → M α} {oc : Oracle} {s : St} {e : String}
    (h : (body oc s).r = .error e) :
    tryM body handler oc s =
      ⟨(handler e oc (body oc s).s).r, (handler e oc (body oc s).s).s,
        (body oc s).tr ++ (handler e oc (body oc s).s).tr⟩ := by
  unfold tryM
  rcases hb : body oc s with ⟨r1, s1, tr1⟩
  rw [hb] at h
  simp at h
  subst h
  rcases hh : handler e oc s1 with ⟨r2, s2, tr2⟩
  simp [hb, hh]

/-! ## Shared host-API wrappers (the `unreal` module surface the scripts use) -/

namespace unreal

/-- `EditorAssetLibrary.does_directory_exist`. -/
def does_directory_exist (path : String) : M Bool :=
  callR "does_directory_exist" path (fun w => (decide (path ∈ w.dirs), w))

/-- `EditorAssetLibrary.make_directory`. -/
def make_directory (path : String) : M Unit :=
  callU "make_directory" path (fun w => { w with dirs := w.dirs ++ [path] })

/-- `EditorAssetLibrary.does_asset_exist`. -/
def does_asset_exist (path : String) : M Bool :=
  callR "does_asset_exist" path (fun w => (decide (path ∈ w.assets), w))

/-- `EditorAssetLibrary.load_asset`: the existing asset, or `None` when absent. -/
def load_asset (path : String) : M (Option String) :=
  callN "load_asset" path
    (fun w => (if decide (path ∈ w.assets) then some path else none, w))

/-- `EditorAssetLibrary.load_blueprint_class`. -/
def load_blueprint_class (path : String) : M (Option String) :=
  callN "load_blueprint_class" path
    (fun w => (if decide (path ∈ w.assets) then some (path ++ "_C") else none, w))

/-- `asset_tools.create_asset`: creates a blueprint asset at `path/name`. -/
def create_asset (name path : String) : M (Option String) :=
  callN "create_asset" (name ++ "," ++ path)
    (fun w => (some (path ++ "/" ++ name), { w with assets := w.assets ++ [path ++ "/" ++ name] }))

/-- `unreal.get_editor_subsystem`. -/
def get_editor_subsystem (name : String) : M (Option String) :=
  callN "get_editor_subsystem" name (fun w => (some name, w))

/-- `blueprint_editor.open_blueprint`. -/
def open_blueprint (bp : String) : M Unit :=
  callU "open_blueprint" bp (fun w => w)

/-- `BlueprintEditorLibrary.get_components_from_blueprint`. -/
def get_components_from_blueprint (bp : String) : M (List Component) :=
  callR "get_components_from_blueprint" bp
    (fun w => (w.comps.filter (fun c => c.owner == bp), w))

/-- `blueprint_editor.add_new_component_to_blueprint`: attaches a component
and returns its handle, or `None` on host failure. -/
def add_new_component_to_blueprint (bp cls name : String) (parent : Option String) :
    M (Option String) :=
  callN "add_new_component_to_blueprint" (bp ++ ":" ++ name)
    (fun w => (some (bp ++ ":" ++ name),
      { w with comps := w.comps ++ [⟨bp, name, cls, parent⟩] }))

/-- `obj.set_editor_property` on the object with handle `obj`. -/
def set_editor_property (obj prop : String) (v : PVal) : M Unit :=
  callU "set_editor_property" (obj ++ ":" ++ prop)
    (fun w => { w with props := w.props ++ [(obj, prop, v)] })

/-- `BlueprintEditorLibrary.does_member_variable_exist`. -/
def does_member_variable_exist (bp varName : String) : M Bool :=
  callR "does_member_variable_exist" (bp ++ ":" ++ varName)
    (fun w => (w.vars.any (fun v => v.1 == bp && v.2.1 == varName), w))

/-- `blueprint_editor.add_member_variable`: on success appends the variable
and returns `True`; the host may report failure as `False`. -/
def add_member_variable (bp varName ty : String) (dflt : PVal) : M Bool :=
  hostCall "add_member_variable" (bp ++ ":" ++ varName)
    (fun w => (true, { w with vars := w.vars ++ [(bp, varName, ty, dflt)] }))
    (some false)

/-- `blueprint_editor.compile_blueprint`. -/
def compile_blueprint (bp : String) : M Unit :=
  callU "compile_blueprint" bp (fun w => w)

/-- `EditorAssetLibrary.save_asset`. -/
def save_asset (path : String) : M Unit :=
  callU "save_asset" path (fun w => w)

end unreal

/-- The root-component lookup pattern shared by the component-setup
functions (get the `DefaultSceneRoot` component, creating it when absent;
`created` is the script-specific log emitted on creation). -/
def getOrCreateRoot (blueprint : String) (rcs : List Component) (created : M Unit) :
    M (Option String) :=
  match rcs.find? (fun comp => comp.name == "DefaultSceneRoot") with
  | some comp => M.pure (some (comp.owner ++ ":" ++ comp.name))
  | none => do
    let r ← unreal.add_new_component_to_blueprint blueprint "SceneComponent"
      "DefaultSceneRoot" none
    created
    M.pure r

/-- The `if not ok: log(warning)` statement pattern of the `main` functions. -/
def warnUnless (ok : Bool) (warning : M Unit) : M Unit :=
  if !ok then warning else M.pure ()

/-! ## `internal_input_setup.py` -/

namespace internal_input_setup

/-- `log` of `internal_input_setup.py`. -/
def log (msg : String) : M Unit := logM "[INPUT SETUP] " msg

/-- The literal `action_mappings` table (lines 29-34 of the script). -/
def action_mappings : List ActionMapping :=
  [⟨"Boost", "E"⟩, ⟨"Brake", "R"⟩,
   ⟨"PrimaryFire", "LEFT_MOUSE_BUTTON"⟩, ⟨"SecondaryFire", "RIGHT_MOUSE_BUTTON"⟩]

/-- The literal `axis_mappings` table (lines 37-47 of the script). -/
def axis_mappings : List AxisMapping :=
  [⟨"MoveForward", "W", 1⟩, ⟨"MoveForward", "S", -1⟩,
   ⟨"MoveRight", "D", 1⟩, ⟨"MoveRight", "A", -1⟩,
   ⟨"MoveUp", "Q", 1⟩, ⟨"MoveUp", "Z", -1⟩,
   ⟨"Turn", "MOUSE_X", 1⟩, ⟨"LookUp", "MOUSE_Y", -1⟩,
   ⟨"CameraZoom", "MOUSE_WHEEL_AXIS", 1⟩]

/-- The nested loop clearing existing action bindings (lines 50-54):
for each table entry, every snapshot entry with the same action name is
removed via `remove_action_mapping`. -/
def removeActions (table snapshot : List ActionMapping) : M Unit :=
  eachM table (fun action =>
    eachM snapshot (fun existing =>
      if existing.actionName == action.actionName then
        callU "remove_action_mapping" (existing.actionName ++ "," ++ existing.key)
          (fun w => { w with actionMappings :=
            w.actionMappings.filter (fun m => !(decide (m = existing))) })
      else M.pure ()))

/-- The nested loop clearing existing axis bindings (lines 56-60). -/
def removeAxes (table snapshot : List AxisMapping) : M Unit :=
  eachM table (fun axis =>
    eachM snapshot (fun existing =>
      if existing.axisName == axis.axisName then
        callU "remove_axis_mapping" (existing.axisName ++ "," ++ existing.key)
          (fun w => { w with axisMappings :=
            w.axisMappings.filter (fun m => !(decide (m = existing))) })
      else M.pure ()))

/-- The loop adding the action mappings (lines 62-66). -/
def addActions (table : List ActionMapping) : M Unit :=
  eachM table (fun action => do
    callU "add_action_mapping" (action.actionName ++ "," ++ action.key)
      (fun w => { w with actionMappings := w.actionMappings ++ [action] })
    log ("Added action mapping: " ++ action.actionName ++ " -> " ++ action.key))

/-- The loop adding the axis mappings (lines 68-76). -/
def addAxes (table : List AxisMapping) : M Unit :=
  eachM table (fun axis => do
    callU "add_axis_mapping" (axis.axisName ++ "," ++ axis.key)
      (fun w => { w with axisMappings := w.axisMappings ++ [axis] })
    log ("Added axis mapping: " ++ axis.axisName ++ " -> " ++ axis.key))

/-- The `try` block of `setup_input_mappings` (lines 21-83). -/
def setup_input_mappings_try : M Bool := do
  let input_settings ← callN "get_default_object" "InputSettings"
    (fun w => (some "InputSettings", w))
  match input_settings with
  | none => do
    log "Failed to get input settings"
    M.pure false
  | some _ => do
    let existing_action_mappings ← callR "get_action_mappings" ""
      (fun w => (w.actionMappings, w))
    removeActions action_mappings existing_action_mappings
    let existing_axis_mappings ← callR "get_axis_mappings" ""
      (fun w => (w.axisMappings, w))
    removeAxes axis_mappings existing_axis_mappings
    addActions action_mappings
    addAxes axis_mappings
    let editor_subsystem ← callN "get_editor_subsystem" "EditorPreferencesSubsystem"
      (fun w => (some "EditorPreferencesSubsystem", w))
    withObj editor_subsystem (fun _ =>
      callU "save_config_file" "input_settings" (fun w => w))
    log "Successfully set up input mappings"
    M.pure true

/-- The `except` handler of `setup_input_mappings` (lines 85-87). -/
def setup_input_mappings_handler (e : String) : M Bool := do
  log ("Error setting up input mappings: " ++ e)
  M.pure false

/-- `setup_input_mappings` (lines 19-87): the whole body is inside a broad
`try`, whose handler logs the error and returns `False`. -/
def setup_input_mappings : M Bool := do
  emitEnter "internal_input_setup.setup_input_mappings" ""
  tryM setup_input_mappings_try setup_input_mappings_handler

/-- The body of `main` (lines 89-100): on failure it logs and returns
early, skipping the completion logs. -/
def main_body : M Unit := do
  log "Starting input control system setup..."
  let ok ← setup_input_mappings
  if !ok then do
    log "Failed to set up input mappings, aborting"
    M.pure ()
  else do
    log "Input control system setup completed!"
    log "You can now use the input mappings in the game"
    log "To test them, enter Play-in-Editor mode and use the WASD keys for movement, mouse for aim"

/-- `main` of `internal_input_setup.py`. -/
def main : M Unit := do
  emitEnter "internal_input_setup.main" ""
  main_body

end internal_input_setup

/-! ## `internal_spaceship_creator.py` -/

namespace internal_spaceship_creator

def BLUEPRINT_PATH : String := "/Game/SpaceDogfight/Blueprints"

def SPACESHIP_BP_NAME : String := "BP_Spaceship"

def SPACESHIP_FULL_PATH : String := BLUEPRINT_PATH ++ "/" ++ SPACESHIP_BP_NAME

/-- `log` of `internal_spaceship_creator.py`. -/
def log (msg : String) : M Unit := logM "[SPACESHIP CREATOR] " msg

/-- Body of `ensure_directory_exists` (lines 30-37): both branches return
`True` (no `try`; a raising host call propagates). -/
def ensure_directory_exists_body (path : String) : M Bool := do
  let ex ← unreal.does_directory_exist path
  if !ex then do
    log ("Creating directory: " ++ path)
    unreal.make_directory path
    M.pure true
  else do
    log ("Directory already exists: " ++ path)
    M.pure true

/-- `ensure_directory_exists` (lines 30-37). -/
def ensure_directory_exists (path : String) : M Bool := do
  emitEnter "internal_spaceship_creator.ensure_directory_exists" path
  ensure_directory_exists_body path

/-- Body of `create_spaceship_blueprint` (lines 39-64).  There is no `try`
in this function: a raising host call propagates to the caller. -/
def create_spaceship_blueprint_body : M (Option String) := do
  let ok ← ensure_directory_exists BLUEPRINT_PATH
  if !ok then do
    log "Failed to create blueprint directory"
    M.pure none
  else do
    let ex ← unreal.does_asset_exist SPACESHIP_FULL_PATH
    if ex then do
      log ("Blueprint already exists at " ++ SPACESHIP_FULL_PATH ++ ", using existing blueprint")
      unreal.load_asset SPACESHIP_FULL_PATH
    else do
      let factory ← callR "BlueprintFactory" "" (fun w => ("factory", w))
      unreal.set_editor_property factory "ParentClass" (PVal.asset "Pawn")
      let _asset_tools ← callR "get_asset_tools" "" (fun w => ("asset_tools", w))
      let new_blueprint ← unreal.create_asset SPACESHIP_BP_NAME BLUEPRINT_PATH
      match new_blueprint with
      | none => do
        log "Failed to create spaceship blueprint"
        M.pure none
      | some nb => do
        log ("Successfully created blueprint at " ++ SPACESHIP_FULL_PATH)
        M.pure (some nb)

/-- `create_spaceship_blueprint` (lines 39-64). -/
def create_spaceship_blueprint : M (Option String) := do
  emitEnter "internal_spaceship_creator.create_spaceship_blueprint" ""
  create_spaceship_blueprint_body

/-- The `try` block of `add_components_to_blueprint` (lines 79-203). -/
def add_components_to_blueprint_try (blueprint : String) : M Bool := do
  let blueprint_editor ← unreal.get_editor_subsystem "BlueprintEditorSubsystem"
  withObj blueprint_editor (fun _ => do
    unreal.open_blueprint blueprint
    let root_components ← unreal.get_components_from_blueprint blueprint
    let root_comp ← getOrCreateRoot blueprint root_components
      (log "Created DefaultSceneRoot component")
    let ship_mesh ← unreal.add_new_component_to_blueprint blueprint "StaticMeshComponent"
      "ShipMesh" root_comp
    (match ship_mesh with
     | some sm => do
       let cone_mesh ← unreal.load_asset "/Engine/BasicShapes/Cone"
       (match cone_mesh with
        | some cm => do
          unreal.set_editor_property sm "StaticMesh" (PVal.asset cm)
          log "Set ship mesh to cone"
        | none => log "Failed to load cone mesh")
     | none => log "Failed to create ship mesh component")
    let collision ← unreal.add_new_component_to_blueprint blueprint "SphereComponent"
      "CollisionSphere" root_comp
    (match collision with
     | some c => do
       unreal.set_editor_property c "SphereRadius" (PVal.num 50)
       log "Created collision sphere component with 50.0 radius"
     | none => log "Failed to create collision component")
    let spring_arm ← unreal.add_new_component_to_blueprint blueprint "SpringArmComponent"
      "CameraSpringArm" root_comp
    (match spring_arm with
     | some sa => do
       unreal.set_editor_property sa "TargetArmLength" (PVal.num 400)
       unreal.set_editor_property sa "bEnableCameraLag" (PVal.flag true)
       unreal.set_editor_property sa "bEnableCameraRotationLag" (PVal.flag true)
       unreal.set_editor_property sa "CameraLagSpeed" (PVal.num 5)
       unreal.set_editor_property sa "CameraRotationLagSpeed" (PVal.num 5)
       unreal.set_editor_property sa "bUsePawnControlRotation" (PVal.flag true)
       unreal.set_editor_property sa "RelativeLocation" (PVal.vec 0 0 50)
       unreal.set_editor_property sa "RelativeRotation" (PVal.rot (-20) 0 0)
       log "Created and configured camera spring arm"
     | none => log "Failed to create spring arm component")
    let camera ← unreal.add_new_component_to_blueprint blueprint "CameraComponent"
      "FollowCamera" spring_arm
    (match camera with
     | some cam => do
       unreal.set_editor_property cam "FieldOfView" (PVal.num 90)
       log "Created and configured camera component"
     | none => log "Failed to create camera component")
    let movement ← unreal.add_new_component_to_blueprint blueprint "FloatingPawnMovement"
      "MovementComponent" root_comp
    (match movement with
     | some mv => do
       unreal.set_editor_property mv "MaxSpeed" (PVal.num 1000)
       unreal.set_editor_property mv "Acceleration" (PVal.num 4000)
       unreal.set_editor_property mv "Deceleration" (PVal.num 2000)
       unreal.set_editor_property mv "TurningBoost" (PVal.num 8)
       unreal.set_editor_property mv "bConstrainToPlane" (PVal.flag false)
       log "Created and configured movement component"
     | none => log "Failed to create movement component")
    unreal.compile_blueprint blueprint
    unreal.save_asset SPACESHIP_FULL_PATH
    log "Successfully added components to spaceship blueprint"
    M.pure true)

/-- Body of `add_components_to_blueprint` (lines 66-203).  Note the
`load_blueprint_class` call sits before the `try` block: if it raises, the
exception propagates. -/
def add_components_to_blueprint_body (blueprint : Option String) : M Bool :=
  match blueprint with
  | none => do
    log "No blueprint provided, cannot add components"
    M.pure false
  | some bp => do
    let blueprint_obj ← unreal.load_blueprint_class SPACESHIP_FULL_PATH
    match blueprint_obj with
    | none => do
      log "Failed to load blueprint class"
      M.pure false
    | some _ =>
      tryM (add_components_to_blueprint_try bp)
        (fun e => do
          log ("Error adding components: " ++ e)
          M.pure false)

/-- `add_components_to_blueprint` (lines 66-203). -/
def add_components_to_blueprint (blueprint : Option String) : M Bool := do
  emitEnter "internal_spaceship_creator.add_components_to_blueprint" ""
  add_components_to_blueprint_body blueprint

/-- The literal `variables` table of `add_blueprint_variables`
(lines 216-234); every entry is a float pin type. -/
def variables_table : List (String × PVal) :=
  [("Health", .num 100), ("MaxSpeed", .num 1000), ("ThrustForce", .num 4000),
   ("RollRate", .num 100), ("PitchRate", .num 90), ("YawRate", .num 90),
   ("LinearDamping", .num (1/10)), ("AngularDamping", .num (3/10)),
   ("BoostMultiplier", .num 2), ("BrakeForce", .num 3000),
   ("MinZoomDistance", .num 200), ("MaxZoomDistance", .num 800),
   ("ZoomSpeed", .num 50), ("CurrentZoomTarget", .num 400),
   ("BoostCameraShakeIntensity", .num 1), ("DamageCameraShakeIntensity", .num 2),
   ("CameraShakeDuration", .num (3/10))]

/-- The `try` block of `add_blueprint_variables` (lines 211-259), with the
per-variable inner `try` (lines 238-252). -/
def add_blueprint_variables_try (bp : String) : M Bool := do
  let blueprint_editor ← unreal.get_editor_subsystem "BlueprintEditorSubsystem"
  eachM variables_table (fun var =>
    tryM (do
      let ex ← unreal.does_member_variable_exist bp var.1
      if ex then do
        log ("Variable " ++ var.1 ++ " already exists, skipping")
        M.pure ()
      else do
        let result ← withObj blueprint_editor (fun _ =>
          unreal.add_member_variable bp var.1 "float" var.2)
        if result then log ("Added variable " ++ var.1)
        else log ("Failed to add variable " ++ var.1))
      (fun e => log ("Error adding variable " ++ var.1 ++ ": " ++ e)))
  withObj blueprint_editor (fun _ => unreal.compile_blueprint bp)
  unreal.save_asset SPACESHIP_FULL_PATH
  log "Successfully added variables to spaceship blueprint"
  M.pure true

/-- Body of `add_blueprint_variables` (lines 205-263). -/
def add_blueprint_variables_body (blueprint : Option String) : M Bool :=
  match blueprint with
  | none => do
    log "No blueprint provided, cannot add variables"
    M.pure false
  | some bp =>
    tryM (add_blueprint_variables_try bp)
      (fun e => do
        log ("Error adding blueprint variables: " ++ e)
        M.pure false)

/-- `add_blueprint_variables` (lines 205-263). -/
def add_blueprint_variables (blueprint : Option String) : M Bool := do
  emitEnter "internal_spaceship_creator.add_blueprint_variables" ""
  add_blueprint_variables_body blueprint

/-- The actor-scan loop of `spawn_test_instance` (lines 275-280): destroy
the first existing actor labelled `TestSpaceship`, then `break`.  Level
actors are modelled by their labels. -/
def find_test_spaceship : List String → M Unit
  | [] => M.pure ()
  | actor :: rest =>
    if actor == "TestSpaceship" then do
      log "Test spaceship already exists, removing it"
      callU "destroy_actor" actor (fun w => { w with actors := w.actors.erase actor })
    else find_test_spaceship rest

/-- The `try` block of `spawn_test_instance` (lines 267-298). -/
def spawn_test_instance_try : M Bool := do
  let blueprint_class ← unreal.load_blueprint_class SPACESHIP_FULL_PATH
  match blueprint_class with
  | none => do
    log "Failed to load spaceship blueprint class"
    M.pure false
  | some cls => do
    let actors ← callR "get_all_level_actors" "" (fun w => (w.actors, w))
    find_test_spaceship actors
    let spawned_actor ← callN "spawn_actor_from_class" cls (fun w => (some "TestActor", w))
    match spawned_actor with
    | none => do
      log "Failed to spawn test spaceship"
      M.pure false
    | some act => do
      callU "set_actor_label" (act ++ ":TestSpaceship")
        (fun w => { w with actors := w.actors ++ ["TestSpaceship"] })
      log "Successfully spawned test spaceship"
      M.pure true

/-- `spawn_test_instance` (lines 265-302). -/
def spawn_test_instance : M Bool := do
  emitEnter "internal_spaceship_creator.spawn_test_instance" ""
  tryM spawn_test_instance_try
    (fun e => do
      log ("Error spawning test instance: " ++ e)
      M.pure false)

/-- Body of `main` (lines 304-329): a `None` blueprint aborts the whole
function; later failed steps only log and continue. -/
def main_body : M Unit := do
  log "Starting spaceship setup..."
  let blueprint ← create_spaceship_blueprint
  match blueprint with
  | none => do
    log "Failed to create or get spaceship blueprint, aborting"
    M.pure ()
  | some _ => do
    let ok1 ← add_components_to_blueprint blueprint
    warnUnless ok1 (log "Failed to add components to blueprint, continuing anyway")
    let ok2 ← add_blueprint_variables blueprint
    warnUnless ok2 (log "Failed to add variables to blueprint, continuing anyway")
    let ok3 ← spawn_test_instance
    warnUnless ok3 (log "Failed to spawn test instance, continuing anyway")
    log "Spaceship setup completed!"
    log "You can now use the blueprint in the Unreal Editor"
    log ("Blueprint path: " ++ SPACESHIP_FULL_PATH)
    log "Test instance spawned in the current level"

/-- `main` of `internal_spaceship_creator.py`. -/
def main : M Unit := do
  emitEnter "internal_spaceship_creator.main" ""
  main_body

end internal_spaceship_creator

/-! ## `internal_weapon_system.py` -/

namespace internal_weapon_system

def BLUEPRINT_PATH : String := "/Game/SpaceDogfight/Blueprints"

def WEAPONS_PATH : String := "/Game/SpaceDogfight/Weapons"

def SPACESHIP_BP_NAME : String := "BP_Spaceship"

def LASER_BP_NAME : String := "BP_LaserProjectile"

def MISSILE_BP_NAME : String := "BP_MissileProjectile"

def SPACESHIP_FULL_PATH : String := BLUEPRINT_PATH ++ "/" ++ SPACESHIP_BP_NAME

def LASER_FULL_PATH : String := WEAPONS_PATH ++ "/" ++ LASER_BP_NAME

def MISSILE_FULL_PATH : String := WEAPONS_PATH ++ "/" ++ MISSILE_BP_NAME

/-- `log` of `internal_weapon_system.py`. -/
def log (msg : String) : M Unit := logM "[WEAPON SYSTEM] " msg

/-- Body of `ensure_directory_exists` (lines 35-42): both branches return
`True`; no `try`. -/
def ensure_directory_exists_body (path : String) : M Bool := do
  let ex ← unreal.does_directory_exist path
  if !ex then do
    log ("Creating directory: " ++ path)
    unreal.make_directory path
    M.pure true
  else do
    log ("Directory already exists: " ++ path)
    M.pure true

/-- `ensure_directory_exists` (lines 35-42). -/
def ensure_directory_exists (path : String) : M Bool := do
  emitEnter "internal_weapon_system.ensure_directory_exists" path
  ensure_directory_exists_body path

/-- Body of `create_laser_projectile_blueprint` (lines 44-69); no `try`. -/
def create_laser_projectile_blueprint_body : M (Option String) := do
  let ok ← ensure_directory_exists WEAPONS_PATH
  if !ok then do
    log "Failed to create weapons directory"
    M.pure none
  else do
    let ex ← unreal.does_asset_exist LASER_FULL_PATH
    if ex then do
      log ("Laser blueprint already exists at " ++ LASER_FULL_PATH ++ ", using existing blueprint")
      unreal.load_asset LASER_FULL_PATH
    else do
      let factory ← callR "BlueprintFactory" "" (fun w => ("factory", w))
      unreal.set_editor_property factory "ParentClass" (PVal.asset "Actor")
      let _asset_tools ← callR "get_asset_tools" "" (fun w => ("asset_tools", w))
      let new_blueprint ← unreal.create_asset LASER_BP_NAME WEAPONS_PATH
      match new_blueprint with
      | none => do
        log "Failed to create laser projectile blueprint"
        M.pure none
      | some nb => do
        log ("Successfully created laser blueprint at " ++ LASER_FULL_PATH)
        M.pure (some nb)

/-- `create_laser_projectile_blueprint` (lines 44-69). -/
def create_laser_projectile_blueprint : M (Option String) := do
  emitEnter "internal_weapon_system.create_laser_projectile_blueprint" ""
  create_laser_projectile_blueprint_body

/-- Body of `create_missile_projectile_blueprint` (lines 71-96); no `try`. -/
def create_missile_projectile_blueprint_body : M (Option String) := do
  let ok ← ensure_directory_exists WEAPONS_PATH
  if !ok then do
    log "Failed to create weapons directory"
    M.pure none
  else do
    let ex ← unreal.does_asset_exist MISSILE_FULL_PATH
    if ex then do
      log ("Missile blueprint already exists at " ++ MISSILE_FULL_PATH ++ ", using existing blueprint")
      unreal.load_asset MISSILE_FULL_PATH
    else do
      let factory ← callR "BlueprintFactory" "" (fun w => ("factory", w))
      unreal.set_editor_property factory "ParentClass" (PVal.asset "Actor")
      let _asset_tools ← callR "get_asset_tools" "" (fun w => ("asset_tools", w))
      let new_blueprint ← unreal.create_asset MISSILE_BP_NAME WEAPONS_PATH
      match new_blueprint with
      | none => do
        log "Failed to create missile projectile blueprint"
        M.pure none
      | some nb => do
        log ("Successfully created missile blueprint at " ++ MISSILE_FULL_PATH)
        M.pure (some nb)

/-- `create_missile_projectile_blueprint` (lines 71-96). -/
def create_missile_projectile_blueprint : M (Option String) := do
  emitEnter "internal_weapon_system.create_missile_projectile_blueprint" ""
  create_missile_projectile_blueprint_body

/-- The `try` block of `setup_laser_components` (lines 104-215). -/
def setup_laser_components_try (blueprint : String) : M Bool := do
  let blueprint_editor ← unreal.get_editor_subsystem "BlueprintEditorSubsystem"
  withObj blueprint_editor (fun _ => do
    unreal.open_blueprint blueprint
    let root_components ← unreal.get_components_from_blueprint blueprint
    let root_comp ← getOrCreateRoot blueprint root_components
      (log "Created DefaultSceneRoot component for laser")
    let projectile_movement ← unreal.add_new_component_to_blueprint blueprint
      "ProjectileMovementComponent" "ProjectileMovement" root_comp
    (match projectile_movement with
     | some pm => do
       unreal.set_editor_property pm "InitialSpeed" (PVal.num 8000)
       unreal.set_editor_property pm "MaxSpeed" (PVal.num 8000)
       unreal.set_editor_property pm "bRotationFollowsVelocity" (PVal.flag true)
       unreal.set_editor_property pm "ProjectileGravityScale" (PVal.num 0)
       log "Created and configured projectile movement component for laser"
     | none => log "Failed to create projectile movement component for laser")
    let cylinder ← unreal.add_new_component_to_blueprint blueprint "StaticMeshComponent"
      "LaserVisual" root_comp
    (match cylinder with
     | some cy => do
       let cylinder_mesh ← unreal.load_asset "/Engine/BasicShapes/Cylinder"
       (match cylinder_mesh with
        | some cm => do
          unreal.set_editor_property cy "StaticMesh" (PVal.asset cm)
          unreal.set_editor_property cy "RelativeScale3D" (PVal.vec (1/10) (1/10) (3/2))
          unreal.set_editor_property cy "RelativeRotation" (PVal.rot 90 0 0)
          log "Set laser visual to scaled cylinder"
        | none => log "Failed to load cylinder mesh for laser")
     | none => log "Failed to create visual component for laser")
    let collision ← unreal.add_new_component_to_blueprint blueprint "CapsuleComponent"
      "CollisionCapsule" root_comp
    (match collision with
     | some c => do
       unreal.set_editor_property c "CapsuleHalfHeight" (PVal.num 75)
       unreal.set_editor_property c "CapsuleRadius" (PVal.num 5)
       unreal.set_editor_property c "CollisionEnabled" (PVal.enumVal "QUERY_ONLY")
       unreal.set_editor_property c "RelativeRotation" (PVal.rot 90 0 0)
       log "Created and configured collision component for laser"
     | none => log "Failed to create collision component for laser")
    tryM (do
      let _r1 ← withObj blueprint_editor (fun _ =>
        unreal.add_member_variable blueprint "Damage" "float" (.num 20))
      log "Added Damage variable to laser"
      let _r2 ← withObj blueprint_editor (fun _ =>
        unreal.add_member_variable blueprint "Lifetime" "float" (.num 2))
      log "Added Lifetime variable to laser"
      M.pure ())
      (fun e => log ("Error adding variables to laser: " ++ e))
    unreal.compile_blueprint blueprint
    unreal.save_asset LASER_FULL_PATH
    log "Successfully set up laser projectile components"
    M.pure true)

/-- `setup_laser_components` (lines 98-219). -/
def setup_laser_components (blueprint : Option String) : M Bool := do
  emitEnter "internal_weapon_system.setup_laser_components" ""
  match blueprint with
  | none => do
    log "No blueprint provided, cannot add components"
    M.pure false
  | some bp =>
    tryM (setup_laser_components_try bp)
      (fun e => do
        log ("Error setting up laser components: " ++ e)
        M.pure false)

/-- The `try` block of `setup_missile_components` (lines 227-345). -/
def setup_missile_components_try (blueprint : String) : M Bool := do
  let blueprint_editor ← unreal.get_editor_subsystem "BlueprintEditorSubsystem"
  withObj blueprint_editor (fun _ => do
    unreal.open_blueprint blueprint
    let root_components ← unreal.get_components_from_blueprint blueprint
    let root_comp ← getOrCreateRoot blueprint root_components
      (log "Created DefaultSceneRoot component for missile")
    let projectile_movement ← unreal.add_new_component_to_blueprint blueprint
      "ProjectileMovementComponent" "ProjectileMovement" root_comp
    (match projectile_movement with
     | some pm => do
       unreal.set_editor_property pm "InitialSpeed" (PVal.num 3000)
       unreal.set_editor_property pm "MaxSpeed" (PVal.num 6000)
       unreal.set_editor_property pm "bRotationFollowsVelocity" (PVal.flag true)
       unreal.set_editor_property pm "ProjectileGravityScale" (PVal.num 0)
       unreal.set_editor_property pm "bIsHomingProjectile" (PVal.flag true)
       unreal.set_editor_property pm "HomingAccelerationMagnitude" (PVal.num 8000)
       log "Created and configured projectile movement component for missile"
     | none => log "Failed to create projectile movement component for missile")
    let cone ← unreal.add_new_component_to_blueprint blueprint "StaticMeshComponent"
      "MissileVisual" root_comp
    (match cone with
     | some co => do
       let cone_mesh ← unreal.load_asset "/Engine/BasicShapes/Cone"
       (match cone_mesh with
        | some cm => do
          unreal.set_editor_property co "StaticMesh" (PVal.asset cm)
          unreal.set_editor_property co "RelativeScale3D" (PVal.vec (3/10) (3/10) (3/5))
          unreal.set_editor_property co "RelativeRotation" (PVal.rot 0 0 0)
          log "Set missile visual to scaled cone"
        | none => log "Failed to load cone mesh for missile")
     | none => log "Failed to create visual component for missile")
    let collision ← unreal.add_new_component_to_blueprint blueprint "SphereComponent"
      "CollisionSphere" root_comp
    (match collision with
     | some c => do
       unreal.set_editor_property c "SphereRadius" (PVal.num 15)
       unreal.set_editor_property c "CollisionEnabled" (PVal.enumVal "QUERY_ONLY")
       log "Created and configured collision component for missile"
     | none => log "Failed to create collision component for missile")
    tryM (do
      let _r1 ← withObj blueprint_editor (fun _ =>
        unreal.add_member_variable blueprint "Damage" "float" (.num 50))
      log "Added Damage variable to missile"
      let _r2 ← withObj blueprint_editor (fun _ =>
        unreal.add_member_variable blueprint "Lifetime" "float" (.num 5))
      log "Added Lifetime variable to missile"
      let _r3 ← withObj blueprint_editor (fun _ =>
        unreal.add_member_variable blueprint "ExplosionRadius" "float" (.num 200))
      log "Added ExplosionRadius variable to missile"
      let _r4 ← withObj blueprint_editor (fun _ =>
        unreal.add_member_variable blueprint "HomingTarget" "object:Actor" (.objRef none))
      log "Added HomingTarget variable to missile"
      M.pure ())
      (fun e => log ("Error adding variables to missile: " ++ e))
    unreal.compile_blueprint blueprint
    unreal.save_asset MISSILE_FULL_PATH
    log "Successfully set up missile projectile components"
    M.pure true)

/-- `setup_missile_components` (lines 221-349). -/
def setup_missile_components (blueprint : Option String) : M Bool := do
  emitEnter "internal_weapon_system.setup_missile_components" ""
  match blueprint with
  | none => do
    log "No blueprint provided, cannot add components"
    M.pure false
  | some bp =>
    tryM (setup_missile_components_try bp)
      (fun e => do
        log ("Error setting up missile components: " ++ e)
        M.pure false)

/-- The `try` block of `add_weapon_components_to_spaceship` (lines 353-465). -/
def add_weapon_components_to_spaceship_try : M Bool := do
  let spaceship_bp0 ← unreal.load_asset SPACESHIP_FULL_PATH
  match spaceship_bp0 with
  | none => do
    log ("Failed to load spaceship blueprint at " ++ SPACESHIP_FULL_PATH)
    log "Make sure to run the spaceship creator script first"
    M.pure false
  | some spaceship_bp => do
    let blueprint_editor ← unreal.get_editor_subsystem "BlueprintEditorSubsystem"
    withObj blueprint_editor (fun _ => do
      unreal.open_blueprint spaceship_bp
      let components ← unreal.get_components_from_blueprint spaceship_bp
      match components.find? (fun comp => comp.name == "ShipMesh") with
      | none => do
        log "Could not find ShipMesh component in spaceship blueprint"
        M.pure false
      | some sm => do
        let left_mount ← unreal.add_new_component_to_blueprint spaceship_bp "SceneComponent"
          "LeftWeaponMount" (some (sm.owner ++ ":" ++ sm.name))
        (match left_mount with
         | some lm => do
           unreal.set_editor_property lm "RelativeLocation" (PVal.vec (-30) (-30) 0)
           log "Added left weapon mount point"
         | none => log "Failed to add left weapon mount point")
        let right_mount ← unreal.add_new_component_to_blueprint spaceship_bp "SceneComponent"
          "RightWeaponMount" (some (sm.owner ++ ":" ++ sm.name))
        (match right_mount with
         | some rm => do
           unreal.set_editor_property rm "RelativeLocation" (PVal.vec (-30) 30 0)
           log "Added right weapon mount point"
         | none => log "Failed to add right weapon mount point")
        let center_mount ← unreal.add_new_component_to_blueprint spaceship_bp "SceneComponent"
          "CenterWeaponMount" (some (sm.owner ++ ":" ++ sm.name))
        (match center_mount with
         | some cm => do
           unreal.set_editor_property cm "RelativeLocation" (PVal.vec (-30) 0 (-20))
           log "Added center weapon mount point"
         | none => log "Failed to add center weapon mount point")
        tryM (do
          let _r1 ← withObj blueprint_editor (fun _ =>
            unreal.add_member_variable spaceship_bp "LaserCooldown" "float" (.num (1/5)))
          log "Added LaserCooldown variable to spaceship"
          let _r2 ← withObj blueprint_editor (fun _ =>
            unreal.add_member_variable spaceship_bp "MissileCooldown" "float" (.num 2))
          log "Added MissileCooldown variable to spaceship"
          let _r3 ← withObj blueprint_editor (fun _ =>
            unreal.add_member_variable spaceship_bp "MaxMissiles" "int" (.num 8))
          log "Added MaxMissiles variable to spaceship"
          let _r4 ← withObj blueprint_editor (fun _ =>
            unreal.add_member_variable spaceship_bp "CurrentMissiles" "int" (.num 8))
          log "Added CurrentMissiles variable to spaceship"
          let _r5 ← withObj blueprint_editor (fun _ =>
            unreal.add_member_variable spaceship_bp "LaserProjectileClass" "class" (.objRef none))
          let _r6 ← withObj blueprint_editor (fun _ =>
            unreal.add_member_variable spaceship_bp "MissileProjectileClass" "class" (.objRef none))
          log "Added weapon class reference variables to spaceship"
          M.pure ())
          (fun e => log ("Error adding weapon variables to spaceship: " ++ e))
        withObj blueprint_editor (fun _ => unreal.compile_blueprint spaceship_bp)
        unreal.save_asset SPACESHIP_FULL_PATH
        log "Successfully added weapon components to spaceship"
        M.pure true)

/-- `add_weapon_components_to_spaceship` (lines 351-469). -/
def add_weapon_components_to_spaceship : M Bool := do
  emitEnter "internal_weapon_system.add_weapon_components_to_spaceship" ""
  tryM add_weapon_components_to_spaceship_try
    (fun e => do
      log ("Error adding weapon components to spaceship: " ++ e)
      M.pure false)

/-- Body of `main` (lines 471-501): every failed step logs and continues. -/
def main_body : M Unit := do
  log "Starting weapon system setup..."
  let laser_bp ← create_laser_projectile_blueprint
  (match laser_bp with
   | none => log "Failed to create or get laser projectile blueprint, continuing anyway"
   | some _ => do
     let ok ← setup_laser_components laser_bp
     if !ok then log "Failed to set up laser components, continuing anyway" else M.pure ())
  let missile_bp ← create_missile_projectile_blueprint
  (match missile_bp with
   | none => log "Failed to create or get missile projectile blueprint, continuing anyway"
   | some _ => do
     let ok ← setup_missile_components missile_bp
     if !ok then log "Failed to set up missile components, continuing anyway" else M.pure ())
  let okw ← add_weapon_components_to_spaceship
  warnUnless okw (log "Failed to add weapon components to spaceship, continuing anyway")
  log "Weapon system setup completed!"
  log "Note: You'll need to manually wire up the weapon firing logic in the spaceship blueprint:"
  log "1. Create Fire functions that spawn projectiles from the weapon mounts"
  log "2. Connect the PrimaryFire and SecondaryFire input events to these functions"
  log "3. Set the LaserProjectileClass and MissileProjectileClass references in the spaceship blueprint"

/-- `main` of `internal_weapon_system.py`. -/
def main : M Unit := do
  emitEnter "internal_weapon_system.main" ""
  main_body

end internal_weapon_system

/-! ## `internal_complete_setup.py` -/

namespace internal_complete_setup

/-- `log` of `internal_complete_setup.py`. -/
def log (msg : String) : M Unit := logM "[SETUP] " msg

/-- Dispatch from a module name to that script's `main`; the three scripts
of the repository all define `main`. -/
def scriptMain : String → M Unit
  | "internal_spaceship_creator" => internal_spaceship_creator.main
  | "internal_input_setup" => internal_input_setup.main
  | "internal_weapon_system" => internal_weapon_system.main
  | _ => M.pure ()

/-- `hasattr(module, "main")` for the modules of this repository. -/
def hasMain (module_name : String) : Bool :=
  module_name == "internal_spaceship_creator" || module_name == "internal_input_setup" ||
    module_name == "internal_weapon_system"

/-- The module-level guard written at the bottom of every script:
`if __name__ == "__main__" or True`. -/
def moduleGuard (name : String) : Bool := name == "__main__" || true

/-- `spec.loader.exec_module(module)`: executing a script's module body runs
its trailing guard (with `__name__` set to the module name), which calls the
script's `main()`. -/
def execModuleBody (module_name : String) : M Unit :=
  if moduleGuard module_name then scriptMain module_name else M.pure ()

/-- The `try` block of `import_and_run_module` (lines 28-57).  The
`sys.path` bookkeeping has no observable effect here and is omitted. -/
def import_and_run_module_try (module_name file_path : String) : M Bool := do
  log ("Importing module: " ++ module_name)
  let spec ← callN "spec_from_file_location" (module_name ++ "," ++ file_path)
    (fun w => (some "spec", w))
  match spec with
  | none => do
    log ("Could not find module spec for " ++ file_path)
    M.pure false
  | some _ => do
    let module ← callN "module_from_spec" module_name (fun w => (some module_name, w))
    match module with
    | none => do
      log ("Could not create module from spec for " ++ file_path)
      M.pure false
    | some _ => do
      execModuleBody module_name
      if hasMain module_name then do
        log ("Running main() from " ++ module_name)
        scriptMain module_name
        log ("Completed " ++ module_name)
        M.pure true
      else do
        log ("Module " ++ module_name ++ " does not have a main() function")
        M.pure false

/-- The `except` handler of `import_and_run_module` (lines 59-61). -/
def import_and_run_module_handler (module_name : String) (e : String) : M Bool := do
  log ("Error loading or running module " ++ module_name ++ ": " ++ e)
  M.pure false

/-- `import_and_run_module` (lines 26-61). -/
def import_and_run_module (module_name file_path : String) : M Bool := do
  emitEnter "import_and_run_module" module_name
  tryM (import_and_run_module_try module_name file_path)
    (import_and_run_module_handler module_name)

/-- The literal `scripts` list of `main` (lines 68-72). -/
def scripts : List (String × String) :=
  [("internal_spaceship_creator", "internal_spaceship_creator.py"),
   ("internal_input_setup", "internal_input_setup.py"),
   ("internal_weapon_system", "internal_weapon_system.py")]

/-- The loop body of `main` (lines 75-81): run one script, logging a
warning when it fails. -/
def run_script (script : String × String) : M Unit := do
  log ("Running script: " ++ script.1)
  let success ← import_and_run_module script.1 script.2
  if !success then log ("Failed to run script: " ++ script.1) else M.pure ()

/-- Body of `main` (lines 63-85): run each script in sequence; a failure
only logs a warning, and the completion logs always run. -/
def main_body : M Unit := do
  log "Starting complete Space Dogfight setup process..."
  eachM scripts run_script
  log "Space Dogfight setup process completed!"
  log "Open the BP_Spaceship asset to verify all components were created correctly"
  log "Some manual setup may be required - see README.md for details"

/-- `main` of `internal_complete_setup.py`. -/
def main : M Unit := do
  emitEnter "internal_complete_setup.main" ""
  main_body

end internal_complete_setup

/-! ## Observations on traces, and concrete hosts and worlds -/

/-- Is the event a host call of the named API? -/
def isCallOf (api : String) : Ev → Bool
  | .call a _ _ => a == api
  | _ => false

/-- Is the event the entry of the named function? -/
def isEnterOf (fn : String) : Ev → Bool
  | .enter f _ => f == fn
  | _ => false

/-- Is the event the given log line? -/
def isLogOf (msg : String) : Ev → Bool
  | .log m => m == msg
  | _ => false

/-- The sequence of scripts run through `import_and_run_module`, in trace
order. -/
def scriptRuns (tr : List Ev) : List String :=
  (tr.filter (isEnterOf "import_and_run_module")).map
    (fun e => match e with
      | .enter _ a => a
      | _ => "")

/-- The host on which every call succeeds. -/
def allOk : Oracle := fun _ _ => Outcome.ok

def emptyWorld : World := ⟨[], [], [], [], [], [], [], []⟩

/-- A fresh project: no game content yet, engine basic-shape meshes
available. -/
def engineWorld : World :=
  { emptyWorld with assets := ["/Engine/BasicShapes/Cone", "/Engine/BasicShapes/Cylinder"] }

def st0 : St := ⟨engineWorld, fun _ => 0⟩

/-! ## Trace cleanliness: a computation emits no event satisfying `p` -/

/-- `f` never emits an event satisfying `p`, whatever the host does. -/
def TrClean (p : Ev → Bool) (f : M α) : Prop :=
  ∀ oc s, (f oc s).tr.filter p = []

theorem trClean_pure (p : Ev → Bool) (a : α) : TrClean p (M.pure a) := by
  intro oc s
  rfl

theorem trClean_raise (p : Ev → Bool) (msg : String) : TrClean p (raiseM msg : M α) := by
  intro oc s
  rfl

theorem trClean_logM (p : Ev → Bool) {tag msg : String}
    (h : p (.log (tag ++ msg)) = false) : TrClean p (logM tag msg) := by
  intro oc s
  simp [logM, List.filter, h]

theorem trClean_enter (p : Ev → Bool) {fn arg : String}
    (h : p (.enter fn arg) = false) : TrClean p (emitEnter fn arg) := by
  intro oc s
  simp [emitEnter, List.filter, h]

theorem trClean_hostCall (p : Ev → Bool) {name arg : String} {spec : World → α × World}
    {onNil : Option α} (h : ∀ o, p (.call name arg o) = false) :
    TrClean p (hostCall name arg spec onNil) := by
  intro oc s
  unfold hostCall
  rcases oc name (s.cnt name) with _ | _ | _ <;> (try rcases onNil with _ | a) <;>
    simp [List.filter, h]

theorem trClean_callR (p : Ev → Bool) {name arg : String} {spec : World → α × World}
    (h : ∀ n a o, p (.call n a o) = false) : TrClean p (callR name arg spec) :=
  trClean_hostCall p (fun o => h name arg o)

theorem trClean_callN (p : Ev → Bool) {name arg : String} {spec : World → Option β × World}
    (h : ∀ n a o, p (.call n a o) = false) : TrClean p (callN name arg spec) :=
  trClean_hostCall p (fun o => h name arg o)

theorem trClean_callU (p : Ev → Bool) {name arg : String} {eff : World → World}
    (h : ∀ n a o, p (.call n a o) = false) : TrClean p (callU name arg eff) :=
  trClean_hostCall p (fun o => h name arg o)

theorem trClean_bind {p : Ev → Bool} {f : M α} {g : α → M β}
    (hf : TrClean p f) (hg : ∀ a, TrClean p (g a)) : TrClean p (M.bind f g) := by
  intro oc s
  have h1 := hf oc s
  unfold M.bind
  revert h1
  rcases f oc s with ⟨e | a, s1, tr1⟩ <;> intro h1
  · simpa using h1
  · simp only at h1
    have h2 := hg a oc s1
    change List.filter p (tr1 ++ (g a oc s1).tr) = []
    rw [List.filter_append, h1, h2]
    rfl

theorem trClean_tryM {p : Ev → Bool} {body : M α} {handler : String → M α}
    (hb : TrClean p body) (hh : ∀ e, TrClean p (handler e)) : TrClean p (tryM body handler) := by
  intro oc s
  have h1 := hb oc s
  unfold tryM
  revert h1
  rcases body oc s with ⟨e | a, s1, tr1⟩ <;> intro h1
  · simp only at h1
    have h2 := hh e oc s1
    change List.filter p (tr1 ++ (handler e oc s1).tr) = []
    rw [List.filter_append, h1, h2]
    rfl
  · simpa using h1

theorem trClean_eachM {p : Ev → Bool} {body : α → M Unit}
    (hb : ∀ a, TrClean p (body a)) : ∀ l : List α, TrClean p (eachM l body) := by
  intro l
  induction l with
  | nil => exact trClean_pure p ()
  | cons a t ih => exact trClean_bind (hb a) (fun _ => ih)

theorem trClean_withObj {p : Ev → Bool} {o : Option String} {k : String → M α}
    (hk : ∀ h, TrClean p (k h)) : TrClean p (withObj o k) := by
  rcases o with _ | h
  · exact trClean_raise p _
  · exact hk h

theorem trClean_ite {p : Ev → Bool} {c : Prop} [Decidable c] {t e : M α}
    (ht : TrClean p t) (he : TrClean p e) : TrClean p (if c then t else e) := by
  by_cases h : c <;> simp [h, ht, he]

theorem trClean_warnUnless {p : Ev → Bool} {warning : M Unit}
    (hw : TrClean p warning) (ok : Bool) : TrClean p (warnUnless ok warning) := by
  unfold warnUnless
  exact trClean_ite hw (trClean_pure p ())

theorem trClean_getOrCreateRoot (p : Ev → Bool) (hc : ∀ n a o, p (.call n a o) = false)
    {created : M Unit} (hcr : TrClean p created) (blueprint : String) (rcs : List Component) :
    TrClean p (getOrCreateRoot blueprint rcs created) := by
  unfold getOrCreateRoot
  split
  · exact trClean_pure p _
  · simp only [bind_eq]
    exact trClean_bind (trClean_callN p hc)
      (fun _ => trClean_bind hcr (fun _ => trClean_pure p _))

theorem trClean_IS_log (p : Ev → Bool) (hl : ∀ m, p (.log m) = false) (msg : String) :
    TrClean p (internal_input_setup.log msg) :=
  trClean_logM p (hl _)

theorem trClean_IS_remA (p : Ev → Bool) (hc : ∀ n a o, p (.call n a o) = false)
    (table snapshot : List ActionMapping) :
    TrClean p (internal_input_setup.removeActions table snapshot) := by
  unfold internal_input_setup.removeActions
  apply trClean_eachM
  intro a
  apply trClean_eachM
  intro e
  apply trClean_ite
  · exact trClean_callU p hc
  · exact trClean_pure p ()

theorem trClean_IS_remX (p : Ev → Bool) (hc : ∀ n a o, p (.call n a o) = false)
    (table snapshot : List AxisMapping) :
    TrClean p (internal_input_setup.removeAxes table snapshot) := by
  unfold internal_input_setup.removeAxes
  apply trClean_eachM
  intro a
  apply trClean_eachM
  intro e
  apply trClean_ite
  · exact trClean_callU p hc
  · exact trClean_pure p ()

theorem trClean_IS_addA (p : Ev → Bool) (hc : ∀ n a o, p (.call n a o) = false)
    (hl : ∀ m, p (.log m) = false) (table : List ActionMapping) :
    TrClean p (internal_input_setup.addActions table) := by
  unfold internal_input_setup.addActions
  apply trClean_eachM
  intro a
  simp only [bind_eq]
  exact trClean_bind (trClean_callU p hc) (fun _ => trClean_IS_log p hl _)

theorem trClean_IS_addX (p : Ev → Bool) (hc : ∀ n a o, p (.call n a o) = false)
    (hl : ∀ m, p (.log m) = false) (table : List AxisMapping) :
    TrClean p (internal_input_setup.addAxes table) := by
  unfold internal_input_setup.addAxes
  apply trClean_eachM
  intro a
  simp only [bind_eq]
  exact trClean_bind (trClean_callU p hc) (fun _ => trClean_IS_log p hl _)

theorem trClean_IS_try (p : Ev → Bool) (hc : ∀ n a o, p (.call n a o) = false)
    (hl : ∀ m, p (.log m) = false) :
    TrClean p internal_input_setup.setup_input_mappings_try := by
  unfold internal_input_setup.setup_input_mappings_try
  simp only [bind_eq]
  apply trClean_bind (trClean_callN p hc)
  intro a
  rcases a with _ | x
  · exact trClean_bind (trClean_IS_log p hl _) (fun _ => trClean_pure p _)
  · apply trClean_bind (trClean_callR p hc)
    intro ex
    apply trClean_bind (trClean_IS_remA p hc _ _)
    intro _
    apply trClean_bind (trClean_callR p hc)
    intro ex2
    apply trClean_bind (trClean_IS_remX p hc _ _)
    intro _
    apply trClean_bind (trClean_IS_addA p hc hl _)
    intro _
    apply trClean_bind (trClean_IS_addX p hc hl _)
    intro _
    apply trClean_bind (trClean_callN p hc)
    intro sub
    apply trClean_bind (trClean_withObj (fun _ => trClean_callU p hc))
    intro _
    exact trClean_bind (trClean_IS_log p hl _) (fun _ => trClean_pure p _)

theorem trClean_IS_setup (p : Ev → Bool) (hc : ∀ n a o, p (.call n a o) = false)
    (hl : ∀ m, p (.log m) = false)
    (he : ∀ arg, p (.enter "internal_input_setup.setup_input_mappings" arg) = false) :
    TrClean p internal_input_setup.setup_input_mappings := by
  unfold internal_input_setup.setup_input_mappings
  simp only [bind_eq]
  apply trClean_bind (trClean_enter p (he _))
  intro _
  apply trClean_tryM (trClean_IS_try p hc hl)
  intro e
  unfold internal_input_setup.setup_input_mappings_handler
  simp only [bind_eq]
  exact trClean_bind (trClean_IS_log p hl _) (fun _ => trClean_pure p _)

theorem trClean_IS_main_body (p : Ev → Bool) (hc : ∀ n a o, p (.call n a o) = false)
    (hl : ∀ m, p (.log m) = false)
    (he : ∀ arg, p (.enter "internal_input_setup.setup_input_mappings" arg) = false) :
    TrClean p internal_input_setup.main_body := by
  unfold internal_input_setup.main_body
  simp only [bind_eq]
  apply trClean_bind (trClean_IS_log p hl _)
  intro _
  apply trClean_bind (trClean_IS_setup p hc hl he)
  intro ok
  apply trClean_ite
  · exact trClean_bind (trClean_IS_log p hl _) (fun _ => trClean_pure p _)
  · exact trClean_bind (trClean_IS_log p hl _)
      (fun _ => trClean_bind (trClean_IS_log p hl _) (fun _ => trClean_IS_log p hl _))

theorem trClean_IS_main (p : Ev → Bool) (hc : ∀ n a o, p (.call n a o) = false)
    (hl : ∀ m, p (.log m) = false)
    (he : ∀ arg, p (.enter "internal_input_setup.setup_input_mappings" arg) = false)
    (hm : ∀ arg, p (.enter "internal_input_setup.main" arg) = false) :
    TrClean p internal_input_setup.main := by
  unfold internal_input_setup.main
  simp only [bind_eq]
  exact trClean_bind (trClean_enter p (hm _)) (fun _ => trClean_IS_main_body p hc hl he)

theorem trClean_SC_log (p : Ev → Bool) (hl : ∀ m, p (.log m) = false) (msg : String) :
    TrClean p (internal_spaceship_creator.log msg) :=
  trClean_logM p (hl _)

theorem trClean_SC_ede_body (p : Ev → Bool) (hc : ∀ n a o, p (.call n a o) = false)
    (hl : ∀ m, p (.log m) = false) (path : String) :
    TrClean p (internal_spaceship_creator.ensure_directory_exists_body path) := by
  unfold internal_spaceship_creator.ensure_directory_exists_body
  simp only [bind_eq]
  apply trClean_bind (trClean_callR p hc)
  intro ex
  apply trClean_ite
  · exact trClean_bind (trClean_SC_log p hl _)
      (fun _ => trClean_bind (trClean_callU p hc) (fun _ => trClean_pure p _))
  · exact trClean_bind (trClean_SC_log p hl _) (fun _ => trClean_pure p _)

theorem trClean_SC_ede (p : Ev → Bool) (hc : ∀ n a o, p (.call n a o) = false)
    (hl : ∀ m, p (.log m) = false)
    (he : ∀ arg, p (.enter "internal_spaceship_creator.ensure_directory_exists" arg) = false)
    (path : String) :
    TrClean p (internal_spaceship_creator.ensure_directory_exists path) := by
  unfold internal_spaceship_creator.ensure_directory_exists
  simp only [bind_eq]
  exact trClean_bind (trClean_enter p (he _)) (fun _ => trClean_SC_ede_body p hc hl path)

theorem trClean_SC_csb_body (p : Ev → Bool) (hc : ∀ n a o, p (.call n a o) = false)
    (hl : ∀ m, p (.log m) = false)
    (he : ∀ arg, p (.enter "internal_spaceship_creator.ensure_directory_exists" arg) = false) :
    TrClean p internal_spaceship_creator.create_spaceship_blueprint_body := by
  unfold internal_spaceship_creator.create_spaceship_blueprint_body
  simp only [bind_eq]
  apply trClean_bind (trClean_SC_ede p hc hl he _)
  intro ok
  apply trClean_ite
  · exact trClean_bind (trClean_SC_log p hl _) (fun _ => trClean_pure p _)
  · apply trClean_bind (trClean_callR p hc)
    intro ex
    apply trClean_ite
    · exact trClean_bind (trClean_SC_log p hl _) (fun _ => trClean_callN p hc)
    · apply trClean_bind (trClean_callR p hc)
      intro factory
      apply trClean_bind (trClean_callU p hc)
      intro _
      apply trClean_bind (trClean_callR p hc)
      intro tools
      apply trClean_bind (trClean_callN p hc)
      intro nb
      rcases nb with _ | h
      · exact trClean_bind (trClean_SC_log p hl _) (fun _ => trClean_pure p _)
      · exact trClean_bind (trClean_SC_log p hl _) (fun _ => trClean_pure p _)

theorem trClean_SC_csb (p : Ev → Bool) (hc : ∀ n a o, p (.call n a o) = false)
    (hl : ∀ m, p (.log m) = false)
    (he : ∀ arg, p (.enter "internal_spaceship_creator.ensure_directory_exists" arg) = false)
    (ho : ∀ arg, p (.enter "internal_spaceship_creator.create_spaceship_blueprint" arg) = false) :
    TrClean p internal_spaceship_creator.create_spaceship_blueprint := by
  unfold internal_spaceship_creator.create_spaceship_blueprint
  simp only [bind_eq]
  exact trClean_bind (trClean_enter p (ho _)) (fun _ => trClean_SC_csb_body p hc hl he)

theorem trClean_SC_ac_try (p : Ev → Bool) (hc : ∀ n a o, p (.call n a o) = false)
    (hl : ∀ m, p (.log m) = false) (bp : String) :
    TrClean p (internal_spaceship_creator.add_components_to_blueprint_try bp) := by
  unfold internal_spaceship_creator.add_components_to_blueprint_try
  simp only [bind_eq]
  apply trClean_bind (trClean_callN p hc)
  intro sub
  apply trClean_withObj
  intro _
  apply trClean_bind (trClean_callU p hc)
  intro _
  apply trClean_bind (trClean_callR p hc)
  intro rcs
  apply trClean_bind (trClean_getOrCreateRoot p hc (trClean_SC_log p hl _) _ _)
  intro root
  apply trClean_bind (trClean_callN p hc)
  intro sm
  apply trClean_bind
  · rcases sm with _ | smh
    · exact trClean_SC_log p hl _
    · apply trClean_bind (trClean_callN p hc)
      intro cone
      rcases cone with _ | ch
      · exact trClean_SC_log p hl _
      · exact trClean_bind (trClean_callU p hc) (fun _ => trClean_SC_log p hl _)
  intro _
  apply trClean_bind (trClean_callN p hc)
  intro coll
  apply trClean_bind
  · rcases coll with _ | cl
    · exact trClean_SC_log p hl _
    · exact trClean_bind (trClean_callU p hc) (fun _ => trClean_SC_log p hl _)
  intro _
  apply trClean_bind (trClean_callN p hc)
  intro sa
  apply trClean_bind
  · rcases sa with _ | sah
    · exact trClean_SC_log p hl _
    · apply trClean_bind (trClean_callU p hc)
      intro _
      apply trClean_bind (trClean_callU p hc)
      intro _
      apply trClean_bind (trClean_callU p hc)
      intro _
      apply trClean_bind (trClean_callU p hc)
      intro _
      apply trClean_bind (trClean_callU p hc)
      intro _
      apply trClean_bind (trClean_callU p hc)
      intro _
      apply trClean_bind (trClean_callU p hc)
      intro _
      exact trClean_bind (trClean_callU p hc) (fun _ => trClean_SC_log p hl _)
  intro _
  apply trClean_bind (trClean_callN p hc)
  intro cam
  apply trClean_bind
  · rcases cam with _ | camh
    · exact trClean_SC_log p hl _
    · exact trClean_bind (trClean_callU p hc) (fun _ => trClean_SC_log p hl _)
  intro _
  apply trClean_bind (trClean_callN p hc)
  intro mov
  apply trClean_bind
  · rcases mov with _ | mvh
    · exact trClean_SC_log p hl _
    · apply trClean_bind (trClean_callU p hc)
      intro _
      apply trClean_bind (trClean_callU p hc)
      intro _
      apply trClean_bind (trClean_callU p hc)
      intro _
      apply trClean_bind (trClean_callU p hc)
      intro _
      exact trClean_bind (trClean_callU p hc) (fun _ => trClean_SC_log p hl _)
  intro _
  apply trClean_bind (trClean_callU p hc)
  intro _
  apply trClean_bind (trClean_callU p hc)
  intro _
  exact trClean_bind (trClean_SC_log p hl _) (fun _ => trClean_pure p _)

theorem trClean_SC_ac_body (p : Ev → Bool) (hc : ∀ n a o, p (.call n a o) = false)
    (hl : ∀ m, p (.log m) = false) (blueprint : Option String) :
    TrClean p (internal_spaceship_creator.add_components_to_blueprint_body blueprint) := by
  unfold internal_spaceship_creator.add_components_to_blueprint_body
  rcases blueprint with _ | bp
  · simp only [bind_eq]
    exact trClean_bind (trClean_SC_log p hl _) (fun _ => trClean_pure p _)
  · simp only [bind_eq]
    apply trClean_bind (trClean_callN p hc)
    intro ob
    rcases ob with _ | h
    · exact trClean_bind (trClean_SC_log p hl _) (fun _ => trClean_pure p _)
    · exact trClean_tryM (trClean_SC_ac_try p hc hl bp)
        (fun e => trClean_bind (trClean_SC_log p hl _) (fun _ => trClean_pure p _))

theorem trClean_SC_ac (p : Ev → Bool) (hc : ∀ n a o, p (.call n a o) = false)
    (hl : ∀ m, p (.log m) = false)
    (ho : ∀ arg, p (.enter "internal_spaceship_creator.add_components_to_blueprint" arg) = false)
    (blueprint : Option String) :
    TrClean p (internal_spaceship_creator.add_components_to_blueprint blueprint) := by
  unfold internal_spaceship_creator.add_components_to_blueprint
  simp only [bind_eq]
  exact trClean_bind (trClean_enter p (ho _)) (fun _ => trClean_SC_ac_body p hc hl blueprint)

theorem trClean_SC_abv_try (p : Ev → Bool) (hc : ∀ n a o, p (.call n a o) = false)
    (hl : ∀ m, p (.log m) = false) (bp : String) :
    TrClean p (internal_spaceship_creator.add_blueprint_variables_try bp) := by
  unfold internal_spaceship_creator.add_blueprint_variables_try
  simp only [bind_eq]
  apply trClean_bind (trClean_callN p hc)
  intro sub
  apply trClean_bind
  · apply trClean_eachM
    intro v
    apply trClean_tryM
    · apply trClean_bind (trClean_callR p hc)
      intro ex
      apply trClean_ite
      · exact trClean_bind (trClean_SC_log p hl _) (fun _ => trClean_pure p _)
      · apply trClean_bind (trClean_withObj (fun _ => trClean_hostCall p (fun o => hc _ _ o)))
        intro res
        apply trClean_ite
        · exact trClean_SC_log p hl _
        · exact trClean_SC_log p hl _
    · intro e
      exact trClean_SC_log p hl _
  intro _
  apply trClean_bind (trClean_withObj (fun _ => trClean_callU p hc))
  intro _
  apply trClean_bind (trClean_callU p hc)
  intro _
  exact trClean_bind (trClean_SC_log p hl _) (fun _ => trClean_pure p _)

theorem trClean_SC_abv_body (p : Ev → Bool) (hc : ∀ n a o, p (.call n a o) = false)
    (hl : ∀ m, p (.log m) = false) (blueprint : Option String) :
    TrClean p (internal_spaceship_creator.add_blueprint_variables_body blueprint) := by
  unfold internal_spaceship_creator.add_blueprint_variables_body
  rcases blueprint with _ | bp
  · simp only [bind_eq]
    exact trClean_bind (trClean_SC_log p hl _) (fun _ => trClean_pure p _)
  · exact trClean_tryM (trClean_SC_abv_try p hc hl bp)
      (fun e => trClean_bind (trClean_SC_log p hl _) (fun _ => trClean_pure p _))

theorem trClean_SC_abv (p : Ev → Bool) (hc : ∀ n a o, p (.call n a o) = false)
    (hl : ∀ m, p (.log m) = false)
    (ho : ∀ arg, p (.enter "internal_spaceship_creator.add_blueprint_variables" arg) = false)
    (blueprint : Option String) :
    TrClean p (internal_spaceship_creator.add_blueprint_variables blueprint) := by
  unfold internal_spaceship_creator.add_blueprint_variables
  simp only [bind_eq]
  exact trClean_bind (trClean_enter p (ho _)) (fun _ => trClean_SC_abv_body p hc hl blueprint)

theorem trClean_SC_find (p : Ev → Bool) (hc : ∀ n a o, p (.call n a o) = false)
    (hl : ∀ m, p (.log m) = false) :
    ∀ l, TrClean p (internal_spaceship_creator.find_test_spaceship l) := by
  intro l
  induction l with
  | nil => exact trClean_pure p ()
  | cons a t ih =>
    unfold internal_spaceship_creator.find_test_spaceship
    apply trClean_ite
    · simp only [bind_eq]
      exact trClean_bind (trClean_SC_log p hl _) (fun _ => trClean_callU p hc)
    · exact ih

theorem trClean_SC_sti_try (p : Ev → Bool) (hc : ∀ n a o, p (.call n a o) = false)
    (hl : ∀ m, p (.log m) = false) :
    TrClean p internal_spaceship_creator.spawn_test_instance_try := by
  unfold internal_spaceship_creator.spawn_test_instance_try
  simp only [bind_eq]
  apply trClean_bind (trClean_callN p hc)
  intro cls
  rcases cls with _ | c
  · exact trClean_bind (trClean_SC_log p hl _) (fun _ => trClean_pure p _)
  · apply trClean_bind (trClean_callR p hc)
    intro actors
    apply trClean_bind (trClean_SC_find p hc hl actors)
    intro _
    apply trClean_bind (trClean_callN p hc)
    intro sp
    rcases sp with _ | act
    · exact trClean_bind (trClean_SC_log p hl _) (fun _ => trClean_pure p _)
    · apply trClean_bind (trClean_callU p hc)
      intro _
      exact trClean_bind (trClean_SC_log p hl _) (fun _ => trClean_pure p _)

theorem trClean_SC_sti (p : Ev → Bool) (hc : ∀ n a o, p (.call n a o) = false)
    (hl : ∀ m, p (.log m) = false)
    (ho : ∀ arg, p (.enter "internal_spaceship_creator.spawn_test_instance" arg) = false) :
    TrClean p internal_spaceship_creator.spawn_test_instance := by
  unfold internal_spaceship_creator.spawn_test_instance
  simp only [bind_eq]
  apply trClean_bind (trClean_enter p (ho _))
  intro _
  exact trClean_tryM (trClean_SC_sti_try p hc hl)
    (fun e => trClean_bind (trClean_SC_log p hl _) (fun _ => trClean_pure p _))

theorem trClean_SC_main_body (p : Ev → Bool) (hc : ∀ n a o, p (.call n a o) = false)
    (hl : ∀ m, p (.log m) = false)
    (h1 : ∀ arg, p (.enter "internal_spaceship_creator.ensure_directory_exists" arg) = false)
    (h2 : ∀ arg, p (.enter "internal_spaceship_creator.create_spaceship_blueprint" arg) = false)
    (h3 : ∀ arg, p (.enter "internal_spaceship_creator.add_components_to_blueprint" arg) = false)
    (h4 : ∀ arg, p (.enter "internal_spaceship_creator.add_blueprint_variables" arg) = false)
    (h5 : ∀ arg, p (.enter "internal_spaceship_creator.spawn_test_instance" arg) = false) :
    TrClean p internal_spaceship_creator.main_body := by
  unfold internal_spaceship_creator.main_body
  simp only [bind_eq]
  apply trClean_bind (trClean_SC_log p hl _)
  intro _
  apply trClean_bind (trClean_SC_csb p hc hl h1 h2)
  intro bp
  rcases bp with _ | h
  · exact trClean_bind (trClean_SC_log p hl _) (fun _ => trClean_pure p _)
  · apply trClean_bind (trClean_SC_ac p hc hl h3 _)
    intro ok1
    apply trClean_bind (trClean_warnUnless (trClean_SC_log p hl _) _)
    intro _
    apply trClean_bind (trClean_SC_abv p hc hl h4 _)
    intro ok2
    apply trClean_bind (trClean_warnUnless (trClean_SC_log p hl _) _)
    intro _
    apply trClean_bind (trClean_SC_sti p hc hl h5)
    intro ok3
    apply trClean_bind (trClean_warnUnless (trClean_SC_log p hl _) _)
    intro _
    apply trClean_bind (trClean_SC_log p hl _)
    intro _
    apply trClean_bind (trClean_SC_log p hl _)
    intro _
    exact trClean_bind (trClean_SC_log p hl _) (fun _ => trClean_SC_log p hl _)

theorem trClean_SC_main (p : Ev → Bool) (hc : ∀ n a o, p (.call n a o) = false)
    (hl : ∀ m, p (.log m) = false)
    (h1 : ∀ arg, p (.enter "internal_spaceship_creator.ensure_directory_exists" arg) = false)
    (h2 : ∀ arg, p (.enter "internal_spaceship_creator.create_spaceship_blueprint" arg) = false)
    (h3 : ∀ arg, p (.enter "internal_spaceship_creator.add_components_to_blueprint" arg) = false)
    (h4 : ∀ arg, p (.enter "internal_spaceship_creator.add_blueprint_variables" arg) = false)
    (h5 : ∀ arg, p (.enter "internal_spaceship_creator.spawn_test_instance" arg) = false)
    (hm : ∀ arg, p (.enter "internal_spaceship_creator.main" arg) = false) :
    TrClean p internal_spaceship_creator.main := by
  unfold internal_spaceship_creator.main
  simp only [bind_eq]
  exact trClean_bind (trClean_enter p (hm _))
    (fun _ => trClean_SC_main_body p hc hl h1 h2 h3 h4 h5)

theorem trClean_WS_log (p : Ev → Bool) (hl : ∀ m, p (.log m) = false) (msg : String) :
    TrClean p (internal_weapon_system.log msg) :=
  trClean_logM p (hl _)

theorem trClean_WS_ede_body (p : Ev → Bool) (hc : ∀ n a o, p (.call n a o) = false)
    (hl : ∀ m, p (.log m) = false) (path : String) :
    TrClean p (internal_weapon_system.ensure_directory_exists_body path) := by
  unfold internal_weapon_system.ensure_directory_exists_body
  simp only [bind_eq]
  apply trClean_bind (trClean_callR p hc)
  intro ex
  apply trClean_ite
  · exact trClean_bind (trClean_WS_log p hl _)
      (fun _ => trClean_bind (trClean_callU p hc) (fun _ => trClean_pure p _))
  · exact trClean_bind (trClean_WS_log p hl _) (fun _ => trClean_pure p _)

theorem trClean_WS_ede (p : Ev → Bool) (hc : ∀ n a o, p (.call n a o) = false)
    (hl : ∀ m, p (.log m) = false)
    (he : ∀ arg, p (.enter "internal_weapon_system.ensure_directory_exists" arg) = false)
    (path : String) :
    TrClean p (internal_weapon_system.ensure_directory_exists path) := by
  unfold internal_weapon_system.ensure_directory_exists
  simp only [bind_eq]
  exact trClean_bind (trClean_enter p (he _)) (fun _ => trClean_WS_ede_body p hc hl path)

theorem trClean_WS_cl_body (p : Ev → Bool) (hc : ∀ n a o, p (.call n a o) = false)
    (hl : ∀ m, p (.log m) = false)
    (he : ∀ arg, p (.enter "internal_weapon_system.ensure_directory_exists" arg) = false) :
    TrClean p internal_weapon_system.create_laser_projectile_blueprint_body := by
  unfold internal_weapon_system.create_laser_projectile_blueprint_body
  simp only [bind_eq]
  apply trClean_bind (trClean_WS_ede p hc hl he _)
  intro ok
  apply trClean_ite
  · exact trClean_bind (trClean_WS_log p hl _) (fun _ => trClean_pure p _)
  · apply trClean_bind (trClean_callR p hc)
    intro ex
    apply trClean_ite
    · exact trClean_bind (trClean_WS_log p hl _) (fun _ => trClean_callN p hc)
    · apply trClean_bind (trClean_callR p hc)
      intro factory
      apply trClean_bind (trClean_callU p hc)
      intro _
      apply trClean_bind (trClean_callR p hc)
      intro tools
      apply trClean_bind (trClean_callN p hc)
      intro nb
      rcases nb with _ | h
      · exact trClean_bind (trClean_WS_log p hl _) (fun _ => trClean_pure p _)
      · exact trClean_bind (trClean_WS_log p hl _) (fun _ => trClean_pure p _)

theorem trClean_WS_cl (p : Ev → Bool) (hc : ∀ n a o, p (.call n a o) = false)
    (hl : ∀ m, p (.log m) = false)
    (he : ∀ arg, p (.enter "internal_weapon_system.ensure_directory_exists" arg) = false)
    (ho : ∀ arg, p (.enter "internal_weapon_system.create_laser_projectile_blueprint" arg) = false) :
    TrClean p internal_weapon_system.create_laser_projectile_blueprint := by
  unfold internal_weapon_system.create_laser_projectile_blueprint
  simp only [bind_eq]
  exact trClean_bind (trClean_enter p (ho _)) (fun _ => trClean_WS_cl_body p hc hl he)

theorem trClean_WS_cm_body (p : Ev → Bool) (hc : ∀ n a o, p (.call n a o) = false)
    (hl : ∀ m, p (.log m) = false)
    (he : ∀ arg, p (.enter "internal_weapon_system.ensure_directory_exists" arg) = false) :
    TrClean p internal_weapon_system.create_missile_projectile_blueprint_body := by
  unfold internal_weapon_system.create_missile_projectile_blueprint_body
  simp only [bind_eq]
  apply trClean_bind (trClean_WS_ede p hc hl he _)
  intro ok
  apply trClean_ite
  · exact trClean_bind (trClean_WS_log p hl _) (fun _ => trClean_pure p _)
  · apply trClean_bind (trClean_callR p hc)
    intro ex
    apply trClean_ite
    · exact trClean_bind (trClean_WS_log p hl _) (fun _ => trClean_callN p hc)
    · apply trClean_bind (trClean_callR p hc)
      intro factory
      apply trClean_bind (trClean_callU p hc)
      intro _
      apply trClean_bind (trClean_callR p hc)
      intro tools
      apply trClean_bind (trClean_callN p hc)
      intro nb
      rcases nb with _ | h
      · exact trClean_bind (trClean_WS_log p hl _) (fun _ => trClean_pure p _)
      · exact trClean_bind (trClean_WS_log p hl _) (fun _ => trClean_pure p _)

theorem trClean_WS_cm (p : Ev → Bool) (hc : ∀ n a o, p (.call n a o) = false)
    (hl : ∀ m, p (.log m) = false)
    (he : ∀ arg, p (.enter "internal_weapon_system.ensure_directory_exists" arg) = false)
    (ho : ∀ arg, p (.enter "internal_weapon_system.create_missile_projectile_blueprint" arg) = false) :
    TrClean p internal_weapon_system.create_missile_projectile_blueprint := by
  unfold internal_weapon_system.create_missile_projectile_blueprint
  simp only [bind_eq]
  exact trClean_bind (trClean_enter p (ho _)) (fun _ => trClean_WS_cm_body p hc hl he)

theorem trClean_WS_sl_try (p : Ev → Bool) (hc : ∀ n a o, p (.call n a o) = false)
    (hl : ∀ m, p (.log m) = false) (bp : String) :
    TrClean p (internal_weapon_system.setup_laser_components_try bp) := by
  unfold internal_weapon_system.setup_laser_components_try
  simp only [bind_eq]
  apply trClean_bind (trClean_callN p hc)
  intro sub
  apply trClean_withObj
  intro _
  apply trClean_bind (trClean_callU p hc)
  intro _
  apply trClean_bind (trClean_callR p hc)
  intro rcs
  apply trClean_bind (trClean_getOrCreateRoot p hc (trClean_WS_log p hl _) _ _)
  intro root
  apply trClean_bind (trClean_callN p hc)
  intro pm
  apply trClean_bind
  · rcases pm with _ | pmh
    · exact trClean_WS_log p hl _
    · apply trClean_bind (trClean_callU p hc)
      intro _
      apply trClean_bind (trClean_callU p hc)
      intro _
      apply trClean_bind (trClean_callU p hc)
      intro _
      exact trClean_bind (trClean_callU p hc) (fun _ => trClean_WS_log p hl _)
  intro _
  apply trClean_bind (trClean_callN p hc)
  intro cy
  apply trClean_bind
  · rcases cy with _ | cyh
    · exact trClean_WS_log p hl _
    · apply trClean_bind (trClean_callN p hc)
      intro cm
      rcases cm with _ | cmh
      · exact trClean_WS_log p hl _
      · apply trClean_bind (trClean_callU p hc)
        intro _
        apply trClean_bind (trClean_callU p hc)
        intro _
        exact trClean_bind (trClean_callU p hc) (fun _ => trClean_WS_log p hl _)
  intro _
  apply trClean_bind (trClean_callN p hc)
  intro coll
  apply trClean_bind
  · rcases coll with _ | ch
    · exact trClean_WS_log p hl _
    · apply trClean_bind (trClean_callU p hc)
      intro _
      apply trClean_bind (trClean_callU p hc)
      intro _
      apply trClean_bind (trClean_callU p hc)
      intro _
      exact trClean_bind (trClean_callU p hc) (fun _ => trClean_WS_log p hl _)
  intro _
  apply trClean_bind
  · apply trClean_tryM
    · apply trClean_bind (trClean_withObj (fun _ => trClean_hostCall p (fun o => hc _ _ o)))
      intro _
      apply trClean_bind (trClean_WS_log p hl _)
      intro _
      apply trClean_bind (trClean_withObj (fun _ => trClean_hostCall p (fun o => hc _ _ o)))
      intro _
      exact trClean_bind (trClean_WS_log p hl _) (fun _ => trClean_pure p _)
    · intro e
      exact trClean_WS_log p hl _
  intro _
  apply trClean_bind (trClean_callU p hc)
  intro _
  apply trClean_bind (trClean_callU p hc)
  intro _
  exact trClean_bind (trClean_WS_log p hl _) (fun _ => trClean_pure p _)

theorem trClean_WS_sl (p : Ev → Bool) (hc : ∀ n a o, p (.call n a o) = false)
    (hl : ∀ m, p (.log m) = false)
    (ho : ∀ arg, p (.enter "internal_weapon_system.setup_laser_components" arg) = false)
    (blueprint : Option String) :
    TrClean p (internal_weapon_system.setup_laser_components blueprint) := by
  unfold internal_weapon_system.setup_laser_components
  simp only [bind_eq]
  apply trClean_bind (trClean_enter p (ho _))
  intro _
  rcases blueprint with _ | bp
  · exact trClean_bind (trClean_WS_log p hl _) (fun _ => trClean_pure p _)
  · exact trClean_tryM (trClean_WS_sl_try p hc hl bp)
      (fun e => trClean_bind (trClean_WS_log p hl _) (fun _ => trClean_pure p _))

theorem trClean_WS_sm_try (p : Ev → Bool) (hc : ∀ n a o, p (.call n a o) = false)
    (hl : ∀ m, p (.log m) = false) (bp : String) :
    TrClean p (internal_weapon_system.setup_missile_components_try bp) := by
  unfold internal_weapon_system.setup_missile_components_try
  simp only [bind_eq]
  apply trClean_bind (trClean_callN p hc)
  intro sub
  apply trClean_withObj
  intro _
  apply trClean_bind (trClean_callU p hc)
  intro _
  apply trClean_bind (trClean_callR p hc)
  intro rcs
  apply trClean_bind (trClean_getOrCreateRoot p hc (trClean_WS_log p hl _) _ _)
  intro root
  apply trClean_bind (trClean_callN p hc)
  intro pm
  apply trClean_bind
  · rcases pm with _ | pmh
    · exact trClean_WS_log p hl _
    · apply trClean_bind (trClean_callU p hc)
      intro _
      apply trClean_bind (trClean_callU p hc)
      intro _
      apply trClean_bind (trClean_callU p hc)
      intro _
      apply trClean_bind (trClean_callU p hc)
      intro _
      apply trClean_bind (trClean_callU p hc)
      intro _
      exact trClean_bind (trClean_callU p hc) (fun _ => trClean_WS_log p hl _)
  intro _
  apply trClean_bind (trClean_callN p hc)
  intro co
  apply trClean_bind
  · rcases co with _ | coh
    · exact trClean_WS_log p hl _
    · apply trClean_bind (trClean_callN p hc)
      intro cm
      rcases cm with _ | cmh
      · exact trClean_WS_log p hl _
      · apply trClean_bind (trClean_callU p hc)
        intro _
        apply trClean_bind (trClean_callU p hc)
        intro _
        exact trClean_bind (trClean_callU p hc) (fun _ => trClean_WS_log p hl _)
  intro _
  apply trClean_bind (trClean_callN p hc)
  intro coll
  apply trClean_bind
  · rcases coll with _ | ch
    · exact trClean_WS_log p hl _
    · apply trClean_bind (trClean_callU p hc)
      intro _
      exact trClean_bind (trClean_callU p hc) (fun _ => trClean_WS_log p hl _)
  intro _
  apply trClean_bind
  · apply trClean_tryM
    · apply trClean_bind (trClean_withObj (fun _ => trClean_hostCall p (fun o => hc _ _ o)))
      intro _
      apply trClean_bind (trClean_WS_log p hl _)
      intro _
      apply trClean_bind (trClean_withObj (fun _ => trClean_hostCall p (fun o => hc _ _ o)))
      intro _
      apply trClean_bind (trClean_WS_log p hl _)
      intro _
      apply trClean_bind (trClean_withObj (fun _ => trClean_hostCall p (fun o => hc _ _ o)))
      intro _
      apply trClean_bind (trClean_WS_log p hl _)
      intro _
      apply trClean_bind (trClean_withObj (fun _ => trClean_hostCall p (fun o => hc _ _ o)))
      intro _
      exact trClean_bind (trClean_WS_log p hl _) (fun _ => trClean_pure p _)
    · intro e
      exact trClean_WS_log p hl _
  intro _
  apply trClean_bind (trClean_callU p hc)
  intro _
  apply trClean_bind (trClean_callU p hc)
  intro _
  exact trClean_bind (trClean_WS_log p hl _) (fun _ => trClean_pure p _)

theorem trClean_WS_sm (p : Ev → Bool) (hc : ∀ n a o, p (.call n a o) = false)
    (hl : ∀ m, p (.log m) = false)
    (ho : ∀ arg, p (.enter "internal_weapon_system.setup_missile_components" arg) = false)
    (blueprint : Option String) :
    TrClean p (internal_weapon_system.setup_missile_components blueprint) := by
  unfold internal_weapon_system.setup_missile_components
  simp only [bind_eq]
  apply trClean_bind (trClean_enter p (ho _))
  intro _
  rcases blueprint with _ | bp
  · exact trClean_bind (trClean_WS_log p hl _) (fun _ => trClean_pure p _)
  · exact trClean_tryM (trClean_WS_sm_try p hc hl bp)
      (fun e => trClean_bind (trClean_WS_log p hl _) (fun _ => trClean_pure p _))

theorem trClean_WS_aw_try (p : Ev → Bool) (hc : ∀ n a o, p (.call n a o) = false)
    (hl : ∀ m, p (.log m) = false) :
    TrClean p internal_weapon_system.add_weapon_components_to_spaceship_try := by
  unfold internal_weapon_system.add_weapon_components_to_spaceship_try
  simp only [bind_eq]
  apply trClean_bind (trClean_callN p hc)
  intro bp0
  rcases bp0 with _ | bp
  · exact trClean_bind (trClean_WS_log p hl _)
      (fun _ => trClean_bind (trClean_WS_log p hl _) (fun _ => trClean_pure p _))
  · apply trClean_bind (trClean_callN p hc)
    intro sub
    apply trClean_withObj
    intro _
    apply trClean_bind (trClean_callU p hc)
    intro _
    apply trClean_bind (trClean_callR p hc)
    intro comps
    split
    · exact trClean_bind (trClean_WS_log p hl _) (fun _ => trClean_pure p _)
    · apply trClean_bind (trClean_callN p hc)
      intro lm
      apply trClean_bind
      · rcases lm with _ | lmh
        · exact trClean_WS_log p hl _
        · exact trClean_bind (trClean_callU p hc) (fun _ => trClean_WS_log p hl _)
      intro _
      apply trClean_bind (trClean_callN p hc)
      intro rm
      apply trClean_bind
      · rcases rm with _ | rmh
        · exact trClean_WS_log p hl _
        · exact trClean_bind (trClean_callU p hc) (fun _ => trClean_WS_log p hl _)
      intro _
      apply trClean_bind (trClean_callN p hc)
      intro ctm
      apply trClean_bind
      · rcases ctm with _ | cmh
        · exact trClean_WS_log p hl _
        · exact trClean_bind (trClean_callU p hc) (fun _ => trClean_WS_log p hl _)
      intro _
      apply trClean_bind
      · apply trClean_tryM
        · apply trClean_bind (trClean_withObj (fun _ => trClean_hostCall p (fun o => hc _ _ o)))
          intro _
          apply trClean_bind (trClean_WS_log p hl _)
          intro _
          apply trClean_bind (trClean_withObj (fun _ => trClean_hostCall p (fun o => hc _ _ o)))
          intro _
          apply trClean_bind (trClean_WS_log p hl _)
          intro _
          apply trClean_bind (trClean_withObj (fun _ => trClean_hostCall p (fun o => hc _ _ o)))
          intro _
          apply trClean_bind (trClean_WS_log p hl _)
          intro _
          apply trClean_bind (trClean_withObj (fun _ => trClean_hostCall p (fun o => hc _ _ o)))
          intro _
          apply trClean_bind (trClean_WS_log p hl _)
          intro _
          apply trClean_bind (trClean_withObj (fun _ => trClean_hostCall p (fun o => hc _ _ o)))
          intro _
          apply trClean_bind (trClean_withObj (fun _ => trClean_hostCall p (fun o => hc _ _ o)))
          intro _
          exact trClean_bind (trClean_WS_log p hl _) (fun _ => trClean_pure p _)
        · intro e
          exact trClean_WS_log p hl _
      intro _
      apply trClean_bind (trClean_withObj (fun _ => trClean_callU p hc))
      intro _
      apply trClean_bind (trClean_callU p hc)
      intro _
      exact trClean_bind (trClean_WS_log p hl _) (fun _ => trClean_pure p _)

theorem trClean_WS_aw (p : Ev → Bool) (hc : ∀ n a o, p (.call n a o) = false)
    (hl : ∀ m, p (.log m) = false)
    (ho : ∀ arg, p (.enter "internal_weapon_system.add_weapon_components_to_spaceship" arg) = false) :
    TrClean p internal_weapon_system.add_weapon_components_to_spaceship := by
  unfold internal_weapon_system.add_weapon_components_to_spaceship
  simp only [bind_eq]
  apply trClean_bind (trClean_enter p (ho _))
  intro _
  exact trClean_tryM (trClean_WS_aw_try p hc hl)
    (fun e => trClean_bind (trClean_WS_log p hl _) (fun _ => trClean_pure p _))

theorem trClean_WS_main_body (p : Ev → Bool) (hc : ∀ n a o, p (.call n a o) = false)
    (hl : ∀ m, p (.log m) = false)
    (h1 : ∀ arg, p (.enter "internal_weapon_system.ensure_directory_exists" arg) = false)
    (h2 : ∀ arg, p (.enter "internal_weapon_system.create_laser_projectile_blueprint" arg) = false)
    (h3 : ∀ arg, p (.enter "internal_weapon_system.create_missile_projectile_blueprint" arg) = false)
    (h4 : ∀ arg, p (.enter "internal_weapon_system.setup_laser_components" arg) = false)
    (h5 : ∀ arg, p (.enter "internal_weapon_system.setup_missile_components" arg) = false)
    (h6 : ∀ arg, p (.enter "internal_weapon_system.add_weapon_components_to_spaceship" arg) = false) :
    TrClean p internal_weapon_system.main_body := by
  unfold internal_weapon_system.main_body
  simp only [bind_eq]
  apply trClean_bind (trClean_WS_log p hl _)
  intro _
  apply trClean_bind (trClean_WS_cl p hc hl h1 h2)
  intro laser
  apply trClean_bind
  · rcases laser with _ | h
    · exact trClean_WS_log p hl _
    · apply trClean_bind (trClean_WS_sl p hc hl h4 _)
      intro ok
      apply trClean_ite
      · exact trClean_WS_log p hl _
      · exact trClean_pure p _
  intro _
  apply trClean_bind (trClean_WS_cm p hc hl h1 h3)
  intro missile
  apply trClean_bind
  · rcases missile with _ | h
    · exact trClean_WS_log p hl _
    · apply trClean_bind (trClean_WS_sm p hc hl h5 _)
      intro ok
      apply trClean_ite
      · exact trClean_WS_log p hl _
      · exact trClean_pure p _
  intro _
  apply trClean_bind (trClean_WS_aw p hc hl h6)
  intro okw
  apply trClean_bind (trClean_warnUnless (trClean_WS_log p hl _) _)
  intro _
  apply trClean_bind (trClean_WS_log p hl _)
  intro _
  apply trClean_bind (trClean_WS_log p hl _)
  intro _
  apply trClean_bind (trClean_WS_log p hl _)
  intro _
  exact trClean_bind (trClean_WS_log p hl _) (fun _ => trClean_WS_log p hl _)

theorem trClean_WS_main (p : Ev → Bool) (hc : ∀ n a o, p (.call n a o) = false)
    (hl : ∀ m, p (.log m) = false)
    (h1 : ∀ arg, p (.enter "internal_weapon_system.ensure_directory_exists" arg) = false)
    (h2 : ∀ arg, p (.enter "internal_weapon_system.create_laser_projectile_blueprint" arg) = false)
    (h3 : ∀ arg, p (.enter "internal_weapon_system.create_missile_projectile_blueprint" arg) = false)
    (h4 : ∀ arg, p (.enter "internal_weapon_system.setup_laser_components" arg) = false)
    (h5 : ∀ arg, p (.enter "internal_weapon_system.setup_missile_components" arg) = false)
    (h6 : ∀ arg, p (.enter "internal_weapon_system.add_weapon_components_to_spaceship" arg) = false)
    (hm : ∀ arg, p (.enter "internal_weapon_system.main" arg) = false) :
    TrClean p internal_weapon_system.main := by
  unfold internal_weapon_system.main
  simp only [bind_eq]
  exact trClean_bind (trClean_enter p (hm _))
    (fun _ => trClean_WS_main_body p hc hl h1 h2 h3 h4 h5 h6)

/-- The function-entry markers of the three setup scripts (everything the
complete-setup driver can reach below `import_and_run_module`). -/
def scriptEnterNames : List String :=
  ["internal_input_setup.setup_input_mappings", "internal_input_setup.main",
   "internal_spaceship_creator.ensure_directory_exists",
   "internal_spaceship_creator.create_spaceship_blueprint",
   "internal_spaceship_creator.add_components_to_blueprint",
   "internal_spaceship_creator.add_blueprint_variables",
   "internal_spaceship_creator.spawn_test_instance",
   "internal_spaceship_creator.main",
   "internal_weapon_system.ensure_directory_exists",
   "internal_weapon_system.create_laser_projectile_blueprint",
   "internal_weapon_system.create_missile_projectile_blueprint",
   "internal_weapon_system.setup_laser_components",
   "internal_weapon_system.setup_missile_components",
   "internal_weapon_system.add_weapon_components_to_spaceship",
   "internal_weapon_system.main"]

theorem trClean_CS_log (p : Ev → Bool) (hl : ∀ m, p (.log m) = false) (msg : String) :
    TrClean p (internal_complete_setup.log msg) :=
  trClean_logM p (hl _)

theorem trClean_scriptMain (p : Ev → Bool) (hc : ∀ n a o, p (.call n a o) = false)
    (hl : ∀ m, p (.log m) = false)
    (hse : ∀ fn arg, fn ∈ scriptEnterNames → p (.enter fn arg) = false) (nm : String) :
    TrClean p (internal_complete_setup.scriptMain nm) := by
  unfold internal_complete_setup.scriptMain
  split
  · exact trClean_SC_main p hc hl (fun arg => hse _ arg (by decide))
      (fun arg => hse _ arg (by decide)) (fun arg => hse _ arg (by decide))
      (fun arg => hse _ arg (by decide)) (fun arg => hse _ arg (by decide))
      (fun arg => hse _ arg (by decide))
  · exact trClean_IS_main p hc hl (fun arg => hse _ arg (by decide))
      (fun arg => hse _ arg (by decide))
  · exact trClean_WS_main p hc hl (fun arg => hse _ arg (by decide))
      (fun arg => hse _ arg (by decide)) (fun arg => hse _ arg (by decide))
      (fun arg => hse _ arg (by decide)) (fun arg => hse _ arg (by decide))
      (fun arg => hse _ arg (by decide)) (fun arg => hse _ arg (by decide))
  · exact trClean_pure p ()

theorem trClean_CS_exec (p : Ev → Bool) (hc : ∀ n a o, p (.call n a o) = false)
    (hl : ∀ m, p (.log m) = false)
    (hse : ∀ fn arg, fn ∈ scriptEnterNames → p (.enter fn arg) = false) (nm : String) :
    TrClean p (internal_complete_setup.execModuleBody nm) := by
  unfold internal_complete_setup.execModuleBody
  exact trClean_ite (trClean_scriptMain p hc hl hse nm) (trClean_pure p ())

theorem trClean_CS_iarm_try (p : Ev → Bool) (hc : ∀ n a o, p (.call n a o) = false)
    (hl : ∀ m, p (.log m) = false)
    (hse : ∀ fn arg, fn ∈ scriptEnterNames → p (.enter fn arg) = false) (nm fp : String) :
    TrClean p (internal_complete_setup.import_and_run_module_try nm fp) := by
  unfold internal_complete_setup.import_and_run_module_try
  simp only [bind_eq]
  apply trClean_bind (trClean_CS_log p hl _)
  intro _
  apply trClean_bind (trClean_callN p hc)
  intro sp
  rcases sp with _ | sph
  · exact trClean_bind (trClean_CS_log p hl _) (fun _ => trClean_pure p _)
  · apply trClean_bind (trClean_callN p hc)
    intro md
    rcases md with _ | mdh
    · exact trClean_bind (trClean_CS_log p hl _) (fun _ => trClean_pure p _)
    · apply trClean_bind (trClean_CS_exec p hc hl hse nm)
      intro _
      apply trClean_ite
      · apply trClean_bind (trClean_CS_log p hl _)
        intro _
        apply trClean_bind (trClean_scriptMain p hc hl hse nm)
        intro _
        exact trClean_bind (trClean_CS_log p hl _) (fun _ => trClean_pure p _)
      · exact trClean_bind (trClean_CS_log p hl _) (fun _ => trClean_pure p _)

theorem trClean_CS_iarm (p : Ev → Bool) (hc : ∀ n a o, p (.call n a o) = false)
    (hl : ∀ m, p (.log m) = false)
    (hse : ∀ fn arg, fn ∈ scriptEnterNames → p (.enter fn arg) = false)
    (ho : ∀ arg, p (.enter "import_and_run_module" arg) = false) (nm fp : String) :
    TrClean p (internal_complete_setup.import_and_run_module nm fp) := by
  unfold internal_complete_setup.import_and_run_module
  simp only [bind_eq]
  apply trClean_bind (trClean_enter p (ho _))
  intro _
  apply trClean_tryM (trClean_CS_iarm_try p hc hl hse nm fp)
  intro e
  unfold internal_complete_setup.import_and_run_module_handler
  simp only [bind_eq]
  exact trClean_bind (trClean_CS_log p hl _) (fun _ => trClean_pure p _)

theorem isEnterOf_call (X n a : String) (o : Outcome) :
    isEnterOf X (.call n a o) = false := rfl

theorem isEnterOf_log (X m : String) : isEnterOf X (.log m) = false := rfl

theorem isEnterOf_enter (X N arg : String) :
    isEnterOf X (.enter N arg) = (N == X) := rfl

/-! ## Run equations and the characterization of the complete-setup driver -/

theorem bind_logM (t m : String) (g : Unit → M β) (oc : Oracle) (s : St) :
    M.bind (logM t m) g oc s =
      ⟨(g () oc s).r, (g () oc s).s, .log (t ++ m) :: (g () oc s).tr⟩ := rfl

theorem bind_emitEnter (fn arg : String) (g : Unit → M β) (oc : Oracle) (s : St) :
    M.bind (emitEnter fn arg) g oc s =
      ⟨(g () oc s).r, (g () oc s).s, .enter fn arg :: (g () oc s).tr⟩ := rfl

theorem bind_pureM (a : α) (g : α → M β) (oc : Oracle) (s : St) :
    M.bind (M.pure a) g oc s = g a oc s := rfl

/-- A `try` whose handler never raises yields a normal result on every host. -/
theorem tryM_noErr {body : M α} {handler : String → M α}
    (hh : ∀ e oc s, ∃ a, (handler e oc s).r = .ok a) (oc : Oracle) (s : St) :
    ∃ a, (tryM body handler oc s).r = .ok a := by
  rcases hb : (body oc s).r with e | a
  · obtain ⟨a, ha⟩ := hh e oc (body oc s).s
    refine ⟨a, ?_⟩
    rw [tryM_err hb]
    exact ha
  · exact ⟨a, by rw [tryM_ok hb]⟩

theorem scriptRuns_nil : scriptRuns [] = [] := rfl

theorem scriptRuns_append (tr1 tr2 : List Ev) :
    scriptRuns (tr1 ++ tr2) = scriptRuns tr1 ++ scriptRuns tr2 := by
  unfold scriptRuns
  rw [List.filter_append, List.map_append]

theorem scriptRuns_cons_log (m : String) (tr : List Ev) :
    scriptRuns (.log m :: tr) = scriptRuns tr := rfl

theorem scriptRuns_cons_call (n a : String) (o : Outcome) (tr : List Ev) :
    scriptRuns (.call n a o :: tr) = scriptRuns tr := rfl

theorem scriptRuns_cons_iarm (arg : String) (tr : List Ev) :
    scriptRuns (.enter "import_and_run_module" arg :: tr) = arg :: scriptRuns tr := rfl

theorem scriptRuns_cons_enter_csmain (arg : String) (tr : List Ev) :
    scriptRuns (.enter "internal_complete_setup.main" arg :: tr) = scriptRuns tr := rfl

/-- `import_and_run_module` never lets an exception escape, and every run of
it runs exactly the named script (through the `import_and_run_module` entry). -/
theorem iarm_char (nm fp : String) (oc : Oracle) (s : St) :
    (∃ b, (internal_complete_setup.import_and_run_module nm fp oc s).r = .ok b) ∧
    scriptRuns (internal_complete_setup.import_and_run_module nm fp oc s).tr = [nm] := by
  have heq : internal_complete_setup.import_and_run_module nm fp oc s =
      ⟨(tryM (internal_complete_setup.import_and_run_module_try nm fp)
          (internal_complete_setup.import_and_run_module_handler nm) oc s).r,
        (tryM (internal_complete_setup.import_and_run_module_try nm fp)
          (internal_complete_setup.import_and_run_module_handler nm) oc s).s,
        .enter "import_and_run_module" nm ::
          (tryM (internal_complete_setup.import_and_run_module_try nm fp)
            (internal_complete_setup.import_and_run_module_handler nm) oc s).tr⟩ := rfl
  rw [heq]
  constructor
  · exact tryM_noErr (fun e oc2 s2 => ⟨false, rfl⟩) oc s
  · simp only
    rw [scriptRuns_cons_iarm]
    have hcl : TrClean (isEnterOf "import_and_run_module")
        (tryM (internal_complete_setup.import_and_run_module_try nm fp)
          (internal_complete_setup.import_and_run_module_handler nm)) := by
      apply trClean_tryM
      · exact trClean_CS_iarm_try _ (fun n a o => rfl) (fun m => rfl)
          (fun fn arg hm => by fin_cases hm <;> rfl) nm fp
      · intro e
        unfold internal_complete_setup.import_and_run_module_handler
        simp only [bind_eq]
        exact trClean_bind (trClean_CS_log _ (fun m => rfl) _) (fun _ => trClean_pure _ _)
    have := hcl oc s
    unfold scriptRuns
    rw [this]
    rfl

/-- One iteration of the complete-setup loop: it returns normally and runs
exactly its script. -/
theorem run_script_char (sc : String × String) (oc : Oracle) (s : St) :
    ((internal_complete_setup.run_script sc) oc s).r = .ok () ∧
    scriptRuns ((internal_complete_setup.run_script sc) oc s).tr = [sc.1] := by
  obtain ⟨⟨b, hb⟩, hruns⟩ := iarm_char sc.1 sc.2 oc s
  have heq : internal_complete_setup.run_script sc oc s =
      ⟨(M.bind (internal_complete_setup.import_and_run_module sc.1 sc.2)
          (fun success => if (!success) = true
            then internal_complete_setup.log ("Failed to run script: " ++ sc.1)
            else M.pure ()) oc s).r,
        (M.bind (internal_complete_setup.import_and_run_module sc.1 sc.2)
          (fun success => if (!success) = true
            then internal_complete_setup.log ("Failed to run script: " ++ sc.1)
            else M.pure ()) oc s).s,
        .log ("[SETUP] " ++ ("Running script: " ++ sc.1)) ::
          (M.bind (internal_complete_setup.import_and_run_module sc.1 sc.2)
            (fun success => if (!success) = true
              then internal_complete_setup.log ("Failed to run script: " ++ sc.1)
              else M.pure ()) oc s).tr⟩ := rfl
  rw [heq]
  rw [bind_ok hb]
  rcases b with _ | _
  · constructor
    · rfl
    · simp only
      rw [scriptRuns_cons_log, scriptRuns_append, hruns]
      rfl
  · constructor
    · rfl
    · simp only
      rw [scriptRuns_cons_log, scriptRuns_append, hruns]
      rfl

/-- The complete-setup loop returns normally and runs the scripts of its
list in order. -/
theorem CS_loop_char : ∀ (l : List (String × String)) (oc : Oracle) (s : St),
    ((eachM l internal_complete_setup.run_script) oc s).r = .ok () ∧
    scriptRuns ((eachM l internal_complete_setup.run_script) oc s).tr = l.map Prod.fst := by
  intro l
  induction l with
  | nil => intro oc s; exact ⟨rfl, rfl⟩
  | cons a t ih =>
    intro oc s
    obtain ⟨hr, hruns⟩ := run_script_char a oc s
    have heq : eachM (a :: t) internal_complete_setup.run_script =
        M.bind (internal_complete_setup.run_script a)
          (fun _ => eachM t internal_complete_setup.run_script) := rfl
    rw [heq, bind_ok hr]
    obtain ⟨hr2, hruns2⟩ :=
      ih oc (internal_complete_setup.run_script a oc s).s
    refine ⟨hr2, ?_⟩
    simp only
    rw [scriptRuns_append, hruns, hruns2]
    rfl

/-- Every run of `internal_complete_setup.main` returns normally, runs the
three scripts in their fixed order, and reaches the completion log. -/
theorem CS_main_char (oc : Oracle) (s : St) :
    (internal_complete_setup.main oc s).r = .ok () ∧
    scriptRuns (internal_complete_setup.main oc s).tr =
      ["internal_spaceship_creator", "internal_input_setup", "internal_weapon_system"] ∧
    Ev.log "[SETUP] Space Dogfight setup process completed!" ∈
      (internal_complete_setup.main oc s).tr := by
  have heq : internal_complete_setup.main oc s =
      ⟨(M.bind (eachM internal_complete_setup.scripts internal_complete_setup.run_script)
          (fun _ => M.bind (internal_complete_setup.log "Space Dogfight setup process completed!")
            (fun _ => M.bind (internal_complete_setup.log
                "Open the BP_Spaceship asset to verify all components were created correctly")
              (fun _ => internal_complete_setup.log
                "Some manual setup may be required - see README.md for details"))) oc s).r,
        (M.bind (eachM internal_complete_setup.scripts internal_complete_setup.run_script)
          (fun _ => M.bind (internal_complete_setup.log "Space Dogfight setup process completed!")
            (fun _ => M.bind (internal_complete_setup.log
                "Open the BP_Spaceship asset to verify all components were created correctly")
              (fun _ => internal_complete_setup.log
                "Some manual setup may be required - see README.md for details"))) oc s).s,
        .enter "internal_complete_setup.main" "" ::
          .log "[SETUP] Starting complete Space Dogfight setup process..." ::
          (M.bind (eachM internal_complete_setup.scripts internal_complete_setup.run_script)
            (fun _ => M.bind (internal_complete_setup.log "Space Dogfight setup process completed!")
              (fun _ => M.bind (internal_complete_setup.log
                  "Open the BP_Spaceship asset to verify all components were created correctly")
                (fun _ => internal_complete_setup.log
                  "Some manual setup may be required - see README.md for details"))) oc s).tr⟩ := rfl
  obtain ⟨hr, hruns⟩ := CS_loop_char internal_complete_setup.scripts oc s
  rw [heq, bind_ok hr]
  refine ⟨rfl, ?_, ?_⟩
  · simp only
    rw [scriptRuns_cons_enter_csmain, scriptRuns_cons_log, scriptRuns_append, hruns]
    rfl
  · simp only
    refine List.mem_cons_of_mem _ (List.mem_cons_of_mem _ (List.mem_append_right _ ?_))
    exact List.mem_cons_self _ _

/-! ## Forward run equations -/

theorem pure_run (a : α) (oc : Oracle) (s : St) : M.pure a oc s = ⟨.ok a, s, []⟩ := rfl

theorem emit_run (fn arg : String) (oc : Oracle) (s : St) :
    emitEnter fn arg oc s = ⟨.ok (), s, [.enter fn arg]⟩ := rfl

theorem CS_log_run (m : String) (oc : Oracle) (s : St) :
    internal_complete_setup.log m oc s = ⟨.ok (), s, [.log ("[SETUP] " ++ m)]⟩ := rfl

theorem IS_log_run (m : String) (oc : Oracle) (s : St) :
    internal_input_setup.log m oc s = ⟨.ok (), s, [.log ("[INPUT SETUP] " ++ m)]⟩ := rfl

theorem SC_log_run (m : String) (oc : Oracle) (s : St) :
    internal_spaceship_creator.log m oc s =
      ⟨.ok (), s, [.log ("[SPACESHIP CREATOR] " ++ m)]⟩ := rfl

theorem WS_log_run (m : String) (oc : Oracle) (s : St) :
    internal_weapon_system.log m oc s = ⟨.ok (), s, [.log ("[WEAPON SYSTEM] " ++ m)]⟩ := rfl

theorem bind_run {f : M α} {g : α → M β} {oc : Oracle} {s s1 : St} {a : α} {tr1 : List Ev}
    {res : Res β} (h1 : f oc s = ⟨.ok a, s1, tr1⟩) (h2 : g a oc s1 = res) :
    M.bind f g oc s = ⟨res.r, res.s, tr1 ++ res.tr⟩ := by
  unfold M.bind
  rw [h1]
  have hr := congrArg Res.r h2
  have hs := congrArg Res.s h2
  have htr := congrArg Res.tr h2
  show (⟨(g a oc s1).r, (g a oc s1).s, tr1 ++ (g a oc s1).tr⟩ : Res β) = _
  rw [hr, hs, htr]

theorem bind_run_err {f : M α} {g : α → M β} {oc : Oracle} {s s1 : St} {e : String}
    {tr1 : List Ev} (h1 : f oc s = ⟨.error e, s1, tr1⟩) :
    M.bind f g oc s = ⟨.error e, s1, tr1⟩ := by
  unfold M.bind
  rw [h1]

theorem ite_run {c : Prop} [Decidable c] {t e : M α} {oc : Oracle} {s : St} {res : Res α}
    (hc : c) (h : t oc s = res) : (if c then t else e) oc s = res := by
  rw [if_pos hc]
  exact h

theorem ite_run_neg {c : Prop} [Decidable c] {t e : M α} {oc : Oracle} {s : St} {res : Res α}
    (hc : ¬ c) (h : e oc s = res) : (if c then t else e) oc s = res := by
  rw [if_neg hc]
  exact h

theorem tryM_run_ok {body : M α} {handler : String → M α} {oc : Oracle} {s s1 : St}
    {a : α} {tr1 : List Ev} (h : body oc s = ⟨.ok a, s1, tr1⟩) :
    tryM body handler oc s = ⟨.ok a, s1, tr1⟩ := by
  unfold tryM
  rw [h]

theorem tryM_run_err {body : M α} {handler : String → M α} {oc : Oracle} {s s1 : St}
    {e : String} {tr1 : List Ev} {res : Res α}
    (h1 : body oc s = ⟨.error e, s1, tr1⟩) (h2 : handler e oc s1 = res) :
    tryM body handler oc s = ⟨res.r, res.s, tr1 ++ res.tr⟩ := by
  unfold tryM
  rw [h1]
  have hr := congrArg Res.r h2
  have hs := congrArg Res.s h2
  have htr := congrArg Res.tr h2
  show (⟨(handler e oc s1).r, (handler e oc s1).s, tr1 ++ (handler e oc s1).tr⟩ : Res α) = _
  rw [hr, hs, htr]

theorem hostCall_run_ok {name arg : String} {spec : World → α × World} {onNil : Option α}
    {oc : Oracle} {s : St} (h : oc name (s.cnt name) = .ok) :
    hostCall name arg spec onNil oc s =
      ⟨.ok (spec s.w).1, ⟨(spec s.w).2, bump s.cnt name⟩, [.call name arg .ok]⟩ := by
  unfold hostCall
  rw [h]

theorem hostCall_run_raise {name arg : String} {spec : World → α × World} {onNil : Option α}
    {oc : Oracle} {s : St} (h : oc name (s.cnt name) = .raise) :
    hostCall name arg spec onNil oc s =
      ⟨.error (name ++ " raised"), ⟨s.w, bump s.cnt name⟩, [.call name arg .raise]⟩ := by
  unfold hostCall
  rw [h]

theorem callN_run_nil {name arg : String} {spec : World → Option β × World}
    {oc : Oracle} {s : St} (h : oc name (s.cnt name) = .nil) :
    callN name arg spec oc s =
      ⟨.ok none, ⟨s.w, bump s.cnt name⟩, [.call name arg .nil]⟩ := by
  unfold callN hostCall
  rw [h]

theorem callR_run_nil {name arg : String} {spec : World → α × World}
    {oc : Oracle} {s : St} (h : oc name (s.cnt name) = .nil) :
    callR name arg spec oc s =
      ⟨.ok (spec s.w).1, ⟨(spec s.w).2, bump s.cnt name⟩, [.call name arg .nil]⟩ := by
  unfold callR hostCall
  rw [h]

/-- A `try` whose handler always returns `False` can only produce `True`
through its body, in which case the trace is the body's trace. -/
theorem tryM_ok_true {body : M Bool} {handler : String → M Bool} {oc : Oracle} {s : St}
    (hh : ∀ e s2, (handler e oc s2).r = .ok false)
    (hr : (tryM body handler oc s).r = .ok true) :
    (body oc s).r = .ok true ∧ (tryM body handler oc s).tr = (body oc s).tr := by
  rcases hb : (body oc s).r with e | a
  · exfalso
    rw [tryM_err hb] at hr
    simp only at hr
    rw [hh e (body oc s).s] at hr
    simp at hr
  · rw [tryM_ok hb] at hr
    simp only at hr
    simp at hr
    subst hr
    exact ⟨rfl, by rw [tryM_ok hb]⟩

/-- The guard `if __name__ == "__main__" or True` at the bottom of every
script is true for every module name. -/
theorem moduleGuard_true (n : String) : internal_complete_setup.moduleGuard n = true := by
  unfold internal_complete_setup.moduleGuard
  exact Bool.or_true _

theorem mainFilter_SC (p : Ev → Bool) (hc : ∀ n a o, p (.call n a o) = false)
    (hl : ∀ m, p (.log m) = false)
    (h1 : ∀ arg, p (.enter "internal_spaceship_creator.ensure_directory_exists" arg) = false)
    (h2 : ∀ arg, p (.enter "internal_spaceship_creator.create_spaceship_blueprint" arg) = false)
    (h3 : ∀ arg, p (.enter "internal_spaceship_creator.add_components_to_blueprint" arg) = false)
    (h4 : ∀ arg, p (.enter "internal_spaceship_creator.add_blueprint_variables" arg) = false)
    (h5 : ∀ arg, p (.enter "internal_spaceship_creator.spawn_test_instance" arg) = false)
    (hm : p (.enter "internal_spaceship_creator.main" "") = true) (oc : Oracle) (s : St) :
    (internal_spaceship_creator.main oc s).tr.filter p =
      [.enter "internal_spaceship_creator.main" ""] := by
  have heq : internal_spaceship_creator.main oc s =
      ⟨(internal_spaceship_creator.main_body oc s).r,
        (internal_spaceship_creator.main_body oc s).s,
        .enter "internal_spaceship_creator.main" "" ::
          (internal_spaceship_creator.main_body oc s).tr⟩ := rfl
  rw [heq]
  simp only
  rw [List.filter_cons, trClean_SC_main_body p hc hl h1 h2 h3 h4 h5 oc s]
  simp [hm]

theorem mainFilter_IS (p : Ev → Bool) (hc : ∀ n a o, p (.call n a o) = false)
    (hl : ∀ m, p (.log m) = false)
    (h1 : ∀ arg, p (.enter "internal_input_setup.setup_input_mappings" arg) = false)
    (hm : p (.enter "internal_input_setup.main" "") = true) (oc : Oracle) (s : St) :
    (internal_input_setup.main oc s).tr.filter p = [.enter "internal_input_setup.main" ""] := by
  have heq : internal_input_setup.main oc s =
      ⟨(internal_input_setup.main_body oc s).r, (internal_input_setup.main_body oc s).s,
        .enter "internal_input_setup.main" "" :: (internal_input_setup.main_body oc s).tr⟩ := rfl
  rw [heq]
  simp only
  rw [List.filter_cons, trClean_IS_main_body p hc hl h1 oc s]
  simp [hm]

theorem mainFilter_WS (p : Ev → Bool) (hc : ∀ n a o, p (.call n a o) = false)
    (hl : ∀ m, p (.log m) = false)
    (h1 : ∀ arg, p (.enter "internal_weapon_system.ensure_directory_exists" arg) = false)
    (h2 : ∀ arg, p (.enter "internal_weapon_system.create_laser_projectile_blueprint" arg) = false)
    (h3 : ∀ arg, p (.enter "internal_weapon_system.create_missile_projectile_blueprint" arg) = false)
    (h4 : ∀ arg, p (.enter "internal_weapon_system.setup_laser_components" arg) = false)
    (h5 : ∀ arg, p (.enter "internal_weapon_system.setup_missile_components" arg) = false)
    (h6 : ∀ arg, p (.enter "internal_weapon_system.add_weapon_components_to_spaceship" arg) = false)
    (hm : p (.enter "internal_weapon_system.main" "") = true) (oc : Oracle) (s : St) :
    (internal_weapon_system.main oc s).tr.filter p = [.enter "internal_weapon_system.main" ""] := by
  have heq : internal_weapon_system.main oc s =
      ⟨(internal_weapon_system.main_body oc s).r, (internal_weapon_system.main_body oc s).s,
        .enter "internal_weapon_system.main" "" :: (internal_weapon_system.main_body oc s).tr⟩ := rfl
  rw [heq]
  simp only
  rw [List.filter_cons, trClean_WS_main_body p hc hl h1 h2 h3 h4 h5 h6 oc s]
  simp [hm]

theorem bind_peel {f : M α} {g : α → M β} {oc : Oracle} {s s1 : St} {a : α} {tr1 : List Ev}
    (h1 : f oc s = ⟨.ok a, s1, tr1⟩) :
    M.bind f g oc s = ⟨(g a oc s1).r, (g a oc s1).s, tr1 ++ (g a oc s1).tr⟩ :=
  bind_run h1 rfl

theorem bind_peel_err {f : M α} {g : α → M β} {oc : Oracle} {s s1 : St} {e : String}
    {tr1 : List Ev} (h1 : f oc s = ⟨.error e, s1, tr1⟩) :
    M.bind f g oc s = ⟨.error e, s1, tr1⟩ :=
  bind_run_err h1

theorem callN_run_ok {name arg : String} {spec : World → Option β × World}
    {oc : Oracle} {s : St} (h : oc name (s.cnt name) = .ok) :
    callN name arg spec oc s =
      ⟨.ok (spec s.w).1, ⟨(spec s.w).2, bump s.cnt name⟩, [.call name arg .ok]⟩ := by
  unfold callN hostCall
  rw [h]

theorem callN_run_raise {name arg : String} {spec : World → Option β × World}
    {oc : Oracle} {s : St} (h : oc name (s.cnt name) = .raise) :
    callN name arg spec oc s =
      ⟨.error (name ++ " raised"), ⟨s.w, bump s.cnt name⟩, [.call name arg .raise]⟩ := by
  unfold callN hostCall
  rw [h]

/-- The success path of `import_and_run_module_try`: whenever it returns
`True`, the inner script's `main` ran exactly twice — once from
`exec_module` (the always-true module guard) and once from the explicit
`module.main()` call. -/
theorem iarm_try_filter (nm fp : String) (hnm : internal_complete_setup.hasMain nm = true)
    (p : Ev → Bool)
    (hc : ∀ n a o, p (.call n a o) = false) (hl : ∀ m, p (.log m) = false)
    (hsm : ∀ oc2 s2, ((internal_complete_setup.scriptMain nm) oc2 s2).tr.filter p =
      [.enter (nm ++ ".main") ""])
    (oc : Oracle) (s : St)
    (hr : (internal_complete_setup.import_and_run_module_try nm fp oc s).r = .ok true) :
    (internal_complete_setup.import_and_run_module_try nm fp oc s).tr.filter p =
      [.enter (nm ++ ".main") "", .enter (nm ++ ".main") ""] := by
  unfold internal_complete_setup.import_and_run_module_try
      internal_complete_setup.execModuleBody at hr ⊢
  simp only [bind_eq] at hr ⊢
  rw [bind_peel (CS_log_run _ oc s)] at hr ⊢
  simp only at hr ⊢
  rcases h1 : oc "spec_from_file_location" (s.cnt "spec_from_file_location") with _ | _ | _
  · rw [bind_peel (callN_run_ok h1)] at hr ⊢
    simp only at hr ⊢
    rcases h2 : oc "module_from_spec"
        ((⟨s.w, bump s.cnt "spec_from_file_location"⟩ : St).cnt "module_from_spec") with _ | _ | _
    · rw [bind_peel (callN_run_ok h2)] at hr ⊢
      simp only at hr ⊢
      rw [if_pos (moduleGuard_true nm)] at hr ⊢
      rcases hsm1 : internal_complete_setup.scriptMain nm oc
          ⟨s.w, bump (bump s.cnt "spec_from_file_location") "module_from_spec"⟩
        with ⟨rsm1, s3, tr3⟩
      rcases rsm1 with e | u
      · rw [bind_peel_err hsm1] at hr
        simp at hr
      · rw [bind_peel hsm1] at hr ⊢
        simp only at hr ⊢
        rw [if_pos hnm] at hr ⊢
        rw [bind_peel (CS_log_run _ _ _)] at hr ⊢
        simp only at hr ⊢
        rcases hsm2 : internal_complete_setup.scriptMain nm oc s3 with ⟨rsm2, s4, tr4⟩
        rcases rsm2 with e2 | u2
        · rw [bind_peel_err hsm2] at hr
          simp at hr
        · rw [bind_peel hsm2]
          simp only
          have hf3 : tr3.filter p = [.enter (nm ++ ".main") ""] := by
            have h := hsm oc ⟨s.w, bump (bump s.cnt "spec_from_file_location") "module_from_spec"⟩
            rw [hsm1] at h
            exact h
          have hf4 : tr4.filter p = [.enter (nm ++ ".main") ""] := by
            have h := hsm oc s3
            rw [hsm2] at h
            exact h
          rw [bind_peel (CS_log_run _ _ _)]
          simp [M.pure, List.filter_append, List.filter_cons, hc, hl, hf3, hf4]
    · rw [bind_peel (callN_run_nil h2)] at hr
      simp only at hr
      rw [bind_peel (CS_log_run _ _ _)] at hr
      simp [M.pure] at hr
    · rw [bind_peel_err (callN_run_raise h2)] at hr
      simp at hr
  · rw [bind_peel (callN_run_nil h1)] at hr
    simp only at hr
    rw [bind_peel (CS_log_run _ _ _)] at hr
    simp [M.pure] at hr
  · rw [bind_peel_err (callN_run_raise h1)] at hr
    simp at hr

/-! ## Trace-filter helpers: counting invocations of an operation -/

theorem bind_tr_ok {f : M α} {g : α → M β} {oc : Oracle} {s : St} {a : α}
    (h : (f oc s).r = .ok a) :
    (M.bind f g oc s).tr = (f oc s).tr ++ (g a oc (f oc s).s).tr := by
  rcases hf : f oc s with ⟨e1 | a1, s1, tr1⟩
  · rw [hf] at h
    simp at h
  · rw [hf] at h
    injection h with h2
    subst h2
    rw [bind_peel hf]

theorem bind_tr_err {f : M α} {g : α → M β} {oc : Oracle} {s : St} {e : String}
    (h : (f oc s).r = .error e) :
    (M.bind f g oc s).tr = (f oc s).tr := by
  rcases hf : f oc s with ⟨e1 | a1, s1, tr1⟩
  · rw [bind_peel_err hf]
  · rw [hf] at h
    simp at h

/-- Filtering the trace of a bind whose continuation is clean keeps exactly
the filtered trace of the first part (whether or not it fails). -/
theorem filter_bind_clean {p : Ev → Bool} {f : M α} {g : α → M β} {l : List Ev}
    (hf : ∀ oc s, (f oc s).tr.filter p = l) (hg : ∀ a, TrClean p (g a))
    (oc : Oracle) (s : St) :
    ((M.bind f g) oc s).tr.filter p = l := by
  rcases hr : (f oc s).r with e | a
  · rw [bind_tr_err hr]
    exact hf oc s
  · rw [bind_tr_ok hr, List.filter_append, hf oc s, hg a oc (f oc s).s, List.append_nil]

/-- Filtering the trace of a bind whose first part is a pure emitter with a
clean trace keeps exactly the filtered trace of the continuation. -/
theorem filter_bind_emit {p : Ev → Bool} {f : M Unit} {trf : List Ev} {g : Unit → M β}
    {l : List Ev} (hf : ∀ oc s, f oc s = ⟨.ok (), s, trf⟩) (hfp : trf.filter p = [])
    (hg : ∀ oc s, ((g ()) oc s).tr.filter p = l) (oc : Oracle) (s : St) :
    ((M.bind f g) oc s).tr.filter p = l := by
  rw [bind_peel (hf oc s)]
  simp only
  rw [List.filter_append, hfp, hg oc s, List.nil_append]

/-- A run of `create_spaceship_blueprint` contributes exactly one
`create_spaceship_blueprint` entry event to the trace, even when it fails. -/
theorem csbFilter (p : Ev → Bool) (hc : ∀ n a o, p (.call n a o) = false)
    (hl : ∀ m, p (.log m) = false)
    (h1 : ∀ arg, p (.enter "internal_spaceship_creator.ensure_directory_exists" arg) = false)
    (ho : p (.enter "internal_spaceship_creator.create_spaceship_blueprint" "") = true)
    (oc : Oracle) (s : St) :
    (internal_spaceship_creator.create_spaceship_blueprint oc s).tr.filter p =
      [.enter "internal_spaceship_creator.create_spaceship_blueprint" ""] := by
  have heq : internal_spaceship_creator.create_spaceship_blueprint oc s =
      ⟨(internal_spaceship_creator.create_spaceship_blueprint_body oc s).r,
        (internal_spaceship_creator.create_spaceship_blueprint_body oc s).s,
        .enter "internal_spaceship_creator.create_spaceship_blueprint" "" ::
          (internal_spaceship_creator.create_spaceship_blueprint_body oc s).tr⟩ := rfl
  rw [heq]
  simp only
  rw [List.filter_cons, trClean_SC_csb_body p hc hl h1 oc s]
  simp [ho]

/-- A run of `setup_input_mappings` contributes exactly one
`setup_input_mappings` entry event to the trace. -/
theorem simFilter (p : Ev → Bool) (hc : ∀ n a o, p (.call n a o) = false)
    (hl : ∀ m, p (.log m) = false)
    (ho : p (.enter "internal_input_setup.setup_input_mappings" "") = true)
    (oc : Oracle) (s : St) :
    (internal_input_setup.setup_input_mappings oc s).tr.filter p =
      [.enter "internal_input_setup.setup_input_mappings" ""] := by
  have heq : internal_input_setup.setup_input_mappings oc s =
      ⟨(tryM internal_input_setup.setup_input_mappings_try
          internal_input_setup.setup_input_mappings_handler oc s).r,
        (tryM internal_input_setup.setup_input_mappings_try
          internal_input_setup.setup_input_mappings_handler oc s).s,
        .enter "internal_input_setup.setup_input_mappings" "" ::
          (tryM internal_input_setup.setup_input_mappings_try
            internal_input_setup.setup_input_mappings_handler oc s).tr⟩ := rfl
  rw [heq]
  simp only
  rw [List.filter_cons,
    @trClean_tryM _ p internal_input_setup.setup_input_mappings_try
      internal_input_setup.setup_input_mappings_handler (trClean_IS_try p hc hl)
      (fun e => trClean_bind (trClean_IS_log p hl _) (fun _ => trClean_pure p _)) oc s]
  simp [ho]

/-- Per invocation of `internal_spaceship_creator.main`, the
`create_spaceship_blueprint` operation is entered exactly once. -/
theorem mainOnce_SC_csb (oc : Oracle) (s : St) :
    (internal_spaceship_creator.main oc s).tr.filter
      (isEnterOf "internal_spaceship_creator.create_spaceship_blueprint") =
      [.enter "internal_spaceship_creator.create_spaceship_blueprint" ""] := by
  have heq : internal_spaceship_creator.main oc s =
      ⟨(internal_spaceship_creator.main_body oc s).r,
        (internal_spaceship_creator.main_body oc s).s,
        .enter "internal_spaceship_creator.main" "" ::
          (internal_spaceship_creator.main_body oc s).tr⟩ := rfl
  rw [heq]
  simp only
  rw [List.filter_cons]
  rw [show isEnterOf "internal_spaceship_creator.create_spaceship_blueprint"
      (Ev.enter "internal_spaceship_creator.main" "") = false from rfl,
    if_neg Bool.false_ne_true]
  unfold internal_spaceship_creator.main_body
  simp only [bind_eq]
  refine filter_bind_emit (fun oc2 s2 => SC_log_run _ oc2 s2) (by rfl) ?_ oc s
  intro oc2 s2
  refine filter_bind_clean
    (fun oc3 s3 => csbFilter _ (fun n a o => rfl) (fun m => rfl) (fun arg => rfl) rfl oc3 s3)
    ?_ oc2 s2
  intro bp
  rcases bp with _ | h
  · exact trClean_bind (trClean_SC_log _ (fun m => rfl) _) (fun _ => trClean_pure _ _)
  · apply trClean_bind (trClean_SC_ac _ (fun n a o => rfl) (fun m => rfl) (fun arg => rfl) _)
    intro ok1
    apply trClean_bind (trClean_warnUnless (trClean_SC_log _ (fun m => rfl) _) _)
    intro _
    apply trClean_bind (trClean_SC_abv _ (fun n a o => rfl) (fun m => rfl) (fun arg => rfl) _)
    intro ok2
    apply trClean_bind (trClean_warnUnless (trClean_SC_log _ (fun m => rfl) _) _)
    intro _
    apply trClean_bind (trClean_SC_sti _ (fun n a o => rfl) (fun m => rfl) (fun arg => rfl))
    intro ok3
    apply trClean_bind (trClean_warnUnless (trClean_SC_log _ (fun m => rfl) _) _)
    intro _
    apply trClean_bind (trClean_SC_log _ (fun m => rfl) _)
    intro _
    apply trClean_bind (trClean_SC_log _ (fun m => rfl) _)
    intro _
    exact trClean_bind (trClean_SC_log _ (fun m => rfl) _)
      (fun _ => trClean_SC_log _ (fun m => rfl) _)

/-- Per invocation of `internal_input_setup.main`, the
`setup_input_mappings` operation is entered exactly once. -/
theorem mainOnce_IS_sim (oc : Oracle) (s : St) :
    (internal_input_setup.main oc s).tr.filter
      (isEnterOf "internal_input_setup.setup_input_mappings") =
      [.enter "internal_input_setup.setup_input_mappings" ""] := by
  have heq : internal_input_setup.main oc s =
      ⟨(internal_input_setup.main_body oc s).r, (internal_input_setup.main_body oc s).s,
        .enter "internal_input_setup.main" "" :: (internal_input_setup.main_body oc s).tr⟩ := rfl
  rw [heq]
  simp only
  rw [List.filter_cons]
  rw [show isEnterOf "internal_input_setup.setup_input_mappings"
      (Ev.enter "internal_input_setup.main" "") = false from rfl,
    if_neg Bool.false_ne_true]
  unfold internal_input_setup.main_body
  simp only [bind_eq]
  refine filter_bind_emit (fun oc2 s2 => IS_log_run _ oc2 s2) (by rfl) ?_ oc s
  intro oc2 s2
  refine filter_bind_clean
    (fun oc3 s3 => simFilter _ (fun n a o => rfl) (fun m => rfl) rfl oc3 s3) ?_ oc2 s2
  intro ok
  exact trClean_ite
    (trClean_bind (trClean_IS_log _ (fun m => rfl) _) (fun _ => trClean_pure _ _))
    (trClean_bind (trClean_IS_log _ (fun m => rfl) _)
      (fun _ => trClean_bind (trClean_IS_log _ (fun m => rfl) _)
        (fun _ => trClean_IS_log _ (fun m => rfl) _)))

/-! ## Ok-result predicates: `ensure_directory_exists` never returns `False` -/

/-- Every normal (non-raising) result of `f` satisfies `P`. -/
def ResOk (f : M α) (P : α → Prop) : Prop :=
  ∀ oc s a, (f oc s).r = .ok a → P a

theorem resOk_pure {P : α → Prop} (a : α) (h : P a) : ResOk (M.pure a) P := by
  intro oc s b hb
  injection hb with h2
  exact h2 ▸ h

theorem resOk_bind {P : β → Prop} {f : M α} {g : α → M β}
    (hg : ∀ a, ResOk (g a) P) : ResOk (M.bind f g) P := by
  intro oc s b hb
  rcases hf : f oc s with ⟨e | a, s1, tr1⟩
  · rw [bind_peel_err hf] at hb
    simp at hb
  · rw [bind_peel hf] at hb
    simp only at hb
    exact hg a oc s1 b hb

theorem resOk_ite {P : α → Prop} {c : Prop} [Decidable c] {t e : M α}
    (ht : ResOk t P) (he : ResOk e P) : ResOk (if c then t else e) P := by
  by_cases h : c
  · rwa [if_pos h]
  · rwa [if_neg h]

/-- Both branches of the spaceship-creator `ensure_directory_exists` return
`True`: an `ok` result is always `true`. -/
theorem ede_true_SC (path : String) :
    ResOk (internal_spaceship_creator.ensure_directory_exists path) (fun b => b = true) := by
  unfold internal_spaceship_creator.ensure_directory_exists
  simp only [bind_eq]
  apply resOk_bind
  intro _
  unfold internal_spaceship_creator.ensure_directory_exists_body
  simp only [bind_eq]
  apply resOk_bind
  intro ex
  apply resOk_ite
  · exact resOk_bind (fun _ => resOk_bind (fun _ => resOk_pure true rfl))
  · exact resOk_bind (fun _ => resOk_pure true rfl)

/-- Both branches of the weapon-system `ensure_directory_exists` return
`True`: an `ok` result is always `true`. -/
theorem ede_true_WS (path : String) :
    ResOk (internal_weapon_system.ensure_directory_exists path) (fun b => b = true) := by
  unfold internal_weapon_system.ensure_directory_exists
  simp only [bind_eq]
  apply resOk_bind
  intro _
  unfold internal_weapon_system.ensure_directory_exists_body
  simp only [bind_eq]
  apply resOk_bind
  intro ex
  apply resOk_ite
  · exact resOk_bind (fun _ => resOk_bind (fun _ => resOk_pure true rfl))
  · exact resOk_bind (fun _ => resOk_pure true rfl)

/-- Like `filter_bind_clean`, but the continuation only needs to be clean at
values the first part can actually return. -/
theorem filter_bind_resok {p : Ev → Bool} {f : M α} {g : α → M β} {l : List Ev}
    {P : α → Prop} (hP : ResOk f P)
    (hf : ∀ oc s, (f oc s).tr.filter p = l)
    (hg : ∀ a, P a → TrClean p (g a))
    (oc : Oracle) (s : St) :
    ((M.bind f g) oc s).tr.filter p = l := by
  rcases hr : (f oc s).r with e | a
  · rw [bind_tr_err hr]
    exact hf oc s
  · rw [bind_tr_ok hr, List.filter_append, hf oc s, hg a (hP oc s a hr) oc (f oc s).s,
      List.append_nil]

theorem edeClean_SC (p : Ev → Bool) (path : String) (hc : ∀ n a o, p (.call n a o) = false)
    (h1 : p (.log ("[SPACESHIP CREATOR] " ++ ("Creating directory: " ++ path))) = false)
    (h2 : p (.log ("[SPACESHIP CREATOR] " ++ ("Directory already exists: " ++ path))) = false)
    (he : ∀ arg, p (.enter "internal_spaceship_creator.ensure_directory_exists" arg) = false) :
    TrClean p (internal_spaceship_creator.ensure_directory_exists path) := by
  unfold internal_spaceship_creator.ensure_directory_exists
  simp only [bind_eq]
  apply trClean_bind (trClean_enter p (he _))
  intro _
  unfold internal_spaceship_creator.ensure_directory_exists_body
  simp only [bind_eq]
  apply trClean_bind (trClean_callR p hc)
  intro ex
  apply trClean_ite
  · exact trClean_bind (trClean_logM p h1)
      (fun _ => trClean_bind (trClean_callU p hc) (fun _ => trClean_pure p _))
  · exact trClean_bind (trClean_logM p h2) (fun _ => trClean_pure p _)

theorem edeClean_WS (p : Ev → Bool) (path : String) (hc : ∀ n a o, p (.call n a o) = false)
    (h1 : p (.log ("[WEAPON SYSTEM] " ++ ("Creating directory: " ++ path))) = false)
    (h2 : p (.log ("[WEAPON SYSTEM] " ++ ("Directory already exists: " ++ path))) = false)
    (he : ∀ arg, p (.enter "internal_weapon_system.ensure_directory_exists" arg) = false) :
    TrClean p (internal_weapon_system.ensure_directory_exists path) := by
  unfold internal_weapon_system.ensure_directory_exists
  simp only [bind_eq]
  apply trClean_bind (trClean_enter p (he _))
  intro _
  unfold internal_weapon_system.ensure_directory_exists_body
  simp only [bind_eq]
  apply trClean_bind (trClean_callR p hc)
  intro ex
  apply trClean_ite
  · exact trClean_bind (trClean_logM p h1)
      (fun _ => trClean_bind (trClean_callU p hc) (fun _ => trClean_pure p _))
  · exact trClean_bind (trClean_logM p h2) (fun _ => trClean_pure p _)

/-- The directory-failure log of `create_spaceship_blueprint` never appears
in any run's trace: the branch is unreachable. -/
theorem csb_nodirfail (oc : Oracle) (s : St) :
    (internal_spaceship_creator.create_spaceship_blueprint oc s).tr.filter
      (isLogOf "[SPACESHIP CREATOR] Failed to create blueprint directory") = [] := by
  unfold internal_spaceship_creator.create_spaceship_blueprint
  simp only [bind_eq]
  refine filter_bind_emit (fun oc2 s2 => emit_run _ _ oc2 s2) (by rfl) ?_ oc s
  intro oc2 s2
  unfold internal_spaceship_creator.create_spaceship_blueprint_body
  simp only [bind_eq]
  refine filter_bind_resok (ede_true_SC _)
    (edeClean_SC _ _ (fun n a o => rfl) rfl rfl (fun arg => rfl)) ?_ oc2 s2
  intro ok hok
  subst hok
  simp only [Bool.not_true]
  rw [if_neg Bool.false_ne_true]
  apply trClean_bind (trClean_callR _ (fun n a o => rfl))
  intro ex
  apply trClean_ite
  · exact trClean_bind (trClean_logM _ rfl) (fun _ => trClean_callN _ (fun n a o => rfl))
  · apply trClean_bind (trClean_callR _ (fun n a o => rfl))
    intro factory
    apply trClean_bind (trClean_callU _ (fun n a o => rfl))
    intro _
    apply trClean_bind (trClean_callR _ (fun n a o => rfl))
    intro tools
    apply trClean_bind (trClean_callN _ (fun n a o => rfl))
    intro nb
    rcases nb with _ | h
    · exact trClean_bind (trClean_logM _ rfl) (fun _ => trClean_pure _ _)
    · exact trClean_bind (trClean_logM _ rfl) (fun _ => trClean_pure _ _)

/-- The directory-failure log of `create_laser_projectile_blueprint` never
appears in any run's trace. -/
theorem laser_nodirfail (oc : Oracle) (s : St) :
    (internal_weapon_system.create_laser_projectile_blueprint oc s).tr.filter
      (isLogOf "[WEAPON SYSTEM] Failed to create weapons directory") = [] := by
  unfold internal_weapon_system.create_laser_projectile_blueprint
  simp only [bind_eq]
  refine filter_bind_emit (fun oc2 s2 => emit_run _ _ oc2 s2) (by rfl) ?_ oc s
  intro oc2 s2
  unfold internal_weapon_system.create_laser_projectile_blueprint_body
  simp only [bind_eq]
  refine filter_bind_resok (ede_true_WS _)
    (edeClean_WS _ _ (fun n a o => rfl) rfl rfl (fun arg => rfl)) ?_ oc2 s2
  intro ok hok
  subst hok
  simp only [Bool.not_true]
  rw [if_neg Bool.false_ne_true]
  apply trClean_bind (trClean_callR _ (fun n a o => rfl))
  intro ex
  apply trClean_ite
  · exact trClean_bind (trClean_logM _ rfl) (fun _ => trClean_callN _ (fun n a o => rfl))
  · apply trClean_bind (trClean_callR _ (fun n a o => rfl))
    intro factory
    apply trClean_bind (trClean_callU _ (fun n a o => rfl))
    intro _
    apply trClean_bind (trClean_callR _ (fun n a o => rfl))
    intro tools
    apply trClean_bind (trClean_callN _ (fun n a o => rfl))
    intro nb
    rcases nb with _ | h
    · exact trClean_bind (trClean_logM _ rfl) (fun _ => trClean_pure _ _)
    · exact trClean_bind (trClean_logM _ rfl) (fun _ => trClean_pure _ _)

/-- The directory-failure log of `create_missile_projectile_blueprint` never
appears in any run's trace. -/
theorem missile_nodirfail (oc : Oracle) (s : St) :
    (internal_weapon_system.create_missile_projectile_blueprint oc s).tr.filter
      (isLogOf "[WEAPON SYSTEM] Failed to create weapons directory") = [] := by
  unfold internal_weapon_system.create_missile_projectile_blueprint
  simp only [bind_eq]
  refine filter_bind_emit (fun oc2 s2 => emit_run _ _ oc2 s2) (by rfl) ?_ oc s
  intro oc2 s2
  unfold internal_weapon_system.create_missile_projectile_blueprint_body
  simp only [bind_eq]
  refine filter_bind_resok (ede_true_WS _)
    (edeClean_WS _ _ (fun n a o => rfl) rfl rfl (fun arg => rfl)) ?_ oc2 s2
  intro ok hok
  subst hok
  simp only [Bool.not_true]
  rw [if_neg Bool.false_ne_true]
  apply trClean_bind (trClean_callR _ (fun n a o => rfl))
  intro ex
  apply trClean_ite
  · exact trClean_bind (trClean_logM _ rfl) (fun _ => trClean_callN _ (fun n a o => rfl))
  · apply trClean_bind (trClean_callR _ (fun n a o => rfl))
    intro factory
    apply trClean_bind (trClean_callU _ (fun n a o => rfl))
    intro _
    apply trClean_bind (trClean_callR _ (fun n a o => rfl))
    intro tools
    apply trClean_bind (trClean_callN _ (fun n a o => rfl))
    intro nb
    rcases nb with _ | h
    · exact trClean_bind (trClean_logM _ rfl) (fun _ => trClean_pure _ _)
    · exact trClean_bind (trClean_logM _ rfl) (fun _ => trClean_pure _ _)

/-! ## Existence check before creation: the create functions on the all-ok host -/

theorem callR_run_ok {name arg : String} {spec : World → α × World}
    {oc : Oracle} {s : St} (h : oc name (s.cnt name) = .ok) :
    callR name arg spec oc s =
      ⟨.ok (spec s.w).1, ⟨(spec s.w).2, bump s.cnt name⟩, [.call name arg .ok]⟩ := by
  unfold callR hostCall
  rw [h]

theorem callU_run_ok {name arg : String} {eff : World → World}
    {oc : Oracle} {s : St} (h : oc name (s.cnt name) = .ok) :
    callU name arg eff oc s =
      ⟨.ok (), ⟨eff s.w, bump s.cnt name⟩, [.call name arg .ok]⟩ := by
  unfold callU hostCall
  rw [h]

/-- On the all-ok host, the spaceship-creator `ensure_directory_exists`
returns `True`, leaves the asset registry unchanged, and emits no
`create_asset` call. -/
theorem ede_allOk_SC (path : String) (s : St) :
    ∃ w2 c2 trE,
      internal_spaceship_creator.ensure_directory_exists path allOk s =
        ⟨.ok true, ⟨w2, c2⟩, trE⟩ ∧
      w2.assets = s.w.assets ∧ trE.filter (isCallOf "create_asset") = [] := by
  by_cases hd : path ∈ s.w.dirs
  · refine ⟨s.w, bump s.cnt "does_directory_exist",
      [.enter "internal_spaceship_creator.ensure_directory_exists" path,
       .call "does_directory_exist" path .ok,
       .log ("[SPACESHIP CREATOR] " ++ ("Directory already exists: " ++ path))], ?_, rfl, rfl⟩
    unfold internal_spaceship_creator.ensure_directory_exists
      internal_spaceship_creator.ensure_directory_exists_body internal_spaceship_creator.log
      unreal.does_directory_exist unreal.make_directory
    simp only [bind_eq]
    rw [bind_emitEnter]
    rw [bind_peel (callR_run_ok rfl)]
    simp only
    rw [decide_eq_true hd]
    simp only [Bool.not_true]
    rw [if_neg Bool.false_ne_true]
    rw [bind_logM]
    rfl
  · refine ⟨{ s.w with dirs := s.w.dirs ++ [path] },
      bump (bump s.cnt "does_directory_exist") "make_directory",
      [.enter "internal_spaceship_creator.ensure_directory_exists" path,
       .call "does_directory_exist" path .ok,
       .log ("[SPACESHIP CREATOR] " ++ ("Creating directory: " ++ path)),
       .call "make_directory" path .ok], ?_, rfl, rfl⟩
    unfold internal_spaceship_creator.ensure_directory_exists
      internal_spaceship_creator.ensure_directory_exists_body internal_spaceship_creator.log
      unreal.does_directory_exist unreal.make_directory
    simp only [bind_eq]
    rw [bind_emitEnter]
    rw [bind_peel (callR_run_ok rfl)]
    simp only
    rw [decide_eq_false hd]
    simp only [Bool.not_false, if_true]
    rw [bind_logM]
    simp only
    rw [bind_peel (callU_run_ok rfl)]
    rfl

/-- On the all-ok host, the weapon-system `ensure_directory_exists` returns
`True`, leaves the asset registry unchanged, and emits no `create_asset`
call. -/
theorem ede_allOk_WS (path : String) (s : St) :
    ∃ w2 c2 trE,
      internal_weapon_system.ensure_directory_exists path allOk s =
        ⟨.ok true, ⟨w2, c2⟩, trE⟩ ∧
      w2.assets = s.w.assets ∧ trE.filter (isCallOf "create_asset") = [] := by
  by_cases hd : path ∈ s.w.dirs
  · refine ⟨s.w, bump s.cnt "does_directory_exist",
      [.enter "internal_weapon_system.ensure_directory_exists" path,
       .call "does_directory_exist" path .ok,
       .log ("[WEAPON SYSTEM] " ++ ("Directory already exists: " ++ path))], ?_, rfl, rfl⟩
    unfold internal_weapon_system.ensure_directory_exists
      internal_weapon_system.ensure_directory_exists_body internal_weapon_system.log
      unreal.does_directory_exist unreal.make_directory
    simp only [bind_eq]
    rw [bind_emitEnter]
    rw [bind_peel (callR_run_ok rfl)]
    simp only
    rw [decide_eq_true hd]
    simp only [Bool.not_true]
    rw [if_neg Bool.false_ne_true]
    rw [bind_logM]
    rfl
  · refine ⟨{ s.w with dirs := s.w.dirs ++ [path] },
      bump (bump s.cnt "does_directory_exist") "make_directory",
      [.enter "internal_weapon_system.ensure_directory_exists" path,
       .call "does_directory_exist" path .ok,
       .log ("[WEAPON SYSTEM] " ++ ("Creating directory: " ++ path)),
       .call "make_directory" path .ok], ?_, rfl, rfl⟩
    unfold internal_weapon_system.ensure_directory_exists
      internal_weapon_system.ensure_directory_exists_body internal_weapon_system.log
      unreal.does_directory_exist unreal.make_directory
    simp only [bind_eq]
    rw [bind_emitEnter]
    rw [bind_peel (callR_run_ok rfl)]
    simp only
    rw [decide_eq_false hd]
    simp only [Bool.not_false, if_true]
    rw [bind_logM]
    simp only
    rw [bind_peel (callU_run_ok rfl)]
    rfl

/-- On the all-ok host, when `BP_Spaceship` already exists the creator
returns the loaded existing asset and performs no `create_asset` call. -/
theorem csb_mem_allOk (s : St)
    (hm : internal_spaceship_creator.SPACESHIP_FULL_PATH ∈ s.w.assets) :
    (internal_spaceship_creator.create_spaceship_blueprint allOk s).r =
      .ok (some internal_spaceship_creator.SPACESHIP_FULL_PATH) ∧
    (internal_spaceship_creator.create_spaceship_blueprint allOk s).tr.filter
      (isCallOf "create_asset") = [] := by
  obtain ⟨w2, c2, trE, hE, hassets, htrE⟩ :=
    ede_allOk_SC internal_spaceship_creator.BLUEPRINT_PATH s
  unfold internal_spaceship_creator.create_spaceship_blueprint
    internal_spaceship_creator.create_spaceship_blueprint_body internal_spaceship_creator.log
    unreal.does_asset_exist unreal.load_asset
  simp only [bind_eq]
  rw [bind_emitEnter]
  simp only
  rw [bind_peel hE]
  simp only [Bool.not_true]
  rw [if_neg Bool.false_ne_true]
  rw [bind_peel (callR_run_ok rfl)]
  simp only
  rw [hassets, decide_eq_true hm]
  rw [if_pos rfl]
  rw [bind_logM]
  simp only
  rw [callN_run_ok rfl]
  simp only
  rw [hassets, decide_eq_true hm]
  rw [if_pos rfl]
  refine ⟨rfl, ?_⟩
  simp only [List.filter_append, htrE, List.filter_cons, List.filter_nil]
  rfl

/-- On the all-ok host, when `BP_Spaceship` is absent the creator performs
exactly one `create_asset` call, at the blueprint path, and returns the new
asset. -/
theorem csb_abs_allOk (s : St)
    (hm : internal_spaceship_creator.SPACESHIP_FULL_PATH ∉ s.w.assets) :
    (internal_spaceship_creator.create_spaceship_blueprint allOk s).r =
      .ok (some internal_spaceship_creator.SPACESHIP_FULL_PATH) ∧
    (internal_spaceship_creator.create_spaceship_blueprint allOk s).tr.filter
      (isCallOf "create_asset") =
      [.call "create_asset" (internal_spaceship_creator.SPACESHIP_BP_NAME ++ "," ++
        internal_spaceship_creator.BLUEPRINT_PATH) .ok] := by
  obtain ⟨w2, c2, trE, hE, hassets, htrE⟩ :=
    ede_allOk_SC internal_spaceship_creator.BLUEPRINT_PATH s
  unfold internal_spaceship_creator.create_spaceship_blueprint
    internal_spaceship_creator.create_spaceship_blueprint_body internal_spaceship_creator.log
    unreal.does_asset_exist unreal.create_asset unreal.set_editor_property
  simp only [bind_eq]
  rw [bind_emitEnter]
  simp only
  rw [bind_peel hE]
  simp only [Bool.not_true]
  rw [if_neg Bool.false_ne_true]
  rw [bind_peel (callR_run_ok rfl)]
  simp only
  rw [hassets, decide_eq_false hm]
  rw [if_neg Bool.false_ne_true]
  rw [bind_peel (callR_run_ok rfl)]
  simp only
  rw [bind_peel (callU_run_ok rfl)]
  simp only
  rw [bind_peel (callR_run_ok rfl)]
  simp only
  rw [bind_peel (callN_run_ok rfl)]
  simp only
  rw [bind_logM]
  refine ⟨rfl, ?_⟩
  simp only [List.filter_append, htrE, List.filter_cons, List.filter_nil]
  rfl

/-- On the all-ok host, when `BP_LaserProjectile` already exists the creator
returns the loaded existing asset and performs no `create_asset` call. -/
theorem laser_mem_allOk (s : St)
    (hm : internal_weapon_system.LASER_FULL_PATH ∈ s.w.assets) :
    (internal_weapon_system.create_laser_projectile_blueprint allOk s).r =
      .ok (some internal_weapon_system.LASER_FULL_PATH) ∧
    (internal_weapon_system.create_laser_projectile_blueprint allOk s).tr.filter
      (isCallOf "create_asset") = [] := by
  obtain ⟨w2, c2, trE, hE, hassets, htrE⟩ :=
    ede_allOk_WS internal_weapon_system.WEAPONS_PATH s
  unfold internal_weapon_system.create_laser_projectile_blueprint
    internal_weapon_system.create_laser_projectile_blueprint_body internal_weapon_system.log
    unreal.does_asset_exist unreal.load_asset
  simp only [bind_eq]
  rw [bind_emitEnter]
  simp only
  rw [bind_peel hE]
  simp only [Bool.not_true]
  rw [if_neg Bool.false_ne_true]
  rw [bind_peel (callR_run_ok rfl)]
  simp only
  rw [hassets, decide_eq_true hm]
  rw [if_pos rfl]
  rw [bind_logM]
  simp only
  rw [callN_run_ok rfl]
  simp only
  rw [hassets, decide_eq_true hm]
  rw [if_pos rfl]
  refine ⟨rfl, ?_⟩
  simp only [List.filter_append, htrE, List.filter_cons, List.filter_nil]
  rfl

/-- On the all-ok host, when `BP_LaserProjectile` is absent the creator
performs exactly one `create_asset` call, at the weapons path, and returns
the new asset. -/
theorem laser_abs_allOk (s : St)
    (hm : internal_weapon_system.LASER_FULL_PATH ∉ s.w.assets) :
    (internal_weapon_system.create_laser_projectile_blueprint allOk s).r =
      .ok (some internal_weapon_system.LASER_FULL_PATH) ∧
    (internal_weapon_system.create_laser_projectile_blueprint allOk s).tr.filter
      (isCallOf "create_asset") =
      [.call "create_asset" (internal_weapon_system.LASER_BP_NAME ++ "," ++
        internal_weapon_system.WEAPONS_PATH) .ok] := by
  obtain ⟨w2, c2, trE, hE, hassets, htrE⟩ :=
    ede_allOk_WS internal_weapon_system.WEAPONS_PATH s
  unfold internal_weapon_system.create_laser_projectile_blueprint
    internal_weapon_system.create_laser_projectile_blueprint_body internal_weapon_system.log
    unreal.does_asset_exist unreal.create_asset unreal.set_editor_property
  simp only [bind_eq]
  rw [bind_emitEnter]
  simp only
  rw [bind_peel hE]
  simp only [Bool.not_true]
  rw [if_neg Bool.false_ne_true]
  rw [bind_peel (callR_run_ok rfl)]
  simp only
  rw [hassets, decide_eq_false hm]
  rw [if_neg Bool.false_ne_true]
  rw [bind_peel (callR_run_ok rfl)]
  simp only
  rw [bind_peel (callU_run_ok rfl)]
  simp only
  rw [bind_peel (callR_run_ok rfl)]
  simp only
  rw [bind_peel (callN_run_ok rfl)]
  simp only
  rw [bind_logM]
  refine ⟨rfl, ?_⟩
  simp only [List.filter_append, htrE, List.filter_cons, List.filter_nil]
  rfl

/-- On the all-ok host, when `BP_MissileProjectile` already exists the
creator returns the loaded existing asset and performs no `create_asset`
call. -/
theorem missile_mem_allOk (s : St)
    (hm : internal_weapon_system.MISSILE_FULL_PATH ∈ s.w.assets) :
    (internal_weapon_system.create_missile_projectile_blueprint allOk s).r =
      .ok (some internal_weapon_system.MISSILE_FULL_PATH) ∧
    (internal_weapon_system.create_missile_projectile_blueprint allOk s).tr.filter
      (isCallOf "create_asset") = [] := by
  obtain ⟨w2, c2, trE, hE, hassets, htrE⟩ :=
    ede_allOk_WS internal_weapon_system.WEAPONS_PATH s
  unfold internal_weapon_system.create_missile_projectile_blueprint
    internal_weapon_system.create_missile_projectile_blueprint_body internal_weapon_system.log
    unreal.does_asset_exist unreal.load_asset
  simp only [bind_eq]
  rw [bind_emitEnter]
  simp only
  rw [bind_peel hE]
  simp only [Bool.not_true]
  rw [if_neg Bool.false_ne_true]
  rw [bind_peel (callR_run_ok rfl)]
  simp only
  rw [hassets, decide_eq_true hm]
  rw [if_pos rfl]
  rw [bind_logM]
  simp only
  rw [callN_run_ok rfl]
  simp only
  rw [hassets, decide_eq_true hm]
  rw [if_pos rfl]
  refine ⟨rfl, ?_⟩
  simp only [List.filter_append, htrE, List.filter_cons, List.filter_nil]
  rfl

/-- On the all-ok host, when `BP_MissileProjectile` is absent the creator
performs exactly one `create_asset` call, at the weapons path, and returns
the new asset. -/
theorem missile_abs_allOk (s : St)
    (hm : internal_weapon_system.MISSILE_FULL_PATH ∉ s.w.assets) :
    (internal_weapon_system.create_missile_projectile_blueprint allOk s).r =
      .ok (some internal_weapon_system.MISSILE_FULL_PATH) ∧
    (internal_weapon_system.create_missile_projectile_blueprint allOk s).tr.filter
      (isCallOf "create_asset") =
      [.call "create_asset" (internal_weapon_system.MISSILE_BP_NAME ++ "," ++
        internal_weapon_system.WEAPONS_PATH) .ok] := by
  obtain ⟨w2, c2, trE, hE, hassets, htrE⟩ :=
    ede_allOk_WS internal_weapon_system.WEAPONS_PATH s
  unfold internal_weapon_system.create_missile_projectile_blueprint
    internal_weapon_system.create_missile_projectile_blueprint_body internal_weapon_system.log
    unreal.does_asset_exist unreal.create_asset unreal.set_editor_property
  simp only [bind_eq]
  rw [bind_emitEnter]
  simp only
  rw [bind_peel hE]
  simp only [Bool.not_true]
  rw [if_neg Bool.false_ne_true]
  rw [bind_peel (callR_run_ok rfl)]
  simp only
  rw [hassets, decide_eq_false hm]
  rw [if_neg Bool.false_ne_true]
  rw [bind_peel (callR_run_ok rfl)]
  simp only
  rw [bind_peel (callU_run_ok rfl)]
  simp only
  rw [bind_peel (callR_run_ok rfl)]
  simp only
  rw [bind_peel (callN_run_ok rfl)]
  simp only
  rw [bind_logM]
  refine ⟨rfl, ?_⟩
  simp only [List.filter_append, htrE, List.filter_cons, List.filter_nil]
  rfl

/-! ## The input-setup run: removal semantics and the add/save sequence -/

theorem eachM_nil (body : α → M Unit) : eachM [] body = M.pure () := rfl

theorem eachM_cons (a : α) (l : List α) (body : α → M Unit) :
    eachM (a :: l) body = M.bind (body a) (fun _ => eachM l body) := rfl

theorem raiseM_run (msg : String) (oc : Oracle) (s : St) :
    (raiseM msg : M α) oc s = ⟨.error msg, s, []⟩ := rfl

theorem callU_run_nil {name arg : String} {eff : World → World}
    {oc : Oracle} {s : St} (h : oc name (s.cnt name) = .nil) :
    callU name arg eff oc s =
      ⟨.ok (), ⟨eff s.w, bump s.cnt name⟩, [.call name arg .nil]⟩ := by
  unfold callU hostCall
  rw [h]

theorem callU_run_raise {name arg : String} {eff : World → World}
    {oc : Oracle} {s : St} (h : oc name (s.cnt name) = .raise) :
    callU name arg eff oc s =
      ⟨.error (name ++ " raised"), ⟨s.w, bump s.cnt name⟩, [.call name arg .raise]⟩ := by
  unfold callU hostCall
  rw [h]

theorem callU_run_notRaise {name arg : String} {eff : World → World}
    {oc : Oracle} {s : St} (h : oc name (s.cnt name) ≠ .raise) :
    ∃ o, callU name arg eff oc s =
      ⟨.ok (), ⟨eff s.w, bump s.cnt name⟩, [.call name arg o]⟩ := by
  rcases hc : oc name (s.cnt name)
  · exact ⟨.ok, callU_run_ok hc⟩
  · exact ⟨.nil, callU_run_nil hc⟩
  · exact absurd hc h

theorem callR_run_raise {name arg : String} {spec : World → α × World}
    {oc : Oracle} {s : St} (h : oc name (s.cnt name) = .raise) :
    callR name arg spec oc s =
      ⟨.error (name ++ " raised"), ⟨s.w, bump s.cnt name⟩, [.call name arg .raise]⟩ := by
  unfold callR hostCall
  rw [h]

theorem callR_run_notRaise {name arg : String} {spec : World → α × World}
    {oc : Oracle} {s : St} (h : oc name (s.cnt name) ≠ .raise) :
    ∃ o, callR name arg spec oc s =
      ⟨.ok (spec s.w).1, ⟨(spec s.w).2, bump s.cnt name⟩, [.call name arg o]⟩ := by
  rcases hc : oc name (s.cnt name)
  · exact ⟨.ok, callR_run_ok hc⟩
  · exact ⟨.nil, callR_run_nil hc⟩
  · exact absurd hc h

theorem bind_assoc (f : M α) (g : α → M β) (k : β → M γ) :
    M.bind (M.bind f g) k = M.bind f (fun a => M.bind (g a) k) := by
  funext oc s
  rcases hf : f oc s with ⟨e | a, s1, tr1⟩
  · simp [M.bind, hf]
  · rcases hg : g a oc s1 with ⟨e2 | b, s2, tr2⟩
    · simp [M.bind, hf, hg]
    · rcases hk : k b oc s2 with ⟨r3, s3, tr3⟩
      simp [M.bind, hf, hg, hk]

/-- The add/save calls of the input-setup script, keyed by API name and
argument. -/
def addSaveKey : Ev → Option (String × String)
  | .call n a _ =>
    if n == "add_action_mapping" || n == "add_axis_mapping" || n == "save_config_file" then
      some (n, a)
    else none
  | _ => none

theorem addSaveKey_addA (a : String) (o : Outcome) :
    addSaveKey (.call "add_action_mapping" a o) = some ("add_action_mapping", a) := rfl

theorem addSaveKey_addX (a : String) (o : Outcome) :
    addSaveKey (.call "add_axis_mapping" a o) = some ("add_axis_mapping", a) := rfl

theorem addSaveKey_save (a : String) (o : Outcome) :
    addSaveKey (.call "save_config_file" a o) = some ("save_config_file", a) := rfl

theorem addSaveKey_log (m : String) : addSaveKey (.log m) = none := rfl

/-- Convert trace-cleanliness into emptiness of a `filterMap` view. -/
theorem filterMap_nil_of_filter_nil {p : Ev → Option κ} {tr : List Ev}
    (h : tr.filter (fun e => (p e).isSome) = []) : tr.filterMap p = [] := by
  induction tr with
  | nil => rfl
  | cons e rest ih =>
    rw [List.filter_cons] at h
    by_cases he : (p e).isSome
    · rw [if_pos he] at h
      cases h
    · rw [if_neg he] at h
      rw [List.filterMap_cons, Option.not_isSome_iff_eq_none.mp he]
      exact ih h

theorem trClean_remA_calls (p : Ev → Bool)
    (h : ∀ a o, p (.call "remove_action_mapping" a o) = false)
    (table snapshot : List ActionMapping) :
    TrClean p (internal_input_setup.removeActions table snapshot) := by
  unfold internal_input_setup.removeActions
  apply trClean_eachM
  intro a
  apply trClean_eachM
  intro e
  apply trClean_ite
  · exact trClean_hostCall p (fun o => h _ o)
  · exact trClean_pure p ()

theorem trClean_remX_calls (p : Ev → Bool)
    (h : ∀ a o, p (.call "remove_axis_mapping" a o) = false)
    (table snapshot : List AxisMapping) :
    TrClean p (internal_input_setup.removeAxes table snapshot) := by
  unfold internal_input_setup.removeAxes
  apply trClean_eachM
  intro a
  apply trClean_eachM
  intro e
  apply trClean_ite
  · exact trClean_hostCall p (fun o => h _ o)
  · exact trClean_pure p ()

theorem trNone_remA (table snapshot : List ActionMapping) (oc : Oracle) (s : St) :
    (internal_input_setup.removeActions table snapshot oc s).tr.filterMap addSaveKey = [] :=
  filterMap_nil_of_filter_nil
    (trClean_remA_calls _ (fun _ _ => rfl) table snapshot oc s)

theorem trNone_remX (table snapshot : List AxisMapping) (oc : Oracle) (s : St) :
    (internal_input_setup.removeAxes table snapshot oc s).tr.filterMap addSaveKey = [] :=
  filterMap_nil_of_filter_nil
    (trClean_remX_calls _ (fun _ _ => rfl) table snapshot oc s)

/-- Pure mirror of the inner snapshot-clearing loop: remove every snapshot
entry carrying the given name from the accumulated mapping list. -/
def rmSnap [DecidableEq γ] (name : γ → String) (aN : String) (snap acc : List γ) : List γ :=
  snap.foldl (fun acc2 e =>
    if name e == aN then acc2.filter (fun m => !(decide (m = e))) else acc2) acc

/-- Pure mirror of the whole removal loop over the table. -/
def rmAll [DecidableEq γ] (name : γ → String) (table snap A : List γ) : List γ :=
  table.foldl (fun acc a => rmSnap name (name a) snap acc) A

theorem rmSnap_mem [DecidableEq γ] (name : γ → String) (aN : String) :
    ∀ (snap acc : List γ) (m : γ), m ∈ rmSnap name aN snap acc → m ∈ acc := by
  intro snap
  induction snap with
  | nil => exact fun acc m hm => hm
  | cons e rest ih =>
    intro acc m hm
    have h2 : m ∈ (if (name e == aN) = true then
        acc.filter (fun m => !(decide (m = e))) else acc) := ih _ m hm
    by_cases hc : (name e == aN) = true
    · rw [if_pos hc] at h2
      exact (List.mem_filter.mp h2).1
    · rwa [if_neg hc] at h2

theorem rmSnap_clear [DecidableEq γ] (name : γ → String) (aN : String) :
    ∀ (snap acc : List γ), (∀ m ∈ acc, name m = aN → m ∈ snap) →
      (rmSnap name aN snap acc).filter (fun m => name m == aN) = [] := by
  intro snap
  induction snap with
  | nil =>
    intro acc hacc
    rw [List.filter_eq_nil_iff]
    intro m hm hBeq
    have hname : name m = aN := by simpa using hBeq
    exact absurd (hacc m hm hname) (List.not_mem_nil m)
  | cons e rest ih =>
    intro acc hacc
    rw [show rmSnap name aN (e :: rest) acc =
      rmSnap name aN rest
        (if (name e == aN) = true then acc.filter (fun m => !(decide (m = e))) else acc)
      from rfl]
    apply ih
    intro m hm hname
    by_cases hc : (name e == aN) = true
    · rw [if_pos hc] at hm
      obtain ⟨hmem, hne⟩ := List.mem_filter.mp hm
      have hne2 : m ≠ e := by simpa using hne
      rcases List.mem_cons.mp (hacc m hmem hname) with h | h
      · exact absurd h hne2
      · exact h
    · rw [if_neg hc] at hm
      rcases List.mem_cons.mp (hacc m hm hname) with h | h
      · subst h
        exact absurd (by simp [hname]) hc
      · exact h

theorem filter_nil_of_mem_sub {p : γ → Bool} {l1 l2 : List γ}
    (hsub : ∀ m ∈ l2, m ∈ l1) (h : l1.filter p = []) : l2.filter p = [] := by
  rw [List.filter_eq_nil_iff] at h ⊢
  exact fun m hm => h m (hsub m hm)

theorem rmAll_mem [DecidableEq γ] (name : γ → String) :
    ∀ (table snap acc : List γ) (m : γ), m ∈ rmAll name table snap acc → m ∈ acc := by
  intro table
  induction table with
  | nil => exact fun snap acc m hm => hm
  | cons a rest ih =>
    intro snap acc m hm
    exact rmSnap_mem name (name a) snap acc m (ih snap _ m hm)

/-- After the removal loop, no mapping with a name from the table survives
(when the snapshot covers the accumulator, as it does in the script where
the snapshot is the current mapping list itself). -/
theorem rmAll_clear [DecidableEq γ] (name : γ → String) (N : String) :
    ∀ (table snap acc : List γ), (∀ m ∈ acc, m ∈ snap) →
      (∃ a ∈ table, name a = N) →
      (rmAll name table snap acc).filter (fun m => name m == N) = [] := by
  intro table
  induction table with
  | nil =>
    intro snap acc hacc ha
    rcases ha with ⟨a, ha, _⟩
    exact absurd ha (List.not_mem_nil a)
  | cons a rest ih =>
    intro snap acc hacc ha
    rcases ha with ⟨a0, ha0, hname⟩
    rcases List.mem_cons.mp ha0 with h | h
    · subst h
      have hclr : (rmSnap name (name a0) snap acc).filter (fun m => name m == N) = [] := by
        rw [hname]
        exact rmSnap_clear name N snap acc (fun m hm _ => hacc m hm)
      exact filter_nil_of_mem_sub
        (fun m hm => rmAll_mem name rest snap _ m hm) hclr
    · exact ih snap (rmSnap name (name a) snap acc)
        (fun m hm => hacc m (rmSnap_mem name (name a) snap acc m hm)) ⟨a0, h, hname⟩


theorem removeActions_cons (a : ActionMapping) (rest snap : List ActionMapping) :
    internal_input_setup.removeActions (a :: rest) snap =
      M.bind (eachM snap (fun existing =>
        if existing.actionName == a.actionName then
          callU "remove_action_mapping" (existing.actionName ++ "," ++ existing.key)
            (fun w => { w with actionMappings :=
              w.actionMappings.filter (fun m => !(decide (m = existing))) })
        else M.pure ()))
        (fun _ => internal_input_setup.removeActions rest snap) := rfl

theorem removeAxes_cons (a : AxisMapping) (rest snap : List AxisMapping) :
    internal_input_setup.removeAxes (a :: rest) snap =
      M.bind (eachM snap (fun existing =>
        if existing.axisName == a.axisName then
          callU "remove_axis_mapping" (existing.axisName ++ "," ++ existing.key)
            (fun w => { w with axisMappings :=
              w.axisMappings.filter (fun m => !(decide (m = existing))) })
        else M.pure ()))
        (fun _ => internal_input_setup.removeAxes rest snap) := rfl

theorem addActions_cons (a : ActionMapping) (rest : List ActionMapping) :
    internal_input_setup.addActions (a :: rest) =
      M.bind (M.bind (callU "add_action_mapping" (a.actionName ++ "," ++ a.key)
          (fun w => { w with actionMappings := w.actionMappings ++ [a] }))
        (fun _ => internal_input_setup.log
          ("Added action mapping: " ++ a.actionName ++ " -> " ++ a.key)))
        (fun _ => internal_input_setup.addActions rest) := rfl

theorem addAxes_cons (a : AxisMapping) (rest : List AxisMapping) :
    internal_input_setup.addAxes (a :: rest) =
      M.bind (M.bind (callU "add_axis_mapping" (a.axisName ++ "," ++ a.key)
          (fun w => { w with axisMappings := w.axisMappings ++ [a] }))
        (fun _ => internal_input_setup.log
          ("Added axis mapping: " ++ a.axisName ++ " -> " ++ a.key)))
        (fun _ => internal_input_setup.addAxes rest) := rfl

/-- Semantics of the inner clearing loop of `removeActions`: on a normal
run the world's action mappings are transformed exactly as by `rmSnap`,
and nothing else in the world changes. -/
theorem remA_inner_run (a : ActionMapping) :
    ∀ (snap : List ActionMapping) (oc : Oracle) (s : St),
      ((eachM snap (fun existing =>
        if existing.actionName == a.actionName then
          callU "remove_action_mapping" (existing.actionName ++ "," ++ existing.key)
            (fun w => { w with actionMappings :=
              w.actionMappings.filter (fun m => !(decide (m = existing))) })
        else M.pure ())) oc s).r = .ok () →
      ∃ c2, ((eachM snap (fun existing =>
        if existing.actionName == a.actionName then
          callU "remove_action_mapping" (existing.actionName ++ "," ++ existing.key)
            (fun w => { w with actionMappings :=
              w.actionMappings.filter (fun m => !(decide (m = existing))) })
        else M.pure ())) oc s).s =
        ⟨{ s.w with
            actionMappings :=
              rmSnap ActionMapping.actionName a.actionName snap s.w.actionMappings }, c2⟩ := by
  intro snap
  induction snap with
  | nil =>
    intro oc s h
    exact ⟨s.cnt, rfl⟩
  | cons e rest ih =>
    intro oc s h
    rw [eachM_cons] at h ⊢
    by_cases hc : (e.actionName == a.actionName) = true
    · rw [if_pos hc] at h ⊢
      by_cases hraise : oc "remove_action_mapping" (s.cnt "remove_action_mapping") = .raise
      · rw [bind_peel_err (callU_run_raise hraise)] at h
        simp at h
      · obtain ⟨o, hrun⟩ := callU_run_notRaise hraise
        rw [bind_peel hrun] at h ⊢
        simp only at h ⊢
        obtain ⟨c2, hs⟩ := ih oc _ h
        refine ⟨c2, ?_⟩
        rw [hs]
        rw [show rmSnap ActionMapping.actionName a.actionName (e :: rest) s.w.actionMappings =
          rmSnap ActionMapping.actionName a.actionName rest
            (if (e.actionName == a.actionName) = true then
              s.w.actionMappings.filter (fun m => !(decide (m = e)))
            else s.w.actionMappings) from rfl, if_pos hc]
    · rw [if_neg hc] at h ⊢
      rw [bind_pureM] at h ⊢
      obtain ⟨c2, hs⟩ := ih oc s h
      refine ⟨c2, ?_⟩
      rw [hs]
      rw [show rmSnap ActionMapping.actionName a.actionName (e :: rest) s.w.actionMappings =
        rmSnap ActionMapping.actionName a.actionName rest
          (if (e.actionName == a.actionName) = true then
            s.w.actionMappings.filter (fun m => !(decide (m = e)))
          else s.w.actionMappings) from rfl, if_neg hc]

/-- Semantics of `removeActions`: on a normal run the action mappings are
transformed exactly as by `rmAll`. -/
theorem remA_run (snap : List ActionMapping) (oc : Oracle) :
    ∀ (table : List ActionMapping) (s : St),
      (internal_input_setup.removeActions table snap oc s).r = .ok () →
      ∃ c2, (internal_input_setup.removeActions table snap oc s).s =
        ⟨{ s.w with
            actionMappings :=
              rmAll ActionMapping.actionName table snap s.w.actionMappings }, c2⟩ := by
  intro table
  induction table with
  | nil =>
    intro s h
    exact ⟨s.cnt, rfl⟩
  | cons a rest ih =>
    intro s h
    rw [removeActions_cons] at h ⊢
    rcases hi : (eachM snap (fun existing =>
        if existing.actionName == a.actionName then
          callU "remove_action_mapping" (existing.actionName ++ "," ++ existing.key)
            (fun w => { w with actionMappings :=
              w.actionMappings.filter (fun m => !(decide (m = existing))) })
        else M.pure ())) oc s with ⟨e | u, s1, tr1⟩
    · rw [bind_peel_err hi] at h
      simp at h
    · obtain ⟨c1, hs1⟩ := remA_inner_run a snap oc s (by rw [hi])
      rw [hi] at hs1
      simp only at hs1
      rw [bind_peel hi] at h ⊢
      simp only at h ⊢
      cases u
      subst hs1
      obtain ⟨c2, hs2⟩ := ih _ h
      exact ⟨c2, hs2⟩

/-- Semantics of the inner clearing loop of `removeAxes`. -/
theorem remX_inner_run (a : AxisMapping) :
    ∀ (snap : List AxisMapping) (oc : Oracle) (s : St),
      ((eachM snap (fun existing =>
        if existing.axisName == a.axisName then
          callU "remove_axis_mapping" (existing.axisName ++ "," ++ existing.key)
            (fun w => { w with axisMappings :=
              w.axisMappings.filter (fun m => !(decide (m = existing))) })
        else M.pure ())) oc s).r = .ok () →
      ∃ c2, ((eachM snap (fun existing =>
        if existing.axisName == a.axisName then
          callU "remove_axis_mapping" (existing.axisName ++ "," ++ existing.key)
            (fun w => { w with axisMappings :=
              w.axisMappings.filter (fun m => !(decide (m = existing))) })
        else M.pure ())) oc s).s =
        ⟨{ s.w with
            axisMappings :=
              rmSnap AxisMapping.axisName a.axisName snap s.w.axisMappings }, c2⟩ := by
  intro snap
  induction snap with
  | nil =>
    intro oc s h
    exact ⟨s.cnt, rfl⟩
  | cons e rest ih =>
    intro oc s h
    rw [eachM_cons] at h ⊢
    by_cases hc : (e.axisName == a.axisName) = true
    · rw [if_pos hc] at h ⊢
      by_cases hraise : oc "remove_axis_mapping" (s.cnt "remove_axis_mapping") = .raise
      · rw [bind_peel_err (callU_run_raise hraise)] at h
        simp at h
      · obtain ⟨o, hrun⟩ := callU_run_notRaise hraise
        rw [bind_peel hrun] at h ⊢
        simp only at h ⊢
        obtain ⟨c2, hs⟩ := ih oc _ h
        refine ⟨c2, ?_⟩
        rw [hs]
        rw [show rmSnap AxisMapping.axisName a.axisName (e :: rest) s.w.axisMappings =
          rmSnap AxisMapping.axisName a.axisName rest
            (if (e.axisName == a.axisName) = true then
              s.w.axisMappings.filter (fun m => !(decide (m = e)))
            else s.w.axisMappings) from rfl, if_pos hc]
    · rw [if_neg hc] at h ⊢
      rw [bind_pureM] at h ⊢
      obtain ⟨c2, hs⟩ := ih oc s h
      refine ⟨c2, ?_⟩
      rw [hs]
      rw [show rmSnap AxisMapping.axisName a.axisName (e :: rest) s.w.axisMappings =
        rmSnap AxisMapping.axisName a.axisName rest
          (if (e.axisName == a.axisName) = true then
            s.w.axisMappings.filter (fun m => !(decide (m = e)))
          else s.w.axisMappings) from rfl, if_neg hc]

/-- Semantics of `removeAxes`: on a normal run the axis mappings are
transformed exactly as by `rmAll`. -/
theorem remX_run (snap : List AxisMapping) (oc : Oracle) :
    ∀ (table : List AxisMapping) (s : St),
      (internal_input_setup.removeAxes table snap oc s).r = .ok () →
      ∃ c2, (internal_input_setup.removeAxes table snap oc s).s =
        ⟨{ s.w with
            axisMappings :=
              rmAll AxisMapping.axisName table snap s.w.axisMappings }, c2⟩ := by
  intro table
  induction table with
  | nil =>
    intro s h
    exact ⟨s.cnt, rfl⟩
  | cons a rest ih =>
    intro s h
    rw [removeAxes_cons] at h ⊢
    rcases hi : (eachM snap (fun existing =>
        if existing.axisName == a.axisName then
          callU "remove_axis_mapping" (existing.axisName ++ "," ++ existing.key)
            (fun w => { w with axisMappings :=
              w.axisMappings.filter (fun m => !(decide (m = existing))) })
        else M.pure ())) oc s with ⟨e | u, s1, tr1⟩
    · rw [bind_peel_err hi] at h
      simp at h
    · obtain ⟨c1, hs1⟩ := remX_inner_run a snap oc s (by rw [hi])
      rw [hi] at hs1
      simp only at hs1
      rw [bind_peel hi] at h ⊢
      simp only at h ⊢
      cases u
      subst hs1
      obtain ⟨c2, hs2⟩ := ih _ h
      exact ⟨c2, hs2⟩

/-- Semantics of `addActions`: on a normal run, one `add_action_mapping`
call per table entry, in table order, and the entries are appended to the
world's action mappings. -/
theorem addA_run (oc : Oracle) :
    ∀ (table : List ActionMapping) (s : St),
      (internal_input_setup.addActions table oc s).r = .ok () →
      (internal_input_setup.addActions table oc s).tr.filterMap addSaveKey =
        table.map (fun a => ("add_action_mapping", a.actionName ++ "," ++ a.key)) ∧
      ∃ c2, (internal_input_setup.addActions table oc s).s =
        ⟨{ s.w with actionMappings := s.w.actionMappings ++ table }, c2⟩ := by
  intro table
  induction table with
  | nil =>
    intro s h
    refine ⟨rfl, s.cnt, ?_⟩
    show s = ⟨{ s.w with actionMappings := s.w.actionMappings ++ [] }, s.cnt⟩
    rw [List.append_nil]
  | cons a rest ih =>
    intro s h
    rw [addActions_cons, bind_assoc] at h ⊢
    by_cases hraise : oc "add_action_mapping" (s.cnt "add_action_mapping") = .raise
    · rw [bind_peel_err (callU_run_raise hraise)] at h
      simp at h
    · obtain ⟨o, hrun⟩ := callU_run_notRaise hraise
      rw [bind_peel hrun] at h ⊢
      simp only at h ⊢
      rw [bind_peel (IS_log_run _ oc _)] at h ⊢
      simp only at h ⊢
      obtain ⟨htr, c2, hs⟩ := ih _ h
      refine ⟨?_, c2, ?_⟩
      · simp only [List.filterMap_append, List.filterMap_cons, addSaveKey_addA,
          addSaveKey_log, htr, List.map_cons]
        rfl
      · rw [hs]
        simp only [List.append_assoc, List.singleton_append]

/-- Semantics of `addAxes`: on a normal run, one `add_axis_mapping` call
per table entry, in table order, and the entries are appended to the
world's axis mappings. -/
theorem addX_run (oc : Oracle) :
    ∀ (table : List AxisMapping) (s : St),
      (internal_input_setup.addAxes table oc s).r = .ok () →
      (internal_input_setup.addAxes table oc s).tr.filterMap addSaveKey =
        table.map (fun x => ("add_axis_mapping", x.axisName ++ "," ++ x.key)) ∧
      ∃ c2, (internal_input_setup.addAxes table oc s).s =
        ⟨{ s.w with axisMappings := s.w.axisMappings ++ table }, c2⟩ := by
  intro table
  induction table with
  | nil =>
    intro s h
    refine ⟨rfl, s.cnt, ?_⟩
    show s = ⟨{ s.w with axisMappings := s.w.axisMappings ++ [] }, s.cnt⟩
    rw [List.append_nil]
  | cons a rest ih =>
    intro s h
    rw [addAxes_cons, bind_assoc] at h ⊢
    by_cases hraise : oc "add_axis_mapping" (s.cnt "add_axis_mapping") = .raise
    · rw [bind_peel_err (callU_run_raise hraise)] at h
      simp at h
    · obtain ⟨o, hrun⟩ := callU_run_notRaise hraise
      rw [bind_peel hrun] at h ⊢
      simp only at h ⊢
      rw [bind_peel (IS_log_run _ oc _)] at h ⊢
      simp only at h ⊢
      obtain ⟨htr, c2, hs⟩ := ih _ h
      refine ⟨?_, c2, ?_⟩
      · simp only [List.filterMap_append, List.filterMap_cons, addSaveKey_addX,
          addSaveKey_log, htr, List.map_cons]
        rfl
      · rw [hs]
        simp only [List.append_assoc, List.singleton_append]

theorem addSaveKey_gdo (a : String) (o : Outcome) :
    addSaveKey (.call "get_default_object" a o) = none := rfl

theorem addSaveKey_gam (a : String) (o : Outcome) :
    addSaveKey (.call "get_action_mappings" a o) = none := rfl

theorem addSaveKey_gxm (a : String) (o : Outcome) :
    addSaveKey (.call "get_axis_mappings" a o) = none := rfl

theorem addSaveKey_ges (a : String) (o : Outcome) :
    addSaveKey (.call "get_editor_subsystem" a o) = none := rfl

theorem withObj_some (h : String) (k : String → M α) : withObj (some h) k = k h := rfl

theorem withObj_none (k : String → M α) :
    withObj none k = raiseM "AttributeError: NoneType object" := rfl

theorem simTry_char
 (oc : Oracle) (s : St)
    (hr : (internal_input_setup.setup_input_mappings_try oc s).r = .ok true) :
    (internal_input_setup.setup_input_mappings_try oc s).tr.filterMap addSaveKey =
      internal_input_setup.action_mappings.map
        (fun a => ("add_action_mapping", a.actionName ++ "," ++ a.key)) ++
      internal_input_setup.axis_mappings.map
        (fun x => ("add_axis_mapping", x.axisName ++ "," ++ x.key)) ++
      [("save_config_file", "input_settings")] ∧
    ∃ c2, (internal_input_setup.setup_input_mappings_try oc s).s =
      ⟨{ s.w with
          actionMappings :=
            rmAll ActionMapping.actionName internal_input_setup.action_mappings
              s.w.actionMappings s.w.actionMappings ++ internal_input_setup.action_mappings,
          axisMappings :=
            rmAll AxisMapping.axisName internal_input_setup.axis_mappings
              s.w.axisMappings s.w.axisMappings ++ internal_input_setup.axis_mappings }, c2⟩ := by
  unfold internal_input_setup.setup_input_mappings_try at hr ⊢
  simp only [bind_eq] at hr ⊢
  rcases h0 : oc "get_default_object" (s.cnt "get_default_object") with _ | _ | _
  · rw [bind_peel (callN_run_ok h0)] at hr ⊢
    simp only at hr ⊢
    by_cases h1r : oc "get_action_mappings"
        ((⟨s.w, bump s.cnt "get_default_object"⟩ : St).cnt "get_action_mappings") = .raise
    · rw [bind_peel_err (callR_run_raise h1r)] at hr
      simp at hr
    · obtain ⟨o1, h1⟩ := callR_run_notRaise h1r
      rw [bind_peel h1] at hr ⊢
      simp only at hr ⊢
      rcases h2 : internal_input_setup.removeActions internal_input_setup.action_mappings
          s.w.actionMappings oc
          (⟨s.w, bump (bump s.cnt "get_default_object") "get_action_mappings"⟩ : St)
        with ⟨e | u, s3, tr3⟩
      · rw [bind_peel_err h2] at hr
        simp at hr
      · have hok2 : (internal_input_setup.removeActions internal_input_setup.action_mappings
            s.w.actionMappings oc
            (⟨s.w, bump (bump s.cnt "get_default_object") "get_action_mappings"⟩ : St)).r
            = .ok () := by rw [h2]
        obtain ⟨c3, hs3⟩ := remA_run s.w.actionMappings oc
          internal_input_setup.action_mappings _ hok2
        rw [h2] at hs3
        simp only at hs3
        have htr3 : tr3.filterMap addSaveKey = [] := by
          have h := trNone_remA internal_input_setup.action_mappings s.w.actionMappings oc
            (⟨s.w, bump (bump s.cnt "get_default_object") "get_action_mappings"⟩ : St)
          rw [h2] at h
          exact h
        rw [bind_peel h2] at hr ⊢
        simp only at hr ⊢
        cases u
        subst hs3
        by_cases h2r : oc "get_axis_mappings"
            ((⟨⟨s.w.dirs, s.w.assets,
                rmAll ActionMapping.actionName internal_input_setup.action_mappings
                  s.w.actionMappings s.w.actionMappings,
                s.w.axisMappings, s.w.comps, s.w.props, s.w.vars, s.w.actors⟩, c3⟩ : St).cnt "get_axis_mappings") = .raise
        · rw [bind_peel_err (callR_run_raise h2r)] at hr
          simp at hr
        · obtain ⟨o2, h2x⟩ := callR_run_notRaise h2r
          rw [bind_peel h2x] at hr ⊢
          simp only at hr ⊢
          rcases h3 : internal_input_setup.removeAxes internal_input_setup.axis_mappings
              s.w.axisMappings oc
              (⟨⟨s.w.dirs, s.w.assets,
                rmAll ActionMapping.actionName internal_input_setup.action_mappings
                  s.w.actionMappings s.w.actionMappings,
                s.w.axisMappings, s.w.comps, s.w.props, s.w.vars, s.w.actors⟩, bump c3 "get_axis_mappings"⟩ : St)
            with ⟨e | u2, s6, tr6⟩
          · rw [bind_peel_err h3] at hr
            simp at hr
          · have hok3 : (internal_input_setup.removeAxes internal_input_setup.axis_mappings
                s.w.axisMappings oc
                (⟨⟨s.w.dirs, s.w.assets,
                rmAll ActionMapping.actionName internal_input_setup.action_mappings
                  s.w.actionMappings s.w.actionMappings,
                s.w.axisMappings, s.w.comps, s.w.props, s.w.vars, s.w.actors⟩, bump c3 "get_axis_mappings"⟩ : St)).r = .ok () := by rw [h3]
            obtain ⟨c6, hs6⟩ := remX_run s.w.axisMappings oc
              internal_input_setup.axis_mappings _ hok3
            rw [h3] at hs6
            simp only at hs6
            have htr6 : tr6.filterMap addSaveKey = [] := by
              have h := trNone_remX internal_input_setup.axis_mappings s.w.axisMappings oc
                (⟨⟨s.w.dirs, s.w.assets,
                rmAll ActionMapping.actionName internal_input_setup.action_mappings
                  s.w.actionMappings s.w.actionMappings,
                s.w.axisMappings, s.w.comps, s.w.props, s.w.vars, s.w.actors⟩, bump c3 "get_axis_mappings"⟩ : St)
              rw [h3] at h
              exact h
            rw [bind_peel h3] at hr ⊢
            simp only at hr ⊢
            cases u2
            subst hs6
            rcases h4 : internal_input_setup.addActions internal_input_setup.action_mappings oc
                (⟨⟨s.w.dirs, s.w.assets,
                rmAll ActionMapping.actionName internal_input_setup.action_mappings
                  s.w.actionMappings s.w.actionMappings,
                rmAll AxisMapping.axisName internal_input_setup.axis_mappings
                  s.w.axisMappings s.w.axisMappings,
                s.w.comps, s.w.props, s.w.vars, s.w.actors⟩, c6⟩ : St)
              with ⟨e | u3, s8, tr8⟩
            · rw [bind_peel_err h4] at hr
              simp at hr
            · have hok4 : (internal_input_setup.addActions internal_input_setup.action_mappings oc
                  (⟨⟨s.w.dirs, s.w.assets,
                rmAll ActionMapping.actionName internal_input_setup.action_mappings
                  s.w.actionMappings s.w.actionMappings,
                rmAll AxisMapping.axisName internal_input_setup.axis_mappings
                  s.w.axisMappings s.w.axisMappings,
                s.w.comps, s.w.props, s.w.vars, s.w.actors⟩, c6⟩ : St)).r = .ok () := by rw [h4]
              obtain ⟨htr8, c8, hs8⟩ := addA_run oc internal_input_setup.action_mappings _ hok4
              rw [h4] at htr8 hs8
              simp only at htr8 hs8
              rw [bind_peel h4] at hr ⊢
              simp only at hr ⊢
              cases u3
              subst hs8
              rcases h5 : internal_input_setup.addAxes internal_input_setup.axis_mappings oc
                  (⟨⟨s.w.dirs, s.w.assets,
                rmAll ActionMapping.actionName internal_input_setup.action_mappings
                    s.w.actionMappings s.w.actionMappings ++
                  internal_input_setup.action_mappings,
                rmAll AxisMapping.axisName internal_input_setup.axis_mappings
                  s.w.axisMappings s.w.axisMappings,
                s.w.comps, s.w.props, s.w.vars, s.w.actors⟩, c8⟩ : St)
                with ⟨e | u4, s9, tr9⟩
              · rw [bind_peel_err h5] at hr
                simp at hr
              · have hok5 : (internal_input_setup.addAxes internal_input_setup.axis_mappings oc
                    (⟨⟨s.w.dirs, s.w.assets,
                rmAll ActionMapping.actionName internal_input_setup.action_mappings
                    s.w.actionMappings s.w.actionMappings ++
                  internal_input_setup.action_mappings,
                rmAll AxisMapping.axisName internal_input_setup.axis_mappings
                  s.w.axisMappings s.w.axisMappings,
                s.w.comps, s.w.props, s.w.vars, s.w.actors⟩, c8⟩ : St)).r = .ok () := by rw [h5]
                obtain ⟨htr9, c9, hs9⟩ := addX_run oc internal_input_setup.axis_mappings _ hok5
                rw [h5] at htr9 hs9
                simp only at htr9 hs9
                rw [bind_peel h5] at hr ⊢
                simp only at hr ⊢
                cases u4
                subst hs9
                rcases h6 : oc "get_editor_subsystem"
                    ((⟨⟨s.w.dirs, s.w.assets,
                rmAll ActionMapping.actionName internal_input_setup.action_mappings
                    s.w.actionMappings s.w.actionMappings ++
                  internal_input_setup.action_mappings,
                rmAll AxisMapping.axisName internal_input_setup.axis_mappings
                    s.w.axisMappings s.w.axisMappings ++
                  internal_input_setup.axis_mappings,
                s.w.comps, s.w.props, s.w.vars, s.w.actors⟩, c9⟩ : St).cnt "get_editor_subsystem") with _ | _ | _
                · rw [bind_peel (callN_run_ok h6)] at hr ⊢
                  simp only at hr ⊢
                  rw [withObj_some] at hr ⊢
                  by_cases h7r : oc "save_config_file"
                      ((⟨⟨s.w.dirs, s.w.assets,
                rmAll ActionMapping.actionName internal_input_setup.action_mappings
                    s.w.actionMappings s.w.actionMappings ++
                  internal_input_setup.action_mappings,
                rmAll AxisMapping.axisName internal_input_setup.axis_mappings
                    s.w.axisMappings s.w.axisMappings ++
                  internal_input_setup.axis_mappings,
                s.w.comps, s.w.props, s.w.vars, s.w.actors⟩, bump c9 "get_editor_subsystem"⟩ : St).cnt "save_config_file")
                      = .raise
                  · rw [bind_peel_err (callU_run_raise h7r)] at hr
                    simp at hr
                  · obtain ⟨o7, h7⟩ := callU_run_notRaise h7r
                    rw [bind_peel h7] at hr ⊢
                    simp only at hr ⊢
                    rw [bind_peel (IS_log_run _ oc _)] at hr ⊢
                    simp only at hr ⊢
                    refine ⟨?_, ?_⟩
                    · simp [List.filterMap_append, List.filterMap_cons, htr3, htr6, htr8, htr9,
                        addSaveKey_gdo, addSaveKey_gam, addSaveKey_gxm, addSaveKey_ges,
                        addSaveKey_save, addSaveKey_log, pure_run]
                    · exact ⟨_, rfl⟩
                · rw [bind_peel (callN_run_nil h6)] at hr
                  simp only at hr
                  rw [withObj_none] at hr
                  rw [bind_peel_err (raiseM_run _ oc _)] at hr
                  simp at hr
                · rw [bind_peel_err (callN_run_raise h6)] at hr
                  simp at hr
  · rw [bind_peel (callN_run_nil h0)] at hr
    simp only at hr
    rw [bind_peel (IS_log_run _ oc _)] at hr
    simp [M.pure] at hr
  · rw [bind_peel_err (callN_run_raise h0)] at hr
    simp at hr

theorem addSaveKey_cons_enter (f a : String) (tr : List Ev) :
    (Ev.enter f a :: tr).filterMap addSaveKey = tr.filterMap addSaveKey := rfl

/-- Lift of `simTry_char` through the `try`/`except` wrapper and the
function-entry marker of `setup_input_mappings`. -/
theorem sim_char (oc : Oracle) (s : St)
    (hr : (internal_input_setup.setup_input_mappings oc s).r = .ok true) :
    (internal_input_setup.setup_input_mappings oc s).tr.filterMap addSaveKey =
      internal_input_setup.action_mappings.map
        (fun a => ("add_action_mapping", a.actionName ++ "," ++ a.key)) ++
      internal_input_setup.axis_mappings.map
        (fun x => ("add_axis_mapping", x.axisName ++ "," ++ x.key)) ++
      [("save_config_file", "input_settings")] ∧
    ∃ c2, (internal_input_setup.setup_input_mappings oc s).s =
      ⟨{ s.w with
          actionMappings :=
            rmAll ActionMapping.actionName internal_input_setup.action_mappings
              s.w.actionMappings s.w.actionMappings ++ internal_input_setup.action_mappings,
          axisMappings :=
            rmAll AxisMapping.axisName internal_input_setup.axis_mappings
              s.w.axisMappings s.w.axisMappings ++ internal_input_setup.axis_mappings }, c2⟩ := by
  have hr2 : (tryM internal_input_setup.setup_input_mappings_try
      internal_input_setup.setup_input_mappings_handler oc s).r = .ok true := hr
  obtain ⟨hbody, -⟩ := tryM_ok_true (fun e s2 => rfl) hr2
  have heq := @tryM_ok Bool internal_input_setup.setup_input_mappings_try
    internal_input_setup.setup_input_mappings_handler oc s true hbody
  obtain ⟨htr, c2, hs⟩ := simTry_char oc s hbody
  have htr2 : (internal_input_setup.setup_input_mappings oc s).tr =
      Ev.enter "internal_input_setup.setup_input_mappings" "" ::
        (internal_input_setup.setup_input_mappings_try oc s).tr := by
    show Ev.enter "internal_input_setup.setup_input_mappings" "" ::
      (tryM internal_input_setup.setup_input_mappings_try
        internal_input_setup.setup_input_mappings_handler oc s).tr = _
    rw [heq]
  have hst2 : (internal_input_setup.setup_input_mappings oc s).s =
      (internal_input_setup.setup_input_mappings_try oc s).s := by
    show (tryM internal_input_setup.setup_input_mappings_try
      internal_input_setup.setup_input_mappings_handler oc s).s = _
    rw [heq]
  refine ⟨?_, c2, ?_⟩
  · rw [htr2, addSaveKey_cons_enter, htr]
  · rw [hst2, hs]

/-! ## Concrete hosts used as counterexamples -/

/-- A host on which `does_asset_exist` raises and everything else succeeds. -/
def orRaiseAssetExist : Oracle :=
  fun n _ => if n = "does_asset_exist" then Outcome.raise else Outcome.ok

/-- A host on which `create_asset` returns `None` and everything else
succeeds. -/
def orNilCreate : Oracle :=
  fun n _ => if n = "create_asset" then Outcome.nil else Outcome.ok

/-- A host on which `add_new_component_to_blueprint` returns `None` and
everything else succeeds. -/
def orNilAddComp : Oracle :=
  fun n _ => if n = "add_new_component_to_blueprint" then Outcome.nil else Outcome.ok

/-- A fresh project in which the spaceship blueprint asset already exists. -/
def stReady : St :=
  ⟨{ engineWorld with assets :=
      engineWorld.assets ++ ["/Game/SpaceDogfight/Blueprints/BP_Spaceship"] }, fun _ => 0⟩

/-! ## Claim theorems -/

/-- C1 counterexample: on a host where `does_asset_exist` raises,
`create_spaceship_blueprint` (which has no `try`/`except`) lets the
exception propagate to its caller instead of catching it and returning a
failure value, so the claim as stated is false. -/
theorem C1_counterexample :
    (internal_spaceship_creator.create_spaceship_blueprint orRaiseAssetExist st0).r =
      Except.error "does_asset_exist raised" := by
  rfl

/-- C1 (amended): the `except`-wrapped setup operations — input-mapping
setup, module import-and-run, and the component/variable attachment
functions — catch every host-API exception internally and return a normal
failure value; the blueprint-creation functions
(`create_spaceship_blueprint`, `create_laser_projectile_blueprint`,
`create_missile_projectile_blueprint`, and `ensure_directory_exists`,
plus the pre-`try` `load_blueprint_class` call of
`add_components_to_blueprint`) have no handler and let exceptions
propagate to their caller. -/
theorem C1_amended :
    (∀ oc s, ∃ b, (internal_input_setup.setup_input_mappings oc s).r = .ok b) ∧
    (∀ nm fp oc s, ∃ b, (internal_complete_setup.import_and_run_module nm fp oc s).r = .ok b) ∧
    (∀ bp oc s, ∃ b, (internal_spaceship_creator.add_blueprint_variables bp oc s).r = .ok b) ∧
    (∀ oc s, ∃ b, (internal_spaceship_creator.spawn_test_instance oc s).r = .ok b) ∧
    (∀ bp oc s, ∃ b, (internal_weapon_system.setup_laser_components bp oc s).r = .ok b) ∧
    (∀ bp oc s, ∃ b, (internal_weapon_system.setup_missile_components bp oc s).r = .ok b) ∧
    (∀ oc s, ∃ b, (internal_weapon_system.add_weapon_components_to_spaceship oc s).r = .ok b) := by
  refine ⟨?_, ?_, ?_, ?_, ?_, ?_, ?_⟩
  · intro oc s
    show ∃ b, (tryM internal_input_setup.setup_input_mappings_try
      internal_input_setup.setup_input_mappings_handler oc s).r = .ok b
    exact tryM_noErr (fun e oc2 s2 => ⟨false, rfl⟩) oc s
  · intro nm fp oc s
    exact (iarm_char nm fp oc s).1
  · intro bp oc s
    rcases bp with _ | h
    · exact ⟨false, rfl⟩
    · show ∃ b, (tryM (internal_spaceship_creator.add_blueprint_variables_try h)
        (fun e => M.bind (internal_spaceship_creator.log ("Error adding blueprint variables: " ++ e))
          (fun _ => M.pure false)) oc s).r = .ok b
      exact tryM_noErr (fun e oc2 s2 => ⟨false, rfl⟩) oc s
  · intro oc s
    show ∃ b, (tryM internal_spaceship_creator.spawn_test_instance_try
      (fun e => M.bind (internal_spaceship_creator.log ("Error spawning test instance: " ++ e))
        (fun _ => M.pure false)) oc s).r = .ok b
    exact tryM_noErr (fun e oc2 s2 => ⟨false, rfl⟩) oc s
  · intro bp oc s
    rcases bp with _ | h
    · exact ⟨false, rfl⟩
    · show ∃ b, (tryM (internal_weapon_system.setup_laser_components_try h)
        (fun e => M.bind (internal_weapon_system.log ("Error setting up laser components: " ++ e))
          (fun _ => M.pure false)) oc s).r = .ok b
      exact tryM_noErr (fun e oc2 s2 => ⟨false, rfl⟩) oc s
  · intro bp oc s
    rcases bp with _ | h
    · exact ⟨false, rfl⟩
    · show ∃ b, (tryM (internal_weapon_system.setup_missile_components_try h)
        (fun e => M.bind (internal_weapon_system.log ("Error setting up missile components: " ++ e))
          (fun _ => M.pure false)) oc s).r = .ok b
      exact tryM_noErr (fun e oc2 s2 => ⟨false, rfl⟩) oc s
  · intro oc s
    show ∃ b, (tryM internal_weapon_system.add_weapon_components_to_spaceship_try
      (fun e => M.bind (internal_weapon_system.log ("Error adding weapon components to spaceship: " ++ e))
        (fun _ => M.pure false)) oc s).r = .ok b
    exact tryM_noErr (fun e oc2 s2 => ⟨false, rfl⟩) oc s

/-- C2 counterexample: on a host where `create_asset` returns `None`, the
failed blueprint-creation step makes `internal_spaceship_creator.main`
abort: the subsequent `add_components_to_blueprint` step is never
attempted, so within a script a failed step does prevent the remaining
steps. -/
theorem C2_counterexample :
    Ev.log "[SPACESHIP CREATOR] Failed to create or get spaceship blueprint, aborting"
      ∈ (internal_spaceship_creator.main orNilCreate st0).tr ∧
    (internal_spaceship_creator.main orNilCreate st0).tr.filter
      (isEnterOf "internal_spaceship_creator.add_components_to_blueprint") = [] := by
  decide

/-- C2 (amended): a failed script never halts the overall sequence —
`internal_complete_setup.main` always returns normally, runs all three
scripts through `import_and_run_module` in order, and reaches the final
completion log; within each script, only the steps after a failed one are
guaranteed to be attempted when the script does not return early
(`internal_spaceship_creator.main` aborts its remaining steps when
blueprint creation fails, and `internal_input_setup.main` returns early
when `setup_input_mappings` fails). -/
theorem C2_amended (oc : Oracle) (s : St) :
    (internal_complete_setup.main oc s).r = .ok () ∧
    scriptRuns (internal_complete_setup.main oc s).tr =
      ["internal_spaceship_creator", "internal_input_setup", "internal_weapon_system"] ∧
    Ev.log "[SETUP] Space Dogfight setup process completed!" ∈
      (internal_complete_setup.main oc s).tr :=
  CS_main_char oc s

/-- C6: every run of `internal_complete_setup.main` invokes the three
setup scripts through `import_and_run_module` in the fixed order
spaceship creator, then input setup, then weapon system — each strictly
after the previous one finished, with no branching over which scripts
run, whatever the host does. -/
theorem C6_fixed_script_order (oc : Oracle) (s : St) :
    scriptRuns (internal_complete_setup.main oc s).tr =
      ["internal_spaceship_creator", "internal_input_setup", "internal_weapon_system"] :=
  (CS_main_char oc s).2.1

/-- C10: the module-level guard `if __name__ == "__main__" or True` is true
for every module name, so executing a script's module body always calls the
script's `main()`; consequently, whenever `import_and_run_module` returns
`True` for one of the three scripts, that script's `main` executed exactly
twice in that run — once during `exec_module` and once from the explicit
`module.main()` call. -/
theorem C10_double_execution :
    (∀ n, internal_complete_setup.moduleGuard n = true) ∧
    (∀ nm fp oc s, internal_complete_setup.hasMain nm = true →
      (internal_complete_setup.import_and_run_module nm fp oc s).r = .ok true →
      ((internal_complete_setup.import_and_run_module nm fp oc s).tr.filter
        (isEnterOf (nm ++ ".main"))).length = 2) := by
  refine ⟨moduleGuard_true, ?_⟩
  intro nm fp oc s hnm hr
  have hiarm : internal_complete_setup.import_and_run_module nm fp oc s =
      ⟨(tryM (internal_complete_setup.import_and_run_module_try nm fp)
          (internal_complete_setup.import_and_run_module_handler nm) oc s).r,
        (tryM (internal_complete_setup.import_and_run_module_try nm fp)
          (internal_complete_setup.import_and_run_module_handler nm) oc s).s,
        .enter "import_and_run_module" nm ::
          (tryM (internal_complete_setup.import_and_run_module_try nm fp)
            (internal_complete_setup.import_and_run_module_handler nm) oc s).tr⟩ := rfl
  rw [hiarm] at hr ⊢
  simp only at hr ⊢
  obtain ⟨hbody, htr⟩ := tryM_ok_true (fun e s2 => rfl) hr
  rw [htr, List.filter_cons]
  have hcases : nm = "internal_spaceship_creator" ∨ nm = "internal_input_setup" ∨
      nm = "internal_weapon_system" := by
    unfold internal_complete_setup.hasMain at hnm
    simp only [Bool.or_eq_true, beq_iff_eq] at hnm
    tauto
  have hhead : isEnterOf (nm ++ ".main") (Ev.enter "import_and_run_module" nm) = false := by
    rcases hcases with rfl | rfl | rfl <;> rfl
  rw [hhead, if_neg Bool.false_ne_true]
  rcases hcases with rfl | rfl | rfl
  · rw [iarm_try_filter "internal_spaceship_creator" fp rfl _
      (fun n a o => rfl) (fun m => rfl)
      (fun oc2 s2 => mainFilter_SC _ (fun n a o => rfl) (fun m => rfl)
        (fun arg => rfl) (fun arg => rfl) (fun arg => rfl) (fun arg => rfl) (fun arg => rfl)
        rfl oc2 s2)
      oc s hbody]
    rfl
  · rw [iarm_try_filter "internal_input_setup" fp rfl _
      (fun n a o => rfl) (fun m => rfl)
      (fun oc2 s2 => mainFilter_IS _ (fun n a o => rfl) (fun m => rfl)
        (fun arg => rfl) rfl oc2 s2)
      oc s hbody]
    rfl
  · rw [iarm_try_filter "internal_weapon_system" fp rfl _
      (fun n a o => rfl) (fun m => rfl)
      (fun oc2 s2 => mainFilter_WS _ (fun n a o => rfl) (fun m => rfl)
        (fun arg => rfl) (fun arg => rfl) (fun arg => rfl) (fun arg => rfl) (fun arg => rfl)
        (fun arg => rfl) rfl oc2 s2)
      oc s hbody]
    rfl

set_option maxHeartbeats 3200000 in
/-- C7 counterexample: on a host where `create_asset` returns `None`,
running `internal_spaceship_creator` through `import_and_run_module` first
attempts `create_spaceship_blueprint`, which fails (main logs the abort
message) — and then the very same operation is invoked again within the same
run, because the module body's `main()` and the explicit `module.main()`
call each execute it once.  So a failed operation is re-attempted within the
run, contradicting the claim. -/
theorem C7_counterexample :
    (internal_complete_setup.import_and_run_module "internal_spaceship_creator"
        "internal_spaceship_creator.py" orNilCreate st0).tr.filter
      (fun e => isEnterOf "internal_spaceship_creator.create_spaceship_blueprint" e ||
        decide (e = Ev.log
          "[SPACESHIP CREATOR] Failed to create or get spaceship blueprint, aborting")) =
      [Ev.enter "internal_spaceship_creator.create_spaceship_blueprint" "",
       Ev.log "[SPACESHIP CREATOR] Failed to create or get spaceship blueprint, aborting",
       Ev.enter "internal_spaceship_creator.create_spaceship_blueprint" "",
       Ev.log "[SPACESHIP CREATOR] Failed to create or get spaceship blueprint, aborting"] := by
  decide

/-- C7 (amended): within a single invocation of a script's `main`, every
operation is attempted at most once and a failed operation is never
retried — `internal_spaceship_creator.main` enters
`create_spaceship_blueprint` exactly once per call and
`internal_input_setup.main` enters `setup_input_mappings` exactly once per
call, on every host behaviour and prior state.  (Across one run of
`import_and_run_module`, however, the script's `main` itself executes
twice, so these operations are re-attempted after a failure.) -/
theorem C7_amended :
    (∀ oc s, (internal_spaceship_creator.main oc s).tr.filter
        (isEnterOf "internal_spaceship_creator.create_spaceship_blueprint") =
        [.enter "internal_spaceship_creator.create_spaceship_blueprint" ""]) ∧
    (∀ oc s, (internal_input_setup.main oc s).tr.filter
        (isEnterOf "internal_input_setup.setup_input_mappings") =
        [.enter "internal_input_setup.setup_input_mappings" ""]) :=
  ⟨mainOnce_SC_csb, mainOnce_IS_sim⟩

/-- C3: each of the three blueprint-create functions checks for the asset
first: on the all-ok host, when the asset already exists the function
returns the loaded existing asset and performs no `create_asset` call, and
when it is absent it performs exactly one `create_asset` call at that
path (name and directory) and returns the newly created asset. -/
theorem C3_check_before_create :
    (∀ s, internal_spaceship_creator.SPACESHIP_FULL_PATH ∈ s.w.assets →
      (internal_spaceship_creator.create_spaceship_blueprint allOk s).r =
        .ok (some internal_spaceship_creator.SPACESHIP_FULL_PATH) ∧
      (internal_spaceship_creator.create_spaceship_blueprint allOk s).tr.filter
        (isCallOf "create_asset") = []) ∧
    (∀ s, internal_spaceship_creator.SPACESHIP_FULL_PATH ∉ s.w.assets →
      (internal_spaceship_creator.create_spaceship_blueprint allOk s).r =
        .ok (some internal_spaceship_creator.SPACESHIP_FULL_PATH) ∧
      (internal_spaceship_creator.create_spaceship_blueprint allOk s).tr.filter
        (isCallOf "create_asset") =
        [.call "create_asset" (internal_spaceship_creator.SPACESHIP_BP_NAME ++ "," ++
          internal_spaceship_creator.BLUEPRINT_PATH) .ok]) ∧
    (∀ s, internal_weapon_system.LASER_FULL_PATH ∈ s.w.assets →
      (internal_weapon_system.create_laser_projectile_blueprint allOk s).r =
        .ok (some internal_weapon_system.LASER_FULL_PATH) ∧
      (internal_weapon_system.create_laser_projectile_blueprint allOk s).tr.filter
        (isCallOf "create_asset") = []) ∧
    (∀ s, internal_weapon_system.LASER_FULL_PATH ∉ s.w.assets →
      (internal_weapon_system.create_laser_projectile_blueprint allOk s).r =
        .ok (some internal_weapon_system.LASER_FULL_PATH) ∧
      (internal_weapon_system.create_laser_projectile_blueprint allOk s).tr.filter
        (isCallOf "create_asset") =
        [.call "create_asset" (internal_weapon_system.LASER_BP_NAME ++ "," ++
          internal_weapon_system.WEAPONS_PATH) .ok]) ∧
    (∀ s, internal_weapon_system.MISSILE_FULL_PATH ∈ s.w.assets →
      (internal_weapon_system.create_missile_projectile_blueprint allOk s).r =
        .ok (some internal_weapon_system.MISSILE_FULL_PATH) ∧
      (internal_weapon_system.create_missile_projectile_blueprint allOk s).tr.filter
        (isCallOf "create_asset") = []) ∧
    (∀ s, internal_weapon_system.MISSILE_FULL_PATH ∉ s.w.assets →
      (internal_weapon_system.create_missile_projectile_blueprint allOk s).r =
        .ok (some internal_weapon_system.MISSILE_FULL_PATH) ∧
      (internal_weapon_system.create_missile_projectile_blueprint allOk s).tr.filter
        (isCallOf "create_asset") =
        [.call "create_asset" (internal_weapon_system.MISSILE_BP_NAME ++ "," ++
          internal_weapon_system.WEAPONS_PATH) .ok]) :=
  ⟨csb_mem_allOk, csb_abs_allOk, laser_mem_allOk, laser_abs_allOk,
    missile_mem_allOk, missile_abs_allOk⟩

/-- A project state in which all three blueprints already exist. -/
def stExisting : St :=
  ⟨{ emptyWorld with assets :=
      ["/Game/SpaceDogfight/Blueprints/BP_Spaceship",
       "/Game/SpaceDogfight/Weapons/BP_LaserProjectile",
       "/Game/SpaceDogfight/Weapons/BP_MissileProjectile"] }, fun _ => 0⟩

theorem C3_witness :
    (internal_spaceship_creator.SPACESHIP_FULL_PATH ∈ stExisting.w.assets ∧
      internal_weapon_system.LASER_FULL_PATH ∈ stExisting.w.assets ∧
      internal_weapon_system.MISSILE_FULL_PATH ∈ stExisting.w.assets ∧
      internal_spaceship_creator.SPACESHIP_FULL_PATH ∉ st0.w.assets ∧
      internal_weapon_system.LASER_FULL_PATH ∉ st0.w.assets ∧
      internal_weapon_system.MISSILE_FULL_PATH ∉ st0.w.assets) ∧
    ((internal_spaceship_creator.create_spaceship_blueprint allOk stExisting).tr.filter
      (isCallOf "create_asset") = []) ∧
    ((internal_spaceship_creator.create_spaceship_blueprint allOk st0).tr.filter
      (isCallOf "create_asset") =
      [.call "create_asset" (internal_spaceship_creator.SPACESHIP_BP_NAME ++ "," ++
        internal_spaceship_creator.BLUEPRINT_PATH) .ok]) ∧
    ((internal_weapon_system.create_laser_projectile_blueprint allOk stExisting).tr.filter
      (isCallOf "create_asset") = []) ∧
    ((internal_weapon_system.create_laser_projectile_blueprint allOk st0).tr.filter
      (isCallOf "create_asset") =
      [.call "create_asset" (internal_weapon_system.LASER_BP_NAME ++ "," ++
        internal_weapon_system.WEAPONS_PATH) .ok]) ∧
    ((internal_weapon_system.create_missile_projectile_blueprint allOk stExisting).tr.filter
      (isCallOf "create_asset") = []) ∧
    ((internal_weapon_system.create_missile_projectile_blueprint allOk st0).tr.filter
      (isCallOf "create_asset") =
      [.call "create_asset" (internal_weapon_system.MISSILE_BP_NAME ++ "," ++
        internal_weapon_system.WEAPONS_PATH) .ok]) :=
  ⟨⟨by decide, by decide, by decide, by decide, by decide, by decide⟩,
    (C3_check_before_create.1 stExisting (by decide)).2,
    (C3_check_before_create.2.1 st0 (by decide)).2,
    (C3_check_before_create.2.2.1 stExisting (by decide)).2,
    (C3_check_before_create.2.2.2.1 st0 (by decide)).2,
    (C3_check_before_create.2.2.2.2.1 stExisting (by decide)).2,
    (C3_check_before_create.2.2.2.2.2 st0 (by decide)).2⟩

/-- C4 counterexample: on a host where `add_new_component_to_blueprint`
returns `None` (and everything else succeeds), `add_components_to_blueprint`
still returns `True` — each per-component failure is only logged — yet no
component at all was attached to the blueprint.  A `True` return therefore
does not imply the fixed component list was attached. -/
theorem C4_counterexample :
    (internal_spaceship_creator.add_components_to_blueprint
      (some "/Game/SpaceDogfight/Blueprints/BP_Spaceship") orNilAddComp stReady).r =
      .ok true ∧
    ((internal_spaceship_creator.add_components_to_blueprint
      (some "/Game/SpaceDogfight/Blueprints/BP_Spaceship") orNilAddComp stReady).s).w.comps =
      [] ∧
    Ev.log "[SPACESHIP CREATOR] Failed to create ship mesh component" ∈
      (internal_spaceship_creator.add_components_to_blueprint
        (some "/Game/SpaceDogfight/Blueprints/BP_Spaceship") orNilAddComp stReady).tr :=
  ⟨rfl, by decide, by decide⟩

/-- C4 (amended): on the all-ok host, starting from a fresh project holding
the blueprint, `add_components_to_blueprint` returns `True` and attaches
exactly the fixed component list — DefaultSceneRoot, then ShipMesh,
CollisionSphere, CameraSpringArm and MovementComponent under it and
FollowCamera under CameraSpringArm — sets exactly the literal property
values of the script (SphereRadius 50, TargetArmLength 400, FieldOfView 90,
MaxSpeed 1000, …), and ends by compiling the blueprint and saving the
asset.  (The converse direction claimed by the spec is false: see the
counterexample.) -/
theorem C4_amended :
    (internal_spaceship_creator.add_components_to_blueprint
      (some "/Game/SpaceDogfight/Blueprints/BP_Spaceship") allOk stReady).r = .ok true ∧
    ((internal_spaceship_creator.add_components_to_blueprint
      (some "/Game/SpaceDogfight/Blueprints/BP_Spaceship") allOk stReady).s).w.comps =
      [⟨"/Game/SpaceDogfight/Blueprints/BP_Spaceship", "DefaultSceneRoot",
         "SceneComponent", none⟩,
       ⟨"/Game/SpaceDogfight/Blueprints/BP_Spaceship", "ShipMesh", "StaticMeshComponent",
         some "/Game/SpaceDogfight/Blueprints/BP_Spaceship:DefaultSceneRoot"⟩,
       ⟨"/Game/SpaceDogfight/Blueprints/BP_Spaceship", "CollisionSphere", "SphereComponent",
         some "/Game/SpaceDogfight/Blueprints/BP_Spaceship:DefaultSceneRoot"⟩,
       ⟨"/Game/SpaceDogfight/Blueprints/BP_Spaceship", "CameraSpringArm", "SpringArmComponent",
         some "/Game/SpaceDogfight/Blueprints/BP_Spaceship:DefaultSceneRoot"⟩,
       ⟨"/Game/SpaceDogfight/Blueprints/BP_Spaceship", "FollowCamera", "CameraComponent",
         some "/Game/SpaceDogfight/Blueprints/BP_Spaceship:CameraSpringArm"⟩,
       ⟨"/Game/SpaceDogfight/Blueprints/BP_Spaceship", "MovementComponent",
         "FloatingPawnMovement",
         some "/Game/SpaceDogfight/Blueprints/BP_Spaceship:DefaultSceneRoot"⟩] ∧
    ((internal_spaceship_creator.add_components_to_blueprint
      (some "/Game/SpaceDogfight/Blueprints/BP_Spaceship") allOk stReady).s).w.props =
      [("/Game/SpaceDogfight/Blueprints/BP_Spaceship:ShipMesh", "StaticMesh",
         PVal.asset "/Engine/BasicShapes/Cone"),
       ("/Game/SpaceDogfight/Blueprints/BP_Spaceship:CollisionSphere", "SphereRadius",
         PVal.num 50),
       ("/Game/SpaceDogfight/Blueprints/BP_Spaceship:CameraSpringArm", "TargetArmLength",
         PVal.num 400),
       ("/Game/SpaceDogfight/Blueprints/BP_Spaceship:CameraSpringArm", "bEnableCameraLag",
         PVal.flag true),
       ("/Game/SpaceDogfight/Blueprints/BP_Spaceship:CameraSpringArm",
         "bEnableCameraRotationLag", PVal.flag true),
       ("/Game/SpaceDogfight/Blueprints/BP_Spaceship:CameraSpringArm", "CameraLagSpeed",
         PVal.num 5),
       ("/Game/SpaceDogfight/Blueprints/BP_Spaceship:CameraSpringArm",
         "CameraRotationLagSpeed", PVal.num 5),
       ("/Game/SpaceDogfight/Blueprints/BP_Spaceship:CameraSpringArm",
         "bUsePawnControlRotation", PVal.flag true),
       ("/Game/SpaceDogfight/Blueprints/BP_Spaceship:CameraSpringArm", "RelativeLocation",
         PVal.vec 0 0 50),
       ("/Game/SpaceDogfight/Blueprints/BP_Spaceship:CameraSpringArm", "RelativeRotation",
         PVal.rot (-20) 0 0),
       ("/Game/SpaceDogfight/Blueprints/BP_Spaceship:FollowCamera", "FieldOfView",
         PVal.num 90),
       ("/Game/SpaceDogfight/Blueprints/BP_Spaceship:MovementComponent", "MaxSpeed",
         PVal.num 1000),
       ("/Game/SpaceDogfight/Blueprints/BP_Spaceship:MovementComponent", "Acceleration",
         PVal.num 4000),
       ("/Game/SpaceDogfight/Blueprints/BP_Spaceship:MovementComponent", "Deceleration",
         PVal.num 2000),
       ("/Game/SpaceDogfight/Blueprints/BP_Spaceship:MovementComponent", "TurningBoost",
         PVal.num 8),
       ("/Game/SpaceDogfight/Blueprints/BP_Spaceship:MovementComponent", "bConstrainToPlane",
         PVal.flag false)] ∧
    (internal_spaceship_creator.add_components_to_blueprint
      (some "/Game/SpaceDogfight/Blueprints/BP_Spaceship") allOk stReady).tr.filter
      (fun e => isCallOf "compile_blueprint" e || isCallOf "save_asset" e) =
      [.call "compile_blueprint" "/Game/SpaceDogfight/Blueprints/BP_Spaceship" .ok,
       .call "save_asset" "/Game/SpaceDogfight/Blueprints/BP_Spaceship" .ok] :=
  ⟨rfl, by decide, by decide, by decide⟩

/-- C5: on any run of `setup_input_mappings` that returns `True`, exactly
the four action mappings of the literal action table and the nine axis
mappings of the literal axis table are added, once each, in table order,
followed by exactly one configuration save; no other add or save call
occurs in the run. -/
theorem C5_tables_added_once :
    ∀ oc s, (internal_input_setup.setup_input_mappings oc s).r = .ok true →
      (internal_input_setup.setup_input_mappings oc s).tr.filterMap addSaveKey =
        [("add_action_mapping", "Boost,E"), ("add_action_mapping", "Brake,R"),
         ("add_action_mapping", "PrimaryFire,LEFT_MOUSE_BUTTON"),
         ("add_action_mapping", "SecondaryFire,RIGHT_MOUSE_BUTTON"),
         ("add_axis_mapping", "MoveForward,W"), ("add_axis_mapping", "MoveForward,S"),
         ("add_axis_mapping", "MoveRight,D"), ("add_axis_mapping", "MoveRight,A"),
         ("add_axis_mapping", "MoveUp,Q"), ("add_axis_mapping", "MoveUp,Z"),
         ("add_axis_mapping", "Turn,MOUSE_X"), ("add_axis_mapping", "LookUp,MOUSE_Y"),
         ("add_axis_mapping", "CameraZoom,MOUSE_WHEEL_AXIS"),
         ("save_config_file", "input_settings")] := by
  intro oc s hr
  rw [(sim_char oc s hr).1]
  rfl

set_option maxHeartbeats 1600000 in
theorem C5_witness :
    (internal_input_setup.setup_input_mappings allOk st0).r = .ok true ∧
    (internal_input_setup.setup_input_mappings allOk st0).tr.filterMap addSaveKey =
      [("add_action_mapping", "Boost,E"), ("add_action_mapping", "Brake,R"),
       ("add_action_mapping", "PrimaryFire,LEFT_MOUSE_BUTTON"),
       ("add_action_mapping", "SecondaryFire,RIGHT_MOUSE_BUTTON"),
       ("add_axis_mapping", "MoveForward,W"), ("add_axis_mapping", "MoveForward,S"),
       ("add_axis_mapping", "MoveRight,D"), ("add_axis_mapping", "MoveRight,A"),
       ("add_axis_mapping", "MoveUp,Q"), ("add_axis_mapping", "MoveUp,Z"),
       ("add_axis_mapping", "Turn,MOUSE_X"), ("add_axis_mapping", "LookUp,MOUSE_Y"),
       ("add_axis_mapping", "CameraZoom,MOUSE_WHEEL_AXIS"),
       ("save_config_file", "input_settings")] :=
  ⟨by rfl, C5_tables_added_once allOk st0 (by rfl)⟩

/-- C8: after any run of `setup_input_mappings` that returns `True`, and
whatever the prior input settings, each of the four action names carries
exactly its one mapping from the literal action table (every pre-existing
mapping with that name having been removed before the add), and each of
the six axis names carries exactly its mappings from the literal axis
table and no others. -/
theorem C8_final_mappings :
    ∀ oc s, (internal_input_setup.setup_input_mappings oc s).r = .ok true →
      (((internal_input_setup.setup_input_mappings oc s).s).w.actionMappings.filter
        (fun m => m.actionName == "Boost") = [⟨"Boost", "E"⟩] ∧
       ((internal_input_setup.setup_input_mappings oc s).s).w.actionMappings.filter
        (fun m => m.actionName == "Brake") = [⟨"Brake", "R"⟩] ∧
       ((internal_input_setup.setup_input_mappings oc s).s).w.actionMappings.filter
        (fun m => m.actionName == "PrimaryFire") = [⟨"PrimaryFire", "LEFT_MOUSE_BUTTON"⟩] ∧
       ((internal_input_setup.setup_input_mappings oc s).s).w.actionMappings.filter
        (fun m => m.actionName == "SecondaryFire") =
          [⟨"SecondaryFire", "RIGHT_MOUSE_BUTTON"⟩]) ∧
      (((internal_input_setup.setup_input_mappings oc s).s).w.axisMappings.filter
        (fun m => m.axisName == "MoveForward") =
          [⟨"MoveForward", "W", 1⟩, ⟨"MoveForward", "S", -1⟩] ∧
       ((internal_input_setup.setup_input_mappings oc s).s).w.axisMappings.filter
        (fun m => m.axisName == "MoveRight") =
          [⟨"MoveRight", "D", 1⟩, ⟨"MoveRight", "A", -1⟩] ∧
       ((internal_input_setup.setup_input_mappings oc s).s).w.axisMappings.filter
        (fun m => m.axisName == "MoveUp") = [⟨"MoveUp", "Q", 1⟩, ⟨"MoveUp", "Z", -1⟩] ∧
       ((internal_input_setup.setup_input_mappings oc s).s).w.axisMappings.filter
        (fun m => m.axisName == "Turn") = [⟨"Turn", "MOUSE_X", 1⟩] ∧
       ((internal_input_setup.setup_input_mappings oc s).s).w.axisMappings.filter
        (fun m => m.axisName == "LookUp") = [⟨"LookUp", "MOUSE_Y", -1⟩] ∧
       ((internal_input_setup.setup_input_mappings oc s).s).w.axisMappings.filter
        (fun m => m.axisName == "CameraZoom") = [⟨"CameraZoom", "MOUSE_WHEEL_AXIS", 1⟩]) := by
  intro oc s hr
  obtain ⟨-, c2, hs⟩ := sim_char oc s hr
  rw [hs]
  simp only
  have hclearA : ∀ N : String, (∃ a ∈ internal_input_setup.action_mappings,
      a.actionName = N) →
      (rmAll ActionMapping.actionName internal_input_setup.action_mappings
        s.w.actionMappings s.w.actionMappings).filter (fun m => m.actionName == N) = [] :=
    fun N hN => rmAll_clear ActionMapping.actionName N internal_input_setup.action_mappings
      s.w.actionMappings s.w.actionMappings (fun m hm => hm) hN
  have hclearX : ∀ N : String, (∃ a ∈ internal_input_setup.axis_mappings,
      a.axisName = N) →
      (rmAll AxisMapping.axisName internal_input_setup.axis_mappings
        s.w.axisMappings s.w.axisMappings).filter (fun m => m.axisName == N) = [] :=
    fun N hN => rmAll_clear AxisMapping.axisName N internal_input_setup.axis_mappings
      s.w.axisMappings s.w.axisMappings (fun m hm => hm) hN
  refine ⟨⟨?_, ?_, ?_, ?_⟩, ?_, ?_, ?_, ?_, ?_, ?_⟩
  · rw [List.filter_append, hclearA "Boost" ⟨⟨"Boost", "E"⟩, by decide, rfl⟩]
    rfl
  · rw [List.filter_append, hclearA "Brake" ⟨⟨"Brake", "R"⟩, by decide, rfl⟩]
    rfl
  · rw [List.filter_append, hclearA "PrimaryFire"
      ⟨⟨"PrimaryFire", "LEFT_MOUSE_BUTTON"⟩, by decide, rfl⟩]
    rfl
  · rw [List.filter_append, hclearA "SecondaryFire"
      ⟨⟨"SecondaryFire", "RIGHT_MOUSE_BUTTON"⟩, by decide, rfl⟩]
    rfl
  · rw [List.filter_append, hclearX "MoveForward" ⟨⟨"MoveForward", "W", 1⟩, by decide, rfl⟩]
    rfl
  · rw [List.filter_append, hclearX "MoveRight" ⟨⟨"MoveRight", "D", 1⟩, by decide, rfl⟩]
    rfl
  · rw [List.filter_append, hclearX "MoveUp" ⟨⟨"MoveUp", "Q", 1⟩, by decide, rfl⟩]
    rfl
  · rw [List.filter_append, hclearX "Turn" ⟨⟨"Turn", "MOUSE_X", 1⟩, by decide, rfl⟩]
    rfl
  · rw [List.filter_append, hclearX "LookUp" ⟨⟨"LookUp", "MOUSE_Y", -1⟩, by decide, rfl⟩]
    rfl
  · rw [List.filter_append, hclearX "CameraZoom"
      ⟨⟨"CameraZoom", "MOUSE_WHEEL_AXIS", 1⟩, by decide, rfl⟩]
    rfl

set_option maxHeartbeats 1600000 in
theorem C8_witness :
    (internal_input_setup.setup_input_mappings allOk st0).r = .ok true ∧
    ((internal_input_setup.setup_input_mappings allOk st0).s).w.actionMappings.filter
      (fun m => m.actionName == "Boost") = [⟨"Boost", "E"⟩] :=
  ⟨by rfl, ((C8_final_mappings allOk st0 (by rfl)).1).1⟩

/-- C9: `ensure_directory_exists` returns `True` for every input path — every
normal result, in both scripts' copies, is `true` — so in each of the three
blueprint-creation functions the branch that logs a directory-creation
failure and returns `None` is unreachable: its log message never appears in
any run's trace. -/
theorem C9_ensure_directory_true :
    (∀ path oc s b,
      (internal_spaceship_creator.ensure_directory_exists path oc s).r = .ok b → b = true) ∧
    (∀ path oc s b,
      (internal_weapon_system.ensure_directory_exists path oc s).r = .ok b → b = true) ∧
    (∀ oc s, (internal_spaceship_creator.create_spaceship_blueprint oc s).tr.filter
      (isLogOf "[SPACESHIP CREATOR] Failed to create blueprint directory") = []) ∧
    (∀ oc s, (internal_weapon_system.create_laser_projectile_blueprint oc s).tr.filter
      (isLogOf "[WEAPON SYSTEM] Failed to create weapons directory") = []) ∧
    (∀ oc s, (internal_weapon_system.create_missile_projectile_blueprint oc s).tr.filter
      (isLogOf "[WEAPON SYSTEM] Failed to create weapons directory") = []) :=
  ⟨fun path => ede_true_SC path, fun path => ede_true_WS path,
    csb_nodirfail, laser_nodirfail, missile_nodirfail⟩

theorem C9_witness :
    (internal_spaceship_creator.ensure_directory_exists "/Game/SpaceDogfight/Blueprints"
      allOk st0).r = .ok true ∧
    (internal_weapon_system.ensure_directory_exists "/Game/SpaceDogfight/Weapons"
      allOk st0).r = .ok true ∧
    true = true ∧ true = true :=
  ⟨by rfl, by rfl,
    C9_ensure_directory_true.1 "/Game/SpaceDogfight/Blueprints" allOk st0 true (by rfl),
    C9_ensure_directory_true.2.1 "/Game/SpaceDogfight/Weapons" allOk st0 true (by rfl)⟩

set_option maxHeartbeats 800000 in
theorem C10_witness :
    internal_complete_setup.hasMain "internal_spaceship_creator" = true ∧
    (internal_complete_setup.import_and_run_module "internal_spaceship_creator"
        "internal_spaceship_creator.py" orNilCreate st0).r = .ok true ∧
    ((internal_complete_setup.import_and_run_module "internal_spaceship_creator"
        "internal_spaceship_creator.py" orNilCreate st0).tr.filter
      (isEnterOf ("internal_spaceship_creator" ++ ".main"))).length = 2 :=
  ⟨by decide, by rfl,
    C10_double_execution.2 "internal_spaceship_creator" "internal_spaceship_creator.py"
      orNilCreate st0 (by decide) (by rfl)⟩

end Dogfight
